import Mathlib

/-!
Verification of the pdpIQ extraction → scoring → recommendation pipeline.

The JavaScript source is shallowly embedded: JS numbers appearing in the
scoring arithmetic are modelled as rationals (`ℚ`), `Math.round`/`Math.ceil`
as explicit rounding functions, JS objects as Lean structures, optional /
possibly-`undefined` fields as `Option`, and JS string truthiness
(`if (x)` on a string) as "present and non-empty".  Presentational
`details`/`description` strings carried by factor and recommendation
records are omitted from the embedding: no property in this development
reads them.
-/

namespace PdpIQ

/-- JS `Math.round` for the non-negative values used throughout the scoring
engine: round half away from zero, i.e. `⌊q + 1/2⌋`. -/
def jsRound (q : ℚ) : ℚ := (⌊q + 1/2⌋ : ℤ)

/-- JS `Math.ceil`. -/
def jsCeil (q : ℚ) : ℚ := (⌈q⌉ : ℤ)

/-- JS addition on numbers that may be `NaN`/`undefined` (`none`): any
such operand makes the result `NaN`. -/
def jsAddN : Option ℚ → Option ℚ → Option ℚ
  | some a, some b => some (a + b)
  | _, _ => none

/-- JS multiplication with `NaN`/`undefined` propagation. -/
def jsMulN : Option ℚ → Option ℚ → Option ℚ
  | some a, some b => some (a * b)
  | _, _ => none

/-- JS division with `NaN`/`undefined` propagation.  A zero divisor
(which JS sends to ±Infinity, not `NaN`) is outside the embedding's
domain; no call site divides by zero. -/
def jsDivN : Option ℚ → Option ℚ → Option ℚ
  | some a, some b => some (a / b)
  | _, _ => none

/-- JS `Math.min` (`NaN` when either argument is `NaN`/`undefined`). -/
def jsMinN : Option ℚ → Option ℚ → Option ℚ
  | some a, some b => some (min a b)
  | _, _ => none

/-- JS `Math.round` with `NaN` propagation. -/
def jsRoundN : Option ℚ → Option ℚ
  | some q => some (jsRound q)
  | none => none

/-- JS `<` on possibly-`NaN`/`undefined` numbers (false when either side
is not a number). -/
def jsLtN : Option ℚ → Option ℚ → Bool
  | some a, some b => decide (a < b)
  | _, _ => false

theorem jsRound_nonneg {q : ℚ} (h : 0 ≤ q) : 0 ≤ jsRound q := by
  unfold jsRound
  have : (0 : ℤ) ≤ ⌊q + 1/2⌋ := by
    apply Int.le_floor.mpr
    push_cast
    linarith
  exact_mod_cast this

theorem jsRound_le_int {q : ℚ} {n : ℤ} (h : q ≤ n) : jsRound q ≤ (n : ℚ) := by
  unfold jsRound
  have : ⌊q + 1/2⌋ ≤ n := by
    rw [Int.floor_le_iff]
    linarith
  exact_mod_cast this

theorem jsRound_le_natCast {q : ℚ} {n : ℕ} (h : q ≤ n) : jsRound q ≤ (n : ℚ) := by
  have := jsRound_le_int (n := (n : ℤ)) (by exact_mod_cast h)
  exact_mod_cast this

/-! ### String helpers mirroring the JS string operations -/

/-- JS `String.prototype.toLowerCase` restricted to ASCII, which is all the
embedded comparisons exercise. -/
def lowerStr (s : String) : String := (s.toList.map Char.toLower).asString

/-- JS `String.prototype.trim`. -/
def jsTrim (s : String) : String :=
  ((s.toList.dropWhile Char.isWhitespace).reverse.dropWhile Char.isWhitespace).reverse.asString

/-- `needle` occurs at the start of `hay`. -/
def listIsPrefix : List Char → List Char → Bool
  | [], _ => true
  | _ :: _, [] => false
  | n :: ns, h :: hs => n == h && listIsPrefix ns hs

/-- `needle` occurs somewhere inside `hay`. -/
def listIsInfix (needle : List Char) : List Char → Bool
  | [] => listIsPrefix needle []
  | h :: hs => listIsPrefix needle (h :: hs) || listIsInfix needle hs

/-- JS `haystack.includes(needle)`. -/
def includesStr (haystack needle : String) : Bool :=
  listIsInfix needle.toList haystack.toList

/-- JS `haystack.endsWith(suffix)`. -/
def endsWithStr (haystack suffix : String) : Bool :=
  listIsPrefix suffix.toList.reverse haystack.toList.reverse

/-- JS string truthiness on a possibly-absent field: `undefined`, `null` and
the empty string are falsy. -/
def truthyS : Option String → Bool
  | none => false
  | some s => !s.isEmpty

/-- Splitting a string at whitespace.  The JS sources use
`split(/\s+/).filter(w => w.length > 2)`; splitting at every whitespace
character only adds empty fragments between consecutive whitespace
characters, and those are removed by the same length filter, so the two
agree after filtering. -/
def splitWsFilter (s : String) (minLen : ℕ) : List String :=
  (s.split Char.isWhitespace).filter (fun w => minLen < w.length)

/-! ### Scoring data model -/

/-- Factor / recommendation status strings, as a closed enum. -/
inductive Status where
  | pass
  | warning
  | fail
  | unknown
deriving DecidableEq

/-- Consumer context selecting a multiplier row. -/
inductive Context where
  | want
  | need
  | hybrid
deriving DecidableEq

/-- One atomic scoring factor, as pushed onto a category's `factors` array.
The presentational `details` string is omitted. -/
structure Factor where
  name : String
  status : Status
  points : ℚ
  maxPoints : ℚ
  critical : Bool := false
  contextual : Bool := false
deriving DecidableEq

/-- A category result: `{score, maxScore, factors, weight, categoryName}`. -/
structure CategoryScore where
  score : ℚ
  maxScore : ℚ
  factors : List Factor
  weight : ℚ
  categoryName : String
deriving DecidableEq

/-- A factor whose `points`/`maxPoints` are JS numbers that may be
`NaN`/`undefined` (`none`).  The AI-Discoverability factors need this:
their `maxPoints` come from the shipped weights table, which lacks three
of the keys the engine reads. -/
structure FactorN where
  name : String
  status : Status
  points : Option ℚ
  maxPoints : Option ℚ
  critical : Bool := false
deriving DecidableEq

/-- A plain factor viewed as a `FactorN` (all its numbers are defined). -/
def factorN (f : Factor) : FactorN :=
  { name := f.name, status := f.status, points := some f.points,
    maxPoints := some f.maxPoints, critical := f.critical }

/-- The AI-Discoverability category result: its `score` may be `NaN`. -/
structure CategoryScoreN where
  score : Option ℚ
  maxScore : ℚ
  factors : List FactorN
  weight : ℚ
  categoryName : String
deriving DecidableEq

/-! ### Weights (`src/scoring/weights.js`)

`CATEGORY_WEIGHTS`, `CONTEXT_MULTIPLIERS`, the per-category
`FACTOR_WEIGHTS` blocks and the grade thresholds below are transcribed
from the `weights.js` revision shipped in the repository snapshot. -/

/-- `CATEGORY_WEIGHTS` from `weights.js`. -/
structure CategoryWeights where
  structuredData : ℚ
  protocolMeta : ℚ
  contentQuality : ℚ
  contentStructure : ℚ
  authorityTrust : ℚ
  aiDiscoverability : ℚ

def CATEGORY_WEIGHTS : CategoryWeights :=
  { structuredData := 23/100
    protocolMeta := 18/100
    contentQuality := 23/100
    contentStructure := 13/100
    authorityTrust := 13/100
    aiDiscoverability := 10/100 }

/-- One row of `CONTEXT_MULTIPLIERS`. -/
structure Multipliers where
  emotionalBenefitCopy : ℚ
  technicalSpecifications : ℚ
  compatibilityInfo : ℚ
  socialProof : ℚ
  certifications : ℚ
  reviewCount : ℚ
  reviewRating : ℚ
  benefitStatements : ℚ
  warrantyInfo : ℚ
  comparisonContent : ℚ

/-- `CONTEXT_MULTIPLIERS` from `weights.js`, one row per context. -/
def CONTEXT_MULTIPLIERS : Context → Multipliers
  | .want =>
    { emotionalBenefitCopy := 15/10, technicalSpecifications := 6/10
      compatibilityInfo := 4/10, socialProof := 14/10, certifications := 5/10
      reviewCount := 14/10, reviewRating := 13/10, benefitStatements := 15/10
      warrantyInfo := 7/10, comparisonContent := 6/10 }
  | .need =>
    { emotionalBenefitCopy := 5/10, technicalSpecifications := 15/10
      compatibilityInfo := 2, socialProof := 8/10, certifications := 16/10
      reviewCount := 8/10, reviewRating := 1, benefitStatements := 5/10
      warrantyInfo := 14/10, comparisonContent := 14/10 }
  | .hybrid =>
    { emotionalBenefitCopy := 1, technicalSpecifications := 1
      compatibilityInfo := 1, socialProof := 1, certifications := 1
      reviewCount := 1, reviewRating := 1, benefitStatements := 1
      warrantyInfo := 1, comparisonContent := 1 }

/-- `FACTOR_WEIGHTS.structuredData`. -/
structure SDWeights where
  productSchema : ℚ
  offerSchema : ℚ
  aggregateRating : ℚ
  reviewSchema : ℚ
  faqSchema : ℚ
  breadcrumbSchema : ℚ
  organizationSchema : ℚ
  imageSchema : ℚ

def FACTOR_WEIGHTS_structuredData : SDWeights :=
  { productSchema := 30, offerSchema := 20, aggregateRating := 15
    reviewSchema := 10, faqSchema := 10, breadcrumbSchema := 5
    organizationSchema := 5, imageSchema := 5 }

/-- `FACTOR_WEIGHTS.protocolMeta`. -/
structure PMWeights where
  ogImage : ℚ
  ogImageFormat : ℚ
  ogTitle : ℚ
  ogDescription : ℚ
  ogType : ℚ
  twitterCard : ℚ
  twitterImage : ℚ
  canonical : ℚ
  metaDescription : ℚ
  robotsAllowsIndex : ℚ

def FACTOR_WEIGHTS_protocolMeta : PMWeights :=
  { ogImage := 20, ogImageFormat := 15, ogTitle := 10, ogDescription := 10
    ogType := 5, twitterCard := 10, twitterImage := 5, canonical := 10
    metaDescription := 10, robotsAllowsIndex := 5 }

/-- `FACTOR_WEIGHTS.contentQuality`. -/
structure CQWeights where
  descriptionLength : ℚ
  descriptionQuality : ℚ
  specificationCount : ℚ
  specificationDetail : ℚ
  featureCount : ℚ
  faqPresence : ℚ
  dimensions : ℚ
  materials : ℚ
  careInstructions : ℚ
  warrantyInfo : ℚ
  compatibilityInfo : ℚ
  comparisonContent : ℚ

def FACTOR_WEIGHTS_contentQuality : CQWeights :=
  { descriptionLength := 15, descriptionQuality := 10, specificationCount := 10
    specificationDetail := 5, featureCount := 10, faqPresence := 10
    dimensions := 5, materials := 5, careInstructions := 3, warrantyInfo := 7
    compatibilityInfo := 10, comparisonContent := 5 }

/-- `FACTOR_WEIGHTS.contentStructure`. -/
structure CSWeights where
  h1Presence : ℚ
  headingHierarchy : ℚ
  semanticHTML : ℚ
  contentRatioW : ℚ
  tableStructure : ℚ
  listStructure : ℚ
  ariaLabels : ℚ
  primaryImageAlt : ℚ
  allImagesAlt : ℚ
  jsDependency : ℚ
  readability : ℚ

def FACTOR_WEIGHTS_contentStructure : CSWeights :=
  { h1Presence := 15, headingHierarchy := 12, semanticHTML := 12
    contentRatioW := 12, tableStructure := 10, listStructure := 8
    ariaLabels := 6, primaryImageAlt := 10, allImagesAlt := 8
    jsDependency := 10, readability := 8 }

/-- `FACTOR_WEIGHTS.authorityTrust`. -/
structure ATWeights where
  reviewCount : ℚ
  averageRating : ℚ
  reviewRecency : ℚ
  reviewDepth : ℚ
  brandClarity : ℚ
  certifications : ℚ
  awards : ℚ

def FACTOR_WEIGHTS_authorityTrust : ATWeights :=
  { reviewCount := 25, averageRating := 20, reviewRecency := 15
    reviewDepth := 10, brandClarity := 15, certifications := 10, awards := 5 }

/-- `FACTOR_WEIGHTS.aiDiscoverability` exactly as it appears in the
snapshot's `weights.js`, as an association list over the JS object's keys.
This revision of the table predates the AI-Discoverability factor split
used by `scoring-engine.js`: it has `contentFreshness` and
`dateSignalsPresent` entries and *no* `entityConsistency`,
`answerFormatContent` or `productIdentifiers` keys, so those three
property reads yield `undefined`. -/
def FACTOR_WEIGHTS_aiDiscoverability_src : List (String × ℚ) :=
  [(("aiCrawlerAccess"), 35), (("contentFreshness"), 30),
   (("llmsTxtPresence"), 20), (("dateSignalsPresent"), 15)]

/-- The JS property read `FACTOR_WEIGHTS.aiDiscoverability[k]`: `none` is
`undefined` (key absent from the shipped table). -/
def aiWeight (k : String) : Option ℚ :=
  (FACTOR_WEIGHTS_aiDiscoverability_src.find? (fun p => p.1 == k)).map
    (fun p => p.2)

/-- Letter grades. -/
inductive Grade where
  | A
  | B
  | C
  | D
  | F
deriving DecidableEq

/-- `getGrade` from `weights.js`: thresholds A≥90, B≥80, C≥70, D≥60. -/
def getGrade (score : ℚ) : Grade :=
  if 90 ≤ score then .A
  else if 80 ≤ score then .B
  else if 70 ≤ score then .C
  else if 60 ≤ score then .D
  else .F

/-- `getGrade` applied to a JS number that may be `NaN`: every `NaN`
comparison is false, so the chain falls through to `F`. -/
def getGradeN : Option ℚ → Grade
  | some q => getGrade q
  | none => .F

/-! ### Extraction-result shape consumed by the scoring engine

These structures mirror exactly the fields of the content script's
extraction result that `scoring-engine.js` and
`recommendation-engine.js` read.  Fields that can be `undefined`/`null`
in JS are `Option`; numeric scores are rationals. -/

/-- The `schemas.product` record built by the content script. -/
structure SchemaProduct where
  name : Option String
  description : Option String
  image : Option String
  sku : Option String
  gtin : Option String
  mpn : Option String
  brand : Option String
  hasOffer : Bool
  hasRating : Bool
  isProductGroup : Bool
deriving DecidableEq

/-- One entry of the `schemas.offer` array. -/
structure OfferEntry where
  price : Option String
  priceCurrency : Option String
  availability : Option String
deriving DecidableEq

/-- The `schemas.aggregateRating` record.  `ratingValue` is `none` when the
JS value is `NaN` (e.g. `parseFloat(undefined)`). -/
structure SchemaRating where
  ratingValue : Option ℚ
  reviewCount : Option ℤ
  bestRating : ℚ
deriving DecidableEq

/-- The `schemas.faq` record (engine reads `questionCount`). -/
structure SchemaFaq where
  questionCount : ℕ
deriving DecidableEq

/-- The `schemas.breadcrumb` record (engine reads `itemCount`). -/
structure SchemaBreadcrumb where
  itemCount : ℕ
deriving DecidableEq

/-- A `schemas.organization` / `schemas.brand` record. -/
structure SchemaOrg where
  name : Option String
deriving DecidableEq

/-- One structured review entry (engine reads only the array length). -/
structure ReviewEntry where
  author : Option String
  datePublished : Option String
  reviewBody : Option String
deriving DecidableEq

/-- The normalized `schemas` slot set (`SchemaEntitySet`). -/
structure SchemaSet where
  product : Option SchemaProduct
  offer : Option (List OfferEntry)
  aggregateRating : Option SchemaRating
  reviews : List ReviewEntry
  faq : Option SchemaFaq
  breadcrumb : Option SchemaBreadcrumb
  organization : Option SchemaOrg
  brand : Option SchemaOrg
  images : List String
deriving DecidableEq

/-- `extractedData.structuredData` as read by the engine. -/
structure StructuredDataInput where
  schemas : SchemaSet
deriving DecidableEq

/-- Open Graph meta tags (`type'` embeds the JS `type` property). -/
structure OpenGraphTags where
  image : Option String
  title : Option String
  description : Option String
  type' : Option String
deriving DecidableEq

/-- Twitter card meta tags. -/
structure TwitterTags where
  card : Option String
  image : Option String
deriving DecidableEq

/-- Canonical-link flags computed by the extractor. -/
structure CanonicalTag where
  present : Bool
  matchesCurrentUrl : Bool
  isProductCanonical : Bool
deriving DecidableEq

/-- Standard meta tags (engine reads `description`). -/
structure StandardTags where
  description : Option String
deriving DecidableEq

/-- Robots meta flags (engine reads `isBlocked`). -/
structure RobotsMeta where
  isBlocked : Bool
deriving DecidableEq

/-- `extractedData.metaTags`. -/
structure MetaTagsInput where
  openGraph : OpenGraphTags
  twitterCards : TwitterTags
  canonical : CanonicalTag
  standard : StandardTags
  robots : RobotsMeta
deriving DecidableEq

/-- `contentQuality.description`. -/
structure DescriptionInfo where
  wordCount : ℕ
  lengthScore : ℚ
  hasBenefitStatements : Bool
  hasEmotionalLanguage : Bool
  hasTechnicalTerms : Bool
deriving DecidableEq

/-- One `specifications.items` entry (engine reads `hasUnit`). -/
structure SpecItem where
  hasUnit : Bool
deriving DecidableEq

/-- `contentQuality.specifications`. -/
structure SpecsInfo where
  count : ℕ
  countScore : ℚ
  items : List SpecItem
deriving DecidableEq

/-- `contentQuality.features`. -/
structure FeaturesInfo where
  count : ℕ
  countScore : ℚ
deriving DecidableEq

/-- `contentQuality.faq`. -/
structure FaqInfo where
  count : ℕ
  countScore : ℚ
deriving DecidableEq

/-- `contentQuality.productDetails` flags. -/
structure ProductDetailsInfo where
  hasDimensions : Bool
  hasMaterials : Bool
  hasCareInstructions : Bool
  hasWarranty : Bool
  hasCompatibility : Bool
deriving DecidableEq

/-- `contentQuality.textMetrics` (readability score, possibly absent). -/
structure TextMetrics where
  readabilityScore : Option ℚ
deriving DecidableEq

/-- `extractedData.contentQuality`. -/
structure ContentQualityInput where
  description : DescriptionInfo
  specifications : SpecsInfo
  features : FeaturesInfo
  faq : FaqInfo
  productDetails : ProductDetailsInfo
  textMetrics : TextMetrics
deriving DecidableEq

/-- `headings.h1`. -/
structure H1Info where
  count : ℕ
  texts : List String
deriving DecidableEq

/-- `contentStructure.headings`. -/
structure HeadingsInfo where
  hasSingleH1 : Bool
  hasH1 : Bool
  h1 : H1Info
  hierarchyValid : Bool
  hierarchyIssues : List String
deriving DecidableEq

/-- `contentStructure.semanticHTML`. -/
structure SemanticInfo where
  score : ℚ
  hasMain : Bool
  hasArticle : Bool
deriving DecidableEq

/-- `contentStructure.contentRatio` (`ratioVal` embeds the JS `ratio`). -/
structure ContentRatioInfo where
  score : ℚ
  ratioVal : ℚ
  mainContentFound : Bool
deriving DecidableEq

/-- `contentStructure.tables`. -/
structure TablesInfo where
  score : ℚ
  hasProperTables : Bool
  tableCount : ℕ
deriving DecidableEq

/-- `contentStructure.lists`. -/
structure ListsInfo where
  score : ℚ
  hasProperLists : Bool
  orderedCount : ℕ
  unorderedCount : ℕ
deriving DecidableEq

/-- `contentStructure.accessibility`. -/
structure AccessInfo where
  ariaLabels : ℕ
deriving DecidableEq

/-- `images.primaryImage`. -/
structure PrimaryImage where
  hasAlt : Bool
deriving DecidableEq

/-- `contentStructure.images`. -/
structure ImagesInfo where
  primaryImage : Option PrimaryImage
  altCoverage : ℚ
  totalCount : ℕ
deriving DecidableEq

/-- `contentStructure.jsDependency`. -/
structure JsDependencyInfo where
  score : ℚ
  dependencyLevel : String
deriving DecidableEq

/-- `extractedData.contentStructure` (`contentRatioData` embeds the JS
`contentRatio` property). -/
structure ContentStructureInput where
  headings : HeadingsInfo
  semanticHTML : SemanticInfo
  contentRatioData : ContentRatioInfo
  tables : TablesInfo
  lists : ListsInfo
  accessibility : AccessInfo
  images : ImagesInfo
  jsDependency : JsDependencyInfo
deriving DecidableEq

/-- `trustSignals.reviews`.  `hasRecentReviews` is tri-state in JS
(`true` / `false` / `undefined`), hence `Option Bool`. -/
structure ReviewsInfo where
  count : ℕ
  hasReviews : Bool
  countScore : ℚ
  ratingScore : ℚ
  depthScore : ℚ
  averageRating : ℚ
  hasRecentReviews : Option Bool
  averageReviewLength : ℚ
  reviewsAnalyzed : ℕ
deriving DecidableEq

/-- `trustSignals.brand`. -/
structure BrandInfo where
  score : ℚ
  clarity : String
  name : Option String
  inH1 : Bool
  inTitle : Bool
deriving DecidableEq

/-- `trustSignals.certifications`. -/
structure CertsInfo where
  found : Bool
  count : ℕ
  score : ℚ
deriving DecidableEq

/-- `trustSignals.awards`. -/
structure AwardsInfo where
  count : ℕ
deriving DecidableEq

/-- `extractedData.trustSignals`. -/
structure TrustSignalsInput where
  reviews : ReviewsInfo
  brand : BrandInfo
  certifications : CertsInfo
  awards : AwardsInfo
deriving DecidableEq

/-- `aiDiscoverability.answerFormat` signals. -/
structure AnswerFormatInfo where
  bestForCount : ℕ
  hasComparison : Bool
  hasHowTo : Bool
  useCaseCount : ℕ
deriving DecidableEq

/-- `extractedData.aiDiscoverability` as the engine reads it. -/
structure AIDiscInput where
  answerFormat : Option AnswerFormatInfo
deriving DecidableEq

/-- `extractedData.pageInfo` (engine reads `title`). -/
structure PageInfo where
  title : Option String
deriving DecidableEq

/-- A full extraction result, as consumed by `calculateScore`. -/
structure ExtractionInput where
  structuredData : StructuredDataInput
  metaTags : MetaTagsInput
  contentQuality : ContentQualityInput
  contentStructure : ContentStructureInput
  trustSignals : TrustSignalsInput
  aiDiscoverability : AIDiscInput
  pageInfo : PageInfo
deriving DecidableEq

/-- `RobotsFact` produced by the service worker's `fetchRobotsTxt`. -/
structure RobotsFact where
  accessible : Bool
  error : Option String
  blockedCrawlers : List String
  allowedCrawlers : List String
deriving DecidableEq

/-- One of the two `llms.txt` probe results. -/
structure LlmsSub where
  found : Bool
deriving DecidableEq

/-- `LlmsTxtFact`. -/
structure LlmsFact where
  found : Bool
  llmsTxt : Option LlmsSub
  llmsFullTxt : Option LlmsSub
deriving DecidableEq

/-- The optional network-verified data handed to `calculateScore`. -/
structure NetworkData where
  robots : Option RobotsFact
  llms : Option LlmsFact
deriving DecidableEq

/-- `ImageFormatFact` from og:image verification. -/
structure ImageFormatFact where
  isWebP : Bool
  isValidFormat : Bool
  format : Option String
deriving DecidableEq

/-! ### Scoring engine (`src/scoring/scoring-engine.js`) -/

/-- JS `x?.length || 0` on an optional string. -/
def optLen : Option String → ℕ
  | none => 0
  | some s => s.length

/-- JS `opt === lit` for an optional string against a literal. -/
def optEq (o : Option String) (lit : String) : Bool :=
  match o with
  | none => false
  | some s => s == lit

/-- The graduated Product-schema sub-score: one fixed sub-weight per present
field (name 6, description 5, image 5, offers 5, brand 3, identifiers 3,
rating 3). -/
def productFieldScore (p : SchemaProduct) : ℚ :=
  (if truthyS p.name then 6 else 0) +
  (if truthyS p.description then 5 else 0) +
  (if truthyS p.image then 5 else 0) +
  (if p.hasOffer then 5 else 0) +
  (if truthyS p.brand then 3 else 0) +
  (if truthyS p.gtin || truthyS p.mpn || truthyS p.sku then 3 else 0) +
  (if p.hasRating then 3 else 0)

/-- The graduated Product Schema factor score: present fields rescaled
from 30 onto the factor weight (`0` when the product slot is empty). -/
def productSchemaScore (product : Option SchemaProduct) (w : ℚ) : ℚ :=
  match product with
  | none => 0
  | some p => jsRound ((productFieldScore p / 30) * w)

/-- `ScoringEngine.scoreStructuredData`.  As in the source, the category
`score` is the raw factor sum (no clamp is applied in this category). -/
def scoreStructuredData (data : StructuredDataInput) : CategoryScore :=
  let weights := FACTOR_WEIGHTS_structuredData
  let product := data.schemas.product
  let productScore : ℚ := productSchemaScore product weights.productSchema
  let productStatus : Status :=
    match product with
    | none => .fail
    | some _ =>
      if weights.productSchema * (8/10) ≤ productScore then .pass
      else if weights.productSchema * (5/10) ≤ productScore then .warning
      else .fail
  let productFactor : Factor :=
    { name := ("Product Schema"), status := productStatus, points := productScore
      maxPoints := weights.productSchema, critical := true }
  let hasOffer := data.schemas.offer.isSome
  let offerScore : ℚ := if hasOffer then weights.offerSchema else 0
  let offerFactor : Factor :=
    { name := ("Offer Schema"), status := if hasOffer then .pass else .fail
      points := offerScore, maxPoints := weights.offerSchema, critical := true }
  let hasRating := data.schemas.aggregateRating.isSome
  let ratingScore : ℚ := if hasRating then weights.aggregateRating else 0
  let ratingFactor : Factor :=
    { name := ("AggregateRating Schema"), status := if hasRating then .pass else .fail
      points := ratingScore, maxPoints := weights.aggregateRating }
  let hasReviews := 0 < data.schemas.reviews.length
  let reviewScore : ℚ := if hasReviews then weights.reviewSchema else 0
  let reviewFactor : Factor :=
    { name := ("Review Schema"), status := if hasReviews then .pass else .fail
      points := reviewScore, maxPoints := weights.reviewSchema }
  let hasFaq := match data.schemas.faq with
    | none => false
    | some f => 0 < f.questionCount
  let faqScore : ℚ := if hasFaq then weights.faqSchema else 0
  let faqFactor : Factor :=
    { name := ("FAQ Schema"), status := if hasFaq then .pass else .fail
      points := faqScore, maxPoints := weights.faqSchema }
  let hasBreadcrumb := data.schemas.breadcrumb.isSome
  let breadcrumbScore : ℚ := if hasBreadcrumb then weights.breadcrumbSchema else 0
  let breadcrumbFactor : Factor :=
    { name := ("Breadcrumb Schema"), status := if hasBreadcrumb then .pass else .fail
      points := breadcrumbScore, maxPoints := weights.breadcrumbSchema }
  let hasOrg := data.schemas.organization.isSome || data.schemas.brand.isSome
  let orgScore : ℚ := if hasOrg then weights.organizationSchema else 0
  let orgFactor : Factor :=
    { name := ("Organization/Brand Schema"), status := if hasOrg then .pass else .fail
      points := orgScore, maxPoints := weights.organizationSchema }
  let hasImageSchema := 0 < data.schemas.images.length
  let imageSchemaScore : ℚ := if hasImageSchema then weights.imageSchema else 0
  let imageFactor : Factor :=
    { name := ("ImageObject Schema"), status := if hasImageSchema then .pass else .fail
      points := imageSchemaScore, maxPoints := weights.imageSchema }
  { score := productScore + offerScore + ratingScore + reviewScore + faqScore +
      breadcrumbScore + orgScore + imageSchemaScore
    maxScore := 100
    factors := [productFactor, offerFactor, ratingFactor, reviewFactor, faqFactor,
      breadcrumbFactor, orgFactor, imageFactor]
    weight := CATEGORY_WEIGHTS.structuredData
    categoryName := ("Structured Data") }

/-- The URL-based og:image extension test: the regex
`\.(jpe?g|png|gif)(\?|$)` matched against the lowercased URL. -/
def extFormatMatch (url : String) : Bool :=
  [("jpg"), ("jpeg"), ("png"), ("gif")].any fun ext =>
    includesStr url (("." ++ ext ++ "?")) || endsWithStr url (("." ++ ext))

/-- The `og:image Format` factor computation inside `scoreProtocolMeta`:
verified facts first, otherwise inference from the lowercased URL. -/
def ogImageFormatFactor (ogImage : Option String)
    (imageVerification : Option ImageFormatFact) (w : ℚ) : Factor :=
  match imageVerification with
  | some v =>
    if v.isWebP then
      { name := ("og:image Format"), status := .fail, points := 0, maxPoints := w
        critical := true }
    else if v.isValidFormat then
      { name := ("og:image Format"), status := .pass, points := w, maxPoints := w
        critical := true }
    else
      { name := ("og:image Format"), status := .warning, points := w / 2
        maxPoints := w, critical := true }
  | none =>
    if truthyS ogImage then
      let url := lowerStr (ogImage.getD (("")))
      if endsWithStr url ((".webp")) || includesStr url ((".webp?")) then
        { name := ("og:image Format"), status := .fail, points := 0, maxPoints := w
          critical := true }
      else if extFormatMatch url then
        { name := ("og:image Format"), status := .pass, points := w, maxPoints := w
          critical := true }
      else
        { name := ("og:image Format"), status := .unknown, points := 0
          maxPoints := w, critical := true }
    else
      { name := ("og:image Format"), status := .unknown, points := 0
        maxPoints := w, critical := true }

/-- `ScoringEngine.scoreProtocolMeta`.  As in the source, the category
`score` is the raw factor sum (no clamp is applied in this category). -/
def scoreProtocolMeta (data : MetaTagsInput)
    (imageVerification : Option ImageFormatFact) : CategoryScore :=
  let weights := FACTOR_WEIGHTS_protocolMeta
  let og := data.openGraph
  let twitter := data.twitterCards
  let hasOgImage := truthyS og.image
  let ogImageScore : ℚ := if hasOgImage then weights.ogImage else 0
  let ogImageFactor : Factor :=
    { name := ("og:image Present"), status := if hasOgImage then .pass else .fail
      points := ogImageScore, maxPoints := weights.ogImage, critical := true }
  let formatFactor := ogImageFormatFactor og.image imageVerification weights.ogImageFormat
  let hasOgTitle := truthyS og.title
  let titleLength := optLen og.title
  let titleOptimal := 0 < titleLength && titleLength ≤ 60
  let ogTitleScore : ℚ :=
    if hasOgTitle then (if titleOptimal then weights.ogTitle else weights.ogTitle * (7/10))
    else 0
  let ogTitleFactor : Factor :=
    { name := ("og:title")
      status := if hasOgTitle then (if titleOptimal then .pass else .warning) else .fail
      points := ogTitleScore, maxPoints := weights.ogTitle }
  let hasOgDesc := truthyS og.description
  let descLength := optLen og.description
  let descOptimal := 100 ≤ descLength && descLength ≤ 200
  let ogDescScore : ℚ :=
    if hasOgDesc then
      (if descOptimal then weights.ogDescription else weights.ogDescription * (7/10))
    else 0
  let ogDescFactor : Factor :=
    { name := ("og:description")
      status := if hasOgDesc then (if descOptimal then .pass else .warning) else .fail
      points := ogDescScore, maxPoints := weights.ogDescription }
  let isProductType := optEq og.type' (("product")) || optEq og.type' (("og:product"))
  let ogTypeScore : ℚ := if isProductType then weights.ogType else 0
  let ogTypeFactor : Factor :=
    { name := ("og:type = product"), status := if isProductType then .pass else .fail
      points := ogTypeScore, maxPoints := weights.ogType }
  let hasTwitterCard := truthyS twitter.card
  let isLargeImage := optEq twitter.card (("summary_large_image"))
  let twitterScore : ℚ :=
    if hasTwitterCard then
      (if isLargeImage then weights.twitterCard else weights.twitterCard * (7/10))
    else 0
  let twitterFactor : Factor :=
    { name := ("Twitter Card")
      status := if hasTwitterCard then (if isLargeImage then .pass else .warning) else .fail
      points := twitterScore, maxPoints := weights.twitterCard }
  let hasTwitterImage := truthyS twitter.image
  let twitterImageScore : ℚ := if hasTwitterImage then weights.twitterImage else 0
  let twitterImageFactor : Factor :=
    { name := ("Twitter Image"), status := if hasTwitterImage then .pass else .fail
      points := twitterImageScore, maxPoints := weights.twitterImage }
  let hasCanonical := data.canonical.present
  let canonicalIsValid := data.canonical.matchesCurrentUrl || data.canonical.isProductCanonical
  let canonicalScore : ℚ :=
    if hasCanonical then
      (if canonicalIsValid then weights.canonical else weights.canonical * (7/10))
    else 0
  let canonicalFactor : Factor :=
    { name := ("Canonical URL")
      status := if hasCanonical then (if canonicalIsValid then .pass else .warning) else .fail
      points := canonicalScore, maxPoints := weights.canonical }
  let hasMetaDesc := truthyS data.standard.description
  let metaDescLength := optLen data.standard.description
  let metaDescOptimal := 120 ≤ metaDescLength && metaDescLength ≤ 160
  let metaDescScore : ℚ :=
    if hasMetaDesc then
      (if metaDescOptimal then weights.metaDescription else weights.metaDescription * (7/10))
    else 0
  let metaDescFactor : Factor :=
    { name := ("Meta Description")
      status := if hasMetaDesc then (if metaDescOptimal then .pass else .warning) else .fail
      points := metaDescScore, maxPoints := weights.metaDescription }
  let isBlocked := data.robots.isBlocked
  let robotsScore : ℚ := if isBlocked then 0 else weights.robotsAllowsIndex
  let robotsFactor : Factor :=
    { name := ("Robots Allows Indexing"), status := if isBlocked then .fail else .pass
      points := robotsScore, maxPoints := weights.robotsAllowsIndex
      critical := isBlocked }
  { score := ogImageScore + formatFactor.points + ogTitleScore + ogDescScore +
      ogTypeScore + twitterScore + twitterImageScore + canonicalScore +
      metaDescScore + robotsScore
    maxScore := 100
    factors := [ogImageFactor, formatFactor, ogTitleFactor, ogDescFactor, ogTypeFactor,
      twitterFactor, twitterImageFactor, canonicalFactor, metaDescFactor, robotsFactor]
    weight := CATEGORY_WEIGHTS.protocolMeta
    categoryName := ("Protocol & Meta Compliance") }

/-- JS `s ? Math.round((s / 100) * w) : 0`, the recurring rescaling of a
0–100 sub-score onto a factor weight (0 and `undefined` are both falsy and
both modelled as `0`). -/
def scalePart (s w : ℚ) : ℚ :=
  if s = 0 then 0 else jsRound ((s / 100) * w)

/-- `ScoringEngine.scoreContentQuality` (context-sensitive through
`this.multipliers` and `this.context`). -/
def scoreContentQuality (ctx : Context) (data : ContentQualityInput)
    (aiSignals : Option AIDiscInput) : CategoryScore :=
  let weights := FACTOR_WEIGHTS_contentQuality
  let m := CONTEXT_MULTIPLIERS ctx
  let desc := data.description
  let specs := data.specifications
  let features := data.features
  let faq := data.faq
  let details := data.productDetails
  let wordCount := desc.wordCount
  let descScore := scalePart desc.lengthScore weights.descriptionLength
  let descFactor : Factor :=
    { name := ("Description Length")
      status := if 100 ≤ wordCount then .pass else if 50 ≤ wordCount then .warning else .fail
      points := descScore, maxPoints := weights.descriptionLength }
  let descQualityRaw : ℚ :=
    (if desc.hasBenefitStatements || desc.hasEmotionalLanguage then
      (weights.descriptionQuality / 2) * m.emotionalBenefitCopy else 0) +
    (if desc.hasTechnicalTerms then
      (weights.descriptionQuality / 2) * m.technicalSpecifications else 0)
  let descQualityScore := min weights.descriptionQuality (jsRound descQualityRaw)
  let descQualityFactor : Factor :=
    { name := ("Description Quality")
      status := if weights.descriptionQuality * (7/10) ≤ descQualityScore then .pass
        else .warning
      points := descQualityScore, maxPoints := weights.descriptionQuality
      contextual := true }
  let specCount := specs.count
  let specScore0 := scalePart specs.countScore weights.specificationCount
  let specScore1 := jsRound (specScore0 * m.technicalSpecifications)
  let specScore := min (weights.specificationCount * (15/10)) specScore1
  let specPoints := min weights.specificationCount specScore
  let specFactor : Factor :=
    { name := ("Specifications")
      status := if 5 ≤ specCount then .pass else if 3 ≤ specCount then .warning else .fail
      points := specPoints, maxPoints := weights.specificationCount
      contextual := true }
  let featureCount := features.count
  let featureScore := scalePart features.countScore weights.featureCount
  let featureFactor : Factor :=
    { name := ("Features List")
      status := if 5 ≤ featureCount then .pass
        else if 3 ≤ featureCount then .warning else .fail
      points := featureScore, maxPoints := weights.featureCount }
  let faqCount := faq.count
  let faqScore := scalePart faq.countScore weights.faqPresence
  let faqFactor : Factor :=
    { name := ("FAQ Section")
      status := if 3 ≤ faqCount then .pass else if 0 < faqCount then .warning else .fail
      points := faqScore, maxPoints := weights.faqPresence }
  let dimensionsScore0 : ℚ := if details.hasDimensions then weights.dimensions else 0
  let dimensionsScore :=
    if ctx = .need then jsRound (dimensionsScore0 * (13/10)) else dimensionsScore0
  let dimensionsPoints := min weights.dimensions dimensionsScore
  let dimensionsFactor : Factor :=
    { name := ("Dimensions/Size")
      status := if details.hasDimensions then .pass else .fail
      points := dimensionsPoints, maxPoints := weights.dimensions
      contextual := ctx = .need }
  let materialsScore : ℚ := if details.hasMaterials then weights.materials else 0
  let materialsFactor : Factor :=
    { name := ("Materials"), status := if details.hasMaterials then .pass else .fail
      points := materialsScore, maxPoints := weights.materials }
  let careScore : ℚ := if details.hasCareInstructions then weights.careInstructions else 0
  let careFactor : Factor :=
    { name := ("Care Instructions")
      status := if details.hasCareInstructions then .pass else .fail
      points := careScore, maxPoints := weights.careInstructions }
  let warrantyScore0 : ℚ := if details.hasWarranty then weights.warrantyInfo else 0
  let warrantyScore := jsRound (warrantyScore0 * m.warrantyInfo)
  let warrantyPoints := min weights.warrantyInfo warrantyScore
  let warrantyFactor : Factor :=
    { name := ("Warranty Information")
      status := if details.hasWarranty then .pass else .fail
      points := warrantyPoints, maxPoints := weights.warrantyInfo
      contextual := true }
  let compatScore0 : ℚ := if details.hasCompatibility then weights.compatibilityInfo else 0
  let compatScore := jsRound (compatScore0 * m.compatibilityInfo)
  let compatPoints := min weights.compatibilityInfo compatScore
  let compatFactor : Factor :=
    { name := ("Compatibility Information")
      status := if details.hasCompatibility then .pass else .fail
      points := compatPoints, maxPoints := weights.compatibilityInfo
      contextual := true }
  let specItems := specs.items
  let specsWithUnits := (specItems.filter (·.hasUnit)).length
  let specDetailRat : ℚ :=
    if 0 < specItems.length then (specsWithUnits : ℚ) / (specItems.length : ℚ) else 0
  let specDetailScore : ℚ :=
    if 3/10 ≤ specDetailRat then weights.specificationDetail
    else if 0 < specDetailRat then jsRound (weights.specificationDetail * (5/10))
    else 0
  let specDetailFactor : Factor :=
    { name := ("Specification Detail")
      status := if 3/10 ≤ specDetailRat then .pass
        else if 0 < specDetailRat then .warning else .fail
      points := specDetailScore, maxPoints := weights.specificationDetail
      contextual := true }
  let hasComparison :=
    match aiSignals with
    | none => false
    | some ai => match ai.answerFormat with
      | none => false
      | some af => af.hasComparison
  let comparisonScore0 : ℚ := if hasComparison then weights.comparisonContent else 0
  let comparisonScore :=
    min weights.comparisonContent (jsRound (comparisonScore0 * m.comparisonContent))
  let comparisonFactor : Factor :=
    { name := ("Comparison Content")
      status := if hasComparison then .pass else .fail
      points := comparisonScore, maxPoints := weights.comparisonContent
      contextual := true }
  let rawScore := descScore + descQualityScore + specPoints + featureScore + faqScore +
    dimensionsPoints + materialsScore + careScore + warrantyPoints + compatPoints +
    specDetailScore + comparisonScore
  { score := min 100 rawScore
    maxScore := 100
    factors := [descFactor, descQualityFactor, specFactor, featureFactor, faqFactor,
      dimensionsFactor, materialsFactor, careFactor, warrantyFactor, compatFactor,
      specDetailFactor, comparisonFactor]
    weight := CATEGORY_WEIGHTS.contentQuality
    categoryName := ("Content Depth & Quality") }

/-- `ScoringEngine.scoreContentStructure`. -/
def scoreContentStructure (data : ContentStructureInput)
    (textMetrics : Option TextMetrics) : CategoryScore :=
  let weights := FACTOR_WEIGHTS_contentStructure
  let headings := data.headings
  let semantic := data.semanticHTML
  let ratioData := data.contentRatioData
  let tables := data.tables
  let lists := data.lists
  let a11y := data.accessibility
  let images := data.images
  let js := data.jsDependency
  let h1Score : ℚ :=
    if headings.hasSingleH1 then weights.h1Presence
    else if headings.hasH1 then weights.h1Presence * (5/10) else 0
  let h1Factor : Factor :=
    { name := ("H1 Heading")
      status := if headings.hasSingleH1 then .pass
        else if headings.hasH1 then .warning else .fail
      points := h1Score, maxPoints := weights.h1Presence }
  let hierarchyScore : ℚ :=
    if headings.hierarchyValid then weights.headingHierarchy
    else weights.headingHierarchy * (5/10)
  let hierarchyFactor : Factor :=
    { name := ("Heading Hierarchy")
      status := if headings.hierarchyValid then .pass else .warning
      points := hierarchyScore, maxPoints := weights.headingHierarchy }
  let semanticScore := scalePart semantic.score weights.semanticHTML
  let semanticFactor : Factor :=
    { name := ("Semantic HTML")
      status := if semantic.hasMain then .pass
        else if semantic.hasArticle then .warning else .fail
      points := semanticScore, maxPoints := weights.semanticHTML }
  let ratioScore := scalePart ratioData.score weights.contentRatioW
  let ratioFactor : Factor :=
    { name := ("Content-to-Chrome Ratio")
      status := if 5/10 ≤ ratioData.ratioVal then .pass
        else if 3/10 ≤ ratioData.ratioVal then .warning else .fail
      points := ratioScore, maxPoints := weights.contentRatioW }
  let tableScore := scalePart tables.score weights.tableStructure
  let tableFactor : Factor :=
    { name := ("Table Structure")
      status := if tables.hasProperTables then .pass
        else if 0 < tables.tableCount then .warning else .fail
      points := tableScore, maxPoints := weights.tableStructure }
  let listScore := scalePart lists.score weights.listStructure
  let listFactor : Factor :=
    { name := ("List Structure")
      status := if lists.hasProperLists then .pass else .fail
      points := listScore, maxPoints := weights.listStructure }
  let ariaScore : ℚ := if 0 < a11y.ariaLabels then weights.ariaLabels else 0
  let ariaFactor : Factor :=
    { name := ("ARIA Labels"), status := if 0 < a11y.ariaLabels then .pass else .fail
      points := ariaScore, maxPoints := weights.ariaLabels }
  let primaryHasAlt :=
    match images.primaryImage with
    | none => false
    | some pi => pi.hasAlt
  let primaryAltScore : ℚ := if primaryHasAlt then weights.primaryImageAlt else 0
  let primaryAltFactor : Factor :=
    { name := ("Primary Image Alt Text")
      status := if primaryHasAlt then .pass else .fail
      points := primaryAltScore, maxPoints := weights.primaryImageAlt }
  let allAltScore := jsRound (images.altCoverage * weights.allImagesAlt)
  let allAltFactor : Factor :=
    { name := ("Image Alt Coverage")
      status := if 9/10 ≤ images.altCoverage then .pass
        else if 5/10 ≤ images.altCoverage then .warning else .fail
      points := allAltScore, maxPoints := weights.allImagesAlt }
  let readabilityRaw : Option ℚ :=
    match textMetrics with
    | none => none
    | some tm => tm.readabilityScore
  let readabilityPts : ℚ :=
    match readabilityRaw with
    | none => 0
    | some r => jsRound ((r / 100) * weights.readability)
  let readabilityStatus : Status :=
    match readabilityRaw with
    | none => .fail
    | some r => if 60 ≤ r then .pass else if 40 ≤ r then .warning else .fail
  let readabilityFactor : Factor :=
    { name := ("Readability"), status := readabilityStatus
      points := readabilityPts, maxPoints := weights.readability }
  let jsScore : ℚ :=
    if js.score = 0 then weights.jsDependency
    else jsRound ((js.score / 100) * weights.jsDependency)
  let jsFactor : Factor :=
    { name := ("JavaScript Dependency")
      status := if js.dependencyLevel == ("low") then .pass
        else if js.dependencyLevel == ("medium") then .warning else .fail
      points := jsScore, maxPoints := weights.jsDependency }
  let rawScore := h1Score + hierarchyScore + semanticScore + ratioScore + tableScore +
    listScore + ariaScore + primaryAltScore + allAltScore + readabilityPts + jsScore
  { score := min 100 rawScore
    maxScore := 100
    factors := [h1Factor, hierarchyFactor, semanticFactor, ratioFactor, tableFactor,
      listFactor, ariaFactor, primaryAltFactor, allAltFactor, readabilityFactor, jsFactor]
    weight := CATEGORY_WEIGHTS.contentStructure
    categoryName := ("Content Structure & Accessibility") }

/-- `ScoringEngine.scoreAuthorityTrust`.  Note the Review Count factor's
points are capped at `1.5 × maxPoints` (not at `maxPoints`), exactly as in
the source (`Math.min(weights.reviewCount * 1.5, reviewCountScore)`). -/
def scoreAuthorityTrust (ctx : Context) (data : TrustSignalsInput) : CategoryScore :=
  let weights := FACTOR_WEIGHTS_authorityTrust
  let m := CONTEXT_MULTIPLIERS ctx
  let reviews := data.reviews
  let brand := data.brand
  let certs := data.certifications
  let awards := data.awards
  let reviewCountScore0 := scalePart reviews.countScore weights.reviewCount
  let reviewCountScore := jsRound (reviewCountScore0 * m.reviewCount)
  let reviewCountPoints := min (weights.reviewCount * (15/10)) reviewCountScore
  let reviewCountFactor : Factor :=
    { name := ("Review Count")
      status := if 50 ≤ reviews.count then .pass
        else if 10 ≤ reviews.count then .warning else .fail
      points := reviewCountPoints, maxPoints := weights.reviewCount
      contextual := true }
  let ratingScore0 := scalePart reviews.ratingScore weights.averageRating
  let ratingScore := jsRound (ratingScore0 * m.reviewRating)
  let ratingPoints := min weights.averageRating ratingScore
  let ratingFactor : Factor :=
    { name := ("Average Rating")
      status := if 4 ≤ reviews.averageRating then .pass
        else if 7/2 ≤ reviews.averageRating then .warning else .fail
      points := ratingPoints, maxPoints := weights.averageRating
      contextual := true }
  let recencyScore : ℚ :=
    match reviews.hasRecentReviews with
    | some true => weights.reviewRecency
    | some false => jsRound (weights.reviewRecency * (5/10))
    | none => 0
  let recencyStatus : Status :=
    match reviews.hasRecentReviews with
    | some true => .pass
    | some false => .warning
    | none => .fail
  let recencyFactor : Factor :=
    { name := ("Review Recency"), status := recencyStatus
      points := recencyScore, maxPoints := weights.reviewRecency }
  let avgLength := reviews.averageReviewLength
  let depthScore : ℚ :=
    if 0 < reviews.reviewsAnalyzed then scalePart reviews.depthScore weights.reviewDepth
    else 0
  let depthStatus : Status :=
    if 0 < reviews.reviewsAnalyzed then
      (if 100 ≤ avgLength then .pass else if 50 ≤ avgLength then .warning else .fail)
    else .fail
  let depthFactor : Factor :=
    { name := ("Review Depth"), status := depthStatus
      points := depthScore, maxPoints := weights.reviewDepth }
  let brandScore := scalePart brand.score weights.brandClarity
  let brandFactor : Factor :=
    { name := ("Brand Clarity")
      status := if brand.clarity == ("excellent") then .pass
        else if brand.clarity == ("good") then .warning else .fail
      points := brandScore, maxPoints := weights.brandClarity }
  let certScore0 := scalePart certs.score weights.certifications
  let certScore := jsRound (certScore0 * m.certifications)
  let certPoints := min weights.certifications certScore
  let certFactor : Factor :=
    { name := ("Certifications")
      status := if 0 < certs.count then .pass else .fail
      points := certPoints, maxPoints := weights.certifications
      contextual := true }
  let awardScore : ℚ := if 0 < awards.count then weights.awards else 0
  let awardFactor : Factor :=
    { name := ("Awards"), status := if 0 < awards.count then .pass else .fail
      points := awardScore, maxPoints := weights.awards }
  let rawScore := reviewCountPoints + ratingPoints + recencyScore + depthScore +
    brandScore + certPoints + awardScore
  { score := min 100 rawScore
    maxScore := 100
    factors := [reviewCountFactor, ratingFactor, recencyFactor, depthFactor,
      brandFactor, certFactor, awardFactor]
    weight := CATEGORY_WEIGHTS.authorityTrust
    categoryName := ("Authority & Trust Signals") }

/-- A per-factor result `{score, factor}` as returned by the
AI-Discoverability helper methods. -/
structure FactorResult where
  score : ℚ
  factor : Factor
deriving DecidableEq

/-- A per-factor result whose numbers may be `NaN`/`undefined`, for the
helper methods that receive a possibly-`undefined` weight. -/
structure FactorResultN where
  score : Option ℚ
  factor : FactorN
deriving DecidableEq

/-- The schema product name read by `scoreEntityConsistency`
(`structuredData?.schemas?.product?.name`). -/
def productNameOf (extractedData : ExtractionInput) : Option String :=
  match extractedData.structuredData.schemas.product with
  | none => none
  | some p => p.name

/-- The case-insensitive trimmed equality/containment test
`scoreEntityConsistency` runs against a surface text (used verbatim for the
H1 text, the og:title and the document title). -/
def surfaceMatchB (nameLower : String) (t : Option String) : Bool :=
  match t with
  | none => false
  | some t =>
    if t.isEmpty then false
    else
      let tLower := jsTrim (lowerStr t)
      tLower == nameLower || includesStr tLower nameLower ||
        includesStr nameLower tLower

/-- The meta-description comparison: full substring, or at least
`ceil(60%)` of the name's significant words (length > 2) occurring in the
description. -/
def metaMatchB (nameLower : String) (dsc : Option String) : Bool :=
  match dsc with
  | none => false
  | some d =>
    if d.isEmpty then false
    else
      let metaLower := lowerStr d
      let nameWords := splitWsFilter nameLower 2
      let matchedWords := nameWords.filter (fun w => includesStr metaLower w)
      includesStr metaLower nameLower ||
        jsCeil ((nameWords.length : ℚ) * (6/10)) ≤ (matchedWords.length : ℚ)

/-- How many of the four surfaces (first H1 text, og:title, meta
description, document title) align with the product name. -/
def entityMatchCountN (extractedData : ExtractionInput) (nameLower : String) : ℕ :=
  (if surfaceMatchB nameLower extractedData.contentStructure.headings.h1.texts.head?
   then 1 else 0) +
  (if surfaceMatchB nameLower extractedData.metaTags.openGraph.title then 1 else 0) +
  (if metaMatchB nameLower extractedData.metaTags.standard.description then 1 else 0) +
  (if surfaceMatchB nameLower extractedData.pageInfo.title then 1 else 0)

/-- `ScoringEngine.scoreEntityConsistency`: counts on how many of the four
surfaces (H1, og:title, meta description, document title) the schema
product name aligns, awarding `Math.round(matches × maxPoints/4)`.
`maxPoints` is the raw property read off the weights table, so it may be
`undefined` (`none`), in which case the award is `NaN`. -/
def scoreEntityConsistency (extractedData : ExtractionInput)
    (maxPoints : Option ℚ) : FactorResultN :=
  let productName := productNameOf extractedData
  if !truthyS productName then
    { score := some 0
      factor := { name := ("Entity Consistency"), status := .fail,
                  points := some 0, maxPoints := maxPoints } }
  else
    let nameLower := jsTrim (lowerStr (productName.getD ("")))
    let pointsPerLocation := jsDivN maxPoints (some 4)
    let matchCount := entityMatchCountN extractedData nameLower
    let score := jsRoundN (jsMulN (some (matchCount : ℚ)) pointsPerLocation)
    let status : Status := if 3 ≤ matchCount then .pass
      else if 2 ≤ matchCount then .warning else .fail
    { score := score
      factor := { name := ("Entity Consistency"), status := status,
                  points := score, maxPoints := maxPoints } }

/-- The per-signal tally of `scoreAnswerFormatContent` (best-for content,
comparison content, how-to content, use cases). -/
def answerSignalsN (af : AnswerFormatInfo) : ℕ :=
  (if 0 < af.bestForCount then 1 else 0) + (if af.hasComparison then 1 else 0) +
  (if af.hasHowTo then 1 else 0) + (if 0 < af.useCaseCount then 1 else 0)

/-- `ScoringEngine.scoreAnswerFormatContent`: one point per present
signal, rescaled to `maxPoints` in quarters (`NaN` when the weight is
`undefined`). -/
def scoreAnswerFormatContent (extractedData : ExtractionInput)
    (maxPoints : Option ℚ) : FactorResultN :=
  match extractedData.aiDiscoverability.answerFormat with
  | none =>
    { score := some 0
      factor := { name := ("Answer-Format Content"), status := .fail,
                  points := some 0, maxPoints := maxPoints } }
  | some af =>
    let signals := answerSignalsN af
    let score := jsRoundN (jsMulN (jsDivN (some (signals : ℚ)) (some 4)) maxPoints)
    let status : Status := if 3 ≤ signals then .pass else if 1 ≤ signals then .warning
      else .fail
    { score := score
      factor := { name := ("Answer-Format Content"), status := status,
                  points := score, maxPoints := maxPoints } }

/-- The identifier tally of `scoreProductIdentifiers` (GTIN, MPN, SKU). -/
def identCountN (product : SchemaProduct) : ℕ :=
  (if truthyS product.gtin then 1 else 0) + (if truthyS product.mpn then 1 else 0) +
  (if truthyS product.sku then 1 else 0)

/-- `ScoringEngine.scoreProductIdentifiers`: ≥2 of GTIN/MPN/SKU assigns
`score = maxPoints` (the raw weight read, possibly `undefined`), exactly 1
awards `Math.round(maxPoints × 0.5)` (`NaN` on an `undefined` weight),
0 awards 0. -/
def scoreProductIdentifiers (extractedData : ExtractionInput)
    (maxPoints : Option ℚ) : FactorResultN :=
  match extractedData.structuredData.schemas.product with
  | none =>
    { score := some 0
      factor := { name := ("Product Identifiers"), status := .fail,
                  points := some 0, maxPoints := maxPoints } }
  | some product =>
    let identCount := identCountN product
    let score : Option ℚ :=
      if 2 ≤ identCount then maxPoints
      else if identCount = 1 then jsRoundN (jsMulN maxPoints (some (5/10)))
      else some 0
    let status : Status := if 2 ≤ identCount then .pass
      else if identCount = 1 then .warning else .fail
    { score := score
      factor := { name := ("Product Identifiers"), status := status,
                  points := score, maxPoints := maxPoints } }

/-- `ScoringEngine.scoreAICrawlerAccess`.  The argument is `none` when no
robots data was supplied (`networkData?.robots || {}` in the source), in
which case every branch guard fails and the factor stays `unknown`. -/
def scoreAICrawlerAccess (robotsData : Option RobotsFact) (maxPoints : ℚ) :
    FactorResult :=
  let mk (score : ℚ) (status : Status) : FactorResult :=
    { score := score
      factor := { name := ("AI Crawler Access"), status := status, points := score,
                  maxPoints := maxPoints, critical := status = .fail } }
  match robotsData with
  | none => mk 0 .unknown
  | some r =>
    if r.accessible = false ∧ truthyS r.error then
      mk (maxPoints * (5/10)) .warning
    else if r.accessible = false then
      mk maxPoints .pass
    else
      let blockedCount := r.blockedCrawlers.length
      let allowedCount := r.allowedCrawlers.length
      let totalMajor := blockedCount + allowedCount
      if blockedCount = 0 then mk maxPoints .pass
      else if blockedCount < totalMajor then
        mk (jsRound (maxPoints * ((allowedCount : ℚ) / (totalMajor : ℚ)))) .warning
      else
        mk 0 .fail

/-- `ScoringEngine.scoreLlmsTxt`. -/
def scoreLlmsTxt (llmsData : Option LlmsFact) (maxPoints : ℚ) : FactorResult :=
  let mk (score : ℚ) (status : Status) : FactorResult :=
    { score := score
      factor := { name := ("llms.txt Presence"), status := status, points := score,
                  maxPoints := maxPoints } }
  let subFound : Option LlmsSub → Bool
    | none => false
    | some s => s.found
  match llmsData with
  | none => mk 0 .fail
  | some l =>
    if l.found then
      if subFound l.llmsTxt ∧ subFound l.llmsFullTxt then mk maxPoints .pass
      else if subFound l.llmsTxt then mk maxPoints .pass
      else if subFound l.llmsFullTxt then mk (jsRound (maxPoints * (8/10))) .pass
      else mk 0 .fail
    else mk 0 .fail

/-- `ScoringEngine.scoreAIDiscoverability`: reads its five factor weights
as properties of the snapshot's `FACTOR_WEIGHTS.aiDiscoverability`
(`aiWeight`).  Only `aiCrawlerAccess` (35) and `llmsTxtPresence` (20)
exist in that table — written as the literals the lookups reduce to, see
`aiWeight_aiCrawlerAccess` / `aiWeight_llmsTxtPresence` — while
`entityConsistency`, `answerFormatContent` and `productIdentifiers` read
`undefined`, making those factors' awards `NaN` whenever their inputs are
present. -/
def scoreAIDiscoverability (extractedData : ExtractionInput)
    (networkData : Option NetworkData) : CategoryScoreN :=
  let robots :=
    match networkData with
    | none => none
    | some nd => nd.robots
  let llms :=
    match networkData with
    | none => none
    | some nd => nd.llms
  let crawlerResult := scoreAICrawlerAccess robots 35
  let entityResult := scoreEntityConsistency extractedData
    (aiWeight (("entityConsistency")))
  let answerResult := scoreAnswerFormatContent extractedData
    (aiWeight (("answerFormatContent")))
  let identResult := scoreProductIdentifiers extractedData
    (aiWeight (("productIdentifiers")))
  let llmsResult := scoreLlmsTxt llms 20
  let rawScore := jsAddN (jsAddN (jsAddN (jsAddN (some crawlerResult.score)
    entityResult.score) answerResult.score) identResult.score)
    (some llmsResult.score)
  { score := jsMinN (some 100) rawScore
    maxScore := 100
    factors := [factorN crawlerResult.factor, entityResult.factor,
      answerResult.factor, identResult.factor, factorN llmsResult.factor]
    weight := CATEGORY_WEIGHTS.aiDiscoverability
    categoryName := ("AI Discoverability") }

/-- The six category results of one scoring pass. -/
structure CategoryScores where
  structuredData : CategoryScore
  protocolMeta : CategoryScore
  contentQuality : CategoryScore
  contentStructure : CategoryScore
  authorityTrust : CategoryScore
  aiDiscoverability : CategoryScoreN
deriving DecidableEq

/-- `ScoreResult` (the explicit `timestamp` field is omitted).  The
total may be `NaN` (`none`): the AI category's score is `NaN` whenever an
unweighted AI factor awards `NaN`, and `NaN` propagates through the
weighted sum. -/
structure ScoreResult where
  totalScore : Option ℚ
  grade : Grade
  context : Context
  categoryScores : CategoryScores
  jsDependent : Bool
deriving DecidableEq

/-- `ScoringEngine.calculateScore`: the six category results, the weighted
rounded total, the grade, and the JS-dependency flag. -/
def calculateScore (ctx : Context) (extractedData : ExtractionInput)
    (imageVerification : Option ImageFormatFact)
    (networkData : Option NetworkData) : ScoreResult :=
  let categoryScores : CategoryScores :=
    { structuredData := scoreStructuredData extractedData.structuredData
      protocolMeta := scoreProtocolMeta extractedData.metaTags imageVerification
      contentQuality := scoreContentQuality ctx extractedData.contentQuality
        (some extractedData.aiDiscoverability)
      contentStructure := scoreContentStructure extractedData.contentStructure
        (some extractedData.contentQuality.textMetrics)
      authorityTrust := scoreAuthorityTrust ctx extractedData.trustSignals
      aiDiscoverability := scoreAIDiscoverability extractedData networkData }
  let totalScore := jsRoundN (jsAddN
    (some (categoryScores.structuredData.score * CATEGORY_WEIGHTS.structuredData +
      categoryScores.protocolMeta.score * CATEGORY_WEIGHTS.protocolMeta +
      categoryScores.contentQuality.score * CATEGORY_WEIGHTS.contentQuality +
      categoryScores.contentStructure.score * CATEGORY_WEIGHTS.contentStructure +
      categoryScores.authorityTrust.score * CATEGORY_WEIGHTS.authorityTrust))
    (jsMulN categoryScores.aiDiscoverability.score
      (some CATEGORY_WEIGHTS.aiDiscoverability)))
  { totalScore := totalScore
    grade := getGradeN totalScore
    context := ctx
    categoryScores := categoryScores
    jsDependent :=
      extractedData.contentStructure.jsDependency.dependencyLevel == ("high") }

/-! ### Structured-data resolver (`src/content/content-script.js`)

The JSON-LD values handed to `categorizeSchemas` are modelled by `JsonV`.
JS numbers inside JSON are rationals; `NaN` results of `parseFloat` are
modelled as `none`.  Shapes on which the JS would throw a `TypeError`
(e.g. a truthy non-array `@graph`) are outside the embedding's domain and
noted where they arise. -/

/-- A parsed JSON value. -/
inductive JsonV where
  | null
  | bool (b : Bool)
  | num (q : ℚ)
  | str (s : String)
  | arr (l : List JsonV)
  | obj (l : List (String × JsonV))

/-- JS property access `v[k]` (first matching key; `undefined` = `none`). -/
def jsGet : JsonV → String → Option JsonV
  | .obj l, k => (l.find? (fun p => p.1 == k)).map (·.2)
  | _, _ => none

/-- JS truthiness of a JSON value. -/
def jsTruthyV : JsonV → Bool
  | .null => false
  | .bool b => b
  | .num q => q ≠ 0
  | .str s => !s.isEmpty
  | .arr _ => true
  | .obj _ => true

/-- JS truthiness of a possibly-`undefined` JSON value. -/
def optTruthyV : Option JsonV → Bool
  | none => false
  | some v => jsTruthyV v

/-- JS `a || b` over possibly-`undefined` JSON values. -/
def jsOrV (a b : Option JsonV) : Option JsonV :=
  if optTruthyV a then a else b

/-- JS `a || null` over a possibly-`undefined` JSON value. -/
def jsOrNullV (a : Option JsonV) : Option JsonV :=
  if optTruthyV a then a else none

/-- JS `a || b` over optional strings. -/
def jsOrS (a b : Option String) : Option String :=
  if truthyS a then a else b

/-- Parse the leading decimal of a character list: optional sign, digits,
optional fractional digits. -/
def parseDecimal (cs : List Char) : Option ℚ :=
  let (sign, rest) :=
    match cs with
    | '-' :: t => ((-1 : ℚ), t)
    | '+' :: t => ((1 : ℚ), t)
    | _ => ((1 : ℚ), cs)
  let intPart := rest.takeWhile Char.isDigit
  let rest2 := rest.dropWhile Char.isDigit
  let fracPart :=
    match rest2 with
    | '.' :: t => t.takeWhile Char.isDigit
    | _ => []
  if intPart.isEmpty ∧ fracPart.isEmpty then none
  else
    let ip : ℕ := intPart.foldl (fun a c => a * 10 + (c.toNat - 48)) 0
    let fp : ℕ := fracPart.foldl (fun a c => a * 10 + (c.toNat - 48)) 0
    some (sign * ((ip : ℚ) + (fp : ℚ) / ((10 : ℚ) ^ fracPart.length)))

/-- JS `parseFloat` on a possibly-`undefined` JSON value, with `NaN`
modelled as `none`.  Exponent notation and array stringification are not
exercised by the embedded code paths and are not modelled. -/
def jsParseFloat : Option JsonV → Option ℚ
  | some (.num q) => some q
  | some (.str s) => parseDecimal (s.toList.dropWhile Char.isWhitespace)
  | _ => none

/-- JS `parseFloat(x) || d`: `NaN` and `0` both fall back to the default. -/
def jsParseFloatOr (v : Option JsonV) (d : ℚ) : ℚ :=
  match jsParseFloat v with
  | none => d
  | some q => if q = 0 then d else q

/-- JS `parseInt(x, 10) || null`: `NaN` and `0` both give `null`. -/
def jsParseIntOrNull (v : Option JsonV) : Option ℤ :=
  let parsed : Option ℤ :=
    match v with
    | some (.num q) => some (if q < 0 then -(⌊-q⌋) else ⌊q⌋)
    | some (.str s) =>
      let cs := s.toList.dropWhile Char.isWhitespace
      let (sign, rest) :=
        match cs with
        | '-' :: t => ((-1 : ℤ), t)
        | '+' :: t => ((1 : ℤ), t)
        | _ => ((1 : ℤ), cs)
      let ds := rest.takeWhile Char.isDigit
      if ds.isEmpty then none
      else some (sign * (ds.foldl (fun a c => a * 10 + (c.toNat - 48)) 0 : ℕ))
    | _ => none
  match parsed with
  | none => none
  | some n => if n = 0 then none else some n

/-- `extractImageUrl` from the content script. -/
def extractImageUrl (image : Option JsonV) : Option JsonV :=
  match image with
  | none => none
  | some v =>
    if !jsTruthyV v then none
    else match v with
      | .str s => some (.str s)
      | .arr l =>
        let firstUrl := (l.head?).bind (fun f => jsGet f (("url")))
        if optTruthyV firstUrl then firstUrl else l.head?
      | other => jsOrV (jsGet other (("url"))) (jsGet other (("contentUrl")))

/-- `extractBrandName` from the content script: accepts a string, an object
with `name`, an array of strings, or an array of objects. -/
def extractBrandName (brandData : Option JsonV) : Option String :=
  match brandData with
  | none => none
  | some v =>
    if !jsTruthyV v then none
    else match v with
      | .str s => some s
      | .arr [] => none
      | .arr (first :: _) =>
        (match first with
         | .str s => some s
         | other =>
           match jsOrNullV (jsGet other (("name"))) with
           | some (.str s) => if s.isEmpty then none else some s
           | _ => none)
      | other =>
        match jsOrNullV (jsGet other (("name"))) with
        | some (.str s) => if s.isEmpty then none else some s
        | _ => none

/-- The `schemas.product` record as the JSON-LD categorizer builds it
(values are raw JSON values; `brand` is the extracted name string). -/
structure JProduct where
  name : Option JsonV
  description : Option JsonV
  image : Option JsonV
  sku : Option JsonV
  gtin : Option JsonV
  mpn : Option JsonV
  brand : Option String
  hasOffer : Bool
  hasRating : Bool
  isProductGroup : Bool
  source : Option String := none

/-- One resolved offer entry. -/
structure JOffer where
  price : Option JsonV
  priceCurrency : Option JsonV
  availability : Option JsonV
  source : Option String := none

/-- The resolved aggregate-rating record (`ratingValue = none` models the
`NaN` produced by `parseFloat(undefined)`). -/
structure JRating where
  ratingValue : Option ℚ
  reviewCount : Option ℤ
  bestRating : ℚ
  ratingCount : Option ℤ := none
  source : Option String := none

/-- One resolved FAQ question. -/
structure JFaqQ where
  question : Option JsonV
  answer : Option JsonV
  answerLength : ℕ

/-- The resolved FAQ record. -/
structure JFaq where
  questionCount : ℕ
  questions : List JFaqQ
  source : Option String := none

/-- One resolved breadcrumb item. -/
structure JBItem where
  position : Option JsonV
  name : Option JsonV
  url : Option JsonV := none

/-- The resolved breadcrumb record. -/
structure JBreadcrumb where
  itemCount : ℕ
  items : List JBItem
  source : Option String := none

/-- A resolved organization / brand record. -/
structure JOrg where
  name : Option JsonV
  logo : Option JsonV
  url : Option JsonV
  source : Option String := none

/-- A nested review rating. -/
structure JRevRating where
  ratingValue : Option ℚ
  bestRating : ℚ

/-- One resolved review record (filled by the Microdata path only in this
revision of the content script). -/
structure JReview where
  author : Option JsonV
  datePublished : Option JsonV
  reviewBody : Option JsonV
  reviewRating : Option JRevRating
  source : Option String := none

/-- One resolved image record. -/
structure JImage where
  url : Option JsonV
  caption : Option JsonV
  width : Option JsonV
  height : Option JsonV
  source : Option String := none

/-- The mutable `schemas` accumulator of `extractStructuredData`. -/
structure SchemasAccum where
  product : Option JProduct := none
  offer : Option (List JOffer) := none
  aggregateRating : Option JRating := none
  reviews : List JReview := []
  faq : Option JFaq := none
  breadcrumb : Option JBreadcrumb := none
  organization : Option JOrg := none
  brand : Option JOrg := none
  images : List JImage := []

/-- The lowercased `@type` string: an array type uses its first element.
(A non-string `@type` would throw in the source; it is mapped to `""`
here and is outside the embedding's domain.) -/
def lowerTypeStr : Option JsonV → String
  | some (.arr ((.str s) :: _)) => lowerStr s
  | some (.str s) => lowerStr s
  | _ => ("")

/-- Processing of one entity by `categorizeSchemas`'s `items.forEach`
callback, threading the `schemas` accumulator. -/
def categorizeItem (schemas : SchemasAccum) (item : JsonV) : SchemasAccum :=
  if !jsTruthyV item then schemas
  else if !optTruthyV (jsGet item (("@type"))) then schemas
  else
    let ty := lowerTypeStr (jsGet item (("@type")))
    let schemas :=
      if ty == ("product") || ty == ("productgroup") then
        let brandName := jsOrS (extractBrandName (jsGet item (("brand"))))
          (extractBrandName (jsGet item (("manufacturer"))))
        let hasVariant := jsGet item (("hasVariant"))
        let variantNonEmpty :=
          match hasVariant with
          | some (.arr l) => 0 < l.length
          | some (.str s) => 0 < s.length
          | _ => false
        let product : JProduct :=
          { name := jsGet item (("name"))
            description := jsGet item (("description"))
            image := extractImageUrl (jsGet item (("image")))
            sku := jsOrV (jsGet item (("sku"))) (jsGet item (("productGroupID")))
            gtin := jsOrV (jsGet item (("gtin"))) (jsOrV (jsGet item (("gtin13")))
              (jsOrV (jsGet item (("gtin14"))) (jsOrV (jsGet item (("gtin12")))
                (jsGet item (("gtin8"))))))
            mpn := jsGet item (("mpn"))
            brand := brandName
            hasOffer := optTruthyV (jsGet item (("offers"))) ||
              (optTruthyV hasVariant && variantNonEmpty)
            hasRating := optTruthyV (jsGet item (("aggregateRating")))
            isProductGroup := ty == ("productgroup") }
        let schemas := { schemas with product := some product }
        let offersSource0 := jsGet item (("offers"))
        let offersSource :=
          if !optTruthyV offersSource0 && optTruthyV hasVariant then
            let variants :=
              match hasVariant with
              | some (.arr l) => l
              | some v => [v]
              | none => []
            let hit := variants.find? (fun v =>
              jsTruthyV v && optTruthyV (jsGet v (("offers"))))
            match hit with
            | some v => jsGet v (("offers"))
            | none => offersSource0
          else offersSource0
        let schemas :=
          if optTruthyV offersSource then
            let offers :=
              match offersSource with
              | some (.arr l) => l
              | some v => [v]
              | none => []
            { schemas with offer := some (offers.map (fun o =>
                { price := jsOrV (jsGet o (("price"))) (jsGet o (("lowPrice")))
                  priceCurrency := jsGet o (("priceCurrency"))
                  availability := jsGet o (("availability")) })) }
          else schemas
        let schemas :=
          match jsGet item (("aggregateRating")) with
          | some ar =>
            if jsTruthyV ar then
              { schemas with aggregateRating := some (
                { ratingValue := jsParseFloat (jsGet ar (("ratingValue")))
                  reviewCount := jsParseIntOrNull (jsGet ar (("reviewCount")))
                  bestRating := jsParseFloatOr (jsGet ar (("bestRating"))) 5 }) }
            else schemas
          | none => schemas
        let schemas :=
          if schemas.brand.isNone && optTruthyV (jsGet item (("brand"))) then
            let brandObj : Option JsonV :=
              match jsGet item (("brand")) with
              | some (.arr l) => l.head?
              | other => other
            match brandObj with
            | some (.obj fields) =>
              if optTruthyV (jsGet (.obj fields) (("@type"))) then
                { schemas with brand := some (
                  { name := jsOrNullV (jsGet (.obj fields) (("name")))
                    logo := jsOrNullV (extractImageUrl (jsGet (.obj fields) (("logo"))))
                    url := jsOrNullV (jsGet (.obj fields) (("url")))
                    source := some (("product-nested")) }) }
              else schemas
            | _ => schemas
          else schemas
        let schemas :=
          if schemas.organization.isNone && optTruthyV (jsGet item (("manufacturer"))) then
            let mfgObj : Option JsonV :=
              match jsGet item (("manufacturer")) with
              | some (.arr l) => l.head?
              | other => other
            match mfgObj with
            | some (.obj fields) =>
              if optTruthyV (jsGet (.obj fields) (("@type"))) then
                { schemas with organization := some (
                  { name := jsOrNullV (jsGet (.obj fields) (("name")))
                    logo := jsOrNullV (extractImageUrl (jsGet (.obj fields) (("logo"))))
                    url := jsOrNullV (jsGet (.obj fields) (("url")))
                    source := some (("product-nested")) }) }
              else schemas
            | _ => schemas
          else schemas
        schemas
      else schemas
    let schemas :=
      if ty == ("faqpage") then
        let mainEntity :=
          match jsGet item (("mainEntity")) with
          | some (.arr l) => l
          | _ => []
        let questions := mainEntity.filter (fun e =>
          match jsGet e (("@type")) with
          | some (.str s) => s == ("Question")
          | _ => false)
        { schemas with faq := some (
          { questionCount := questions.length
            questions := questions.map (fun q =>
              let answerText := (jsGet q (("acceptedAnswer"))).bind
                (fun a => jsGet a (("text")))
              { question := jsGet q (("name"))
                answer := answerText
                answerLength :=
                  match answerText with
                  | some (.str s) => s.length
                  | _ => 0 }) }) }
      else schemas
    let schemas :=
      if ty == ("breadcrumblist") then
        let elements :=
          match jsGet item (("itemListElement")) with
          | some (.arr l) => l
          | _ => []
        { schemas with breadcrumb := some (
          { itemCount := elements.length
            items := elements.map (fun el =>
              { position := jsGet el (("position")), name := jsGet el (("name")) }) }) }
      else schemas
    if ty == ("organization") then
      { schemas with organization := some (
        { name := jsGet item (("name"))
          logo := extractImageUrl (jsGet item (("logo")))
          url := jsGet item (("url")) }) }
    else schemas

/-- `categorizeSchemas`: normalizes the three accepted JSON-LD shapes
(bare array / `@graph` object / single entity) and folds `categorizeItem`
over the entities.  A truthy non-array `@graph` (on which the source would
throw) is outside the embedding's domain. -/
def categorizeSchemas (data : JsonV) (schemas : SchemasAccum) : SchemasAccum :=
  let items :=
    match data with
    | .arr l => l
    | _ =>
      match jsGet data (("@graph")) with
      | some (.arr l) => l
      | some g => if jsTruthyV g then [] else [data]
      | none => [data]
  items.foldl categorizeItem schemas

/-! #### Microdata resolution -/

/-- A microdata property value as built by `extractMicrodataItem`: either a
string (content/href/src/text) or a nested scoped item `{type, properties}`. -/
inductive MDVal where
  | str (s : String)
  | item (type' : String) (props : List (String × MDVal))

/-- Lookup in a microdata property list (`item.properties[k]`). -/
def mdGet (props : List (String × MDVal)) (k : String) : Option MDVal :=
  (props.find? (fun p => p.1 == k)).map (·.2)

/-- JS truthiness of a microdata value. -/
def mdTruthy : MDVal → Bool
  | .str s => !s.isEmpty
  | .item _ _ => true

/-- JS truthiness of a possibly-`undefined` microdata value. -/
def optMdTruthy : Option MDVal → Bool
  | none => false
  | some v => mdTruthy v

/-- JS `v?.properties?.[k]` on a possibly-`undefined` microdata value
(strings have no `properties`, so optional chaining yields `undefined`). -/
def mdPropGet (v : Option MDVal) (k : String) : Option MDVal :=
  match v with
  | some (.item _ ps) => mdGet ps k
  | _ => none

/-- JS `a || b` over possibly-`undefined` microdata values. -/
def mdOr (a b : Option MDVal) : Option MDVal :=
  if optMdTruthy a then a else b

mutual

/-- Injection of a microdata value into the JSON model, preserving the JS
runtime shape `{type, properties}` of nested items. -/
def mdToJson : MDVal → JsonV
  | .str s => .str s
  | .item ty ps => .obj [(("type"), .str ty), (("properties"), .obj (mdPropsToJson ps))]

/-- Pointwise `mdToJson` over a property list. -/
def mdPropsToJson : List (String × MDVal) → List (String × JsonV)
  | [] => []
  | (k, v) :: rest => (k, mdToJson v) :: mdPropsToJson rest

end

/-- JS `x || null` on a microdata value, converting the kept value into the
JSON model for storage in the shared `schemas` slots. -/
def mdOrNullJson (a : Option MDVal) : Option JsonV :=
  if optMdTruthy a then a.map mdToJson else none

/-- JS `parseFloat` on a microdata value (`NaN` = `none`; objects
stringify to something unparsable). -/
def mdParseFloat : Option MDVal → Option ℚ
  | some (.str s) => parseDecimal (s.toList.dropWhile Char.isWhitespace)
  | _ => none

/-- JS `parseFloat(x) || null` (both `NaN` and `0` give `null`). -/
def mdParseFloatOrNull (v : Option MDVal) : Option ℚ :=
  match mdParseFloat v with
  | none => none
  | some q => if q = 0 then none else some q

/-- JS `parseFloat(x) || d`. -/
def mdParseFloatOr (v : Option MDVal) (d : ℚ) : ℚ :=
  match mdParseFloat v with
  | none => d
  | some q => if q = 0 then d else q

/-- JS `parseInt(x, 10) || null`. -/
def mdParseIntOrNull (v : Option MDVal) : Option ℤ :=
  match v with
  | some (.str s) => jsParseIntOrNull (some (.str s))
  | _ => none

/-- `extractBrandName` applied to a microdata value: a microdata value is
never a JS array, and a nested item has no direct `name` property (only
`properties.name`), so only the string case resolves. -/
def extractBrandNameMD (v : Option MDVal) : Option String :=
  match v with
  | some (.str s) => if s.isEmpty then none else some s
  | _ => none

/-- A top-level microdata item handed to `categorizeMicrodataSchemas`. -/
structure MicroItem where
  type' : String
  properties : List (String × MDVal)

/-- Stripping the regex `^https?:\/\/schema\.org\//` from an itemtype. -/
def stripSchemaOrg (s : String) : String :=
  if listIsPrefix (("https://schema.org/").toList) s.toList then
    (s.toList.drop 19).asString
  else if listIsPrefix (("http://schema.org/").toList) s.toList then
    (s.toList.drop 18).asString
  else s

/-- One microdata offer record. -/
def offerOfMD (o : MDVal) : JOffer :=
  { price := mdOrNullJson (mdOr (mdPropGet (some o) (("price")))
      (mdPropGet (some o) (("lowPrice"))))
    priceCurrency := mdOrNullJson (mdPropGet (some o) (("priceCurrency")))
    availability := mdOrNullJson (mdPropGet (some o) (("availability")))
    source := some (("microdata")) }

/-- One microdata aggregate-rating record. -/
def ratingOfMD (ratingValueV reviewCountV ratingCountV bestRatingV : Option MDVal) :
    JRating :=
  { ratingValue := mdParseFloatOrNull ratingValueV
    reviewCount := mdParseIntOrNull reviewCountV
    ratingCount := mdParseIntOrNull ratingCountV
    bestRating := mdParseFloatOr bestRatingV 5
    source := some (("microdata")) }

/-- One microdata review record. -/
def reviewOfMD (r : MDVal) : JReview :=
  let author0 := mdPropGet (some r) (("author"))
  let reviewRating0 := mdPropGet (some r) (("reviewRating"))
  { author := mdOrNullJson (mdOr (mdPropGet author0 (("name"))) author0)
    datePublished := mdOrNullJson (mdPropGet (some r) (("datePublished")))
    reviewBody := mdOrNullJson (mdOr (mdPropGet (some r) (("reviewBody")))
      (mdPropGet (some r) (("description"))))
    reviewRating :=
      if optMdTruthy reviewRating0 then
        some { ratingValue := mdParseFloatOrNull (mdPropGet reviewRating0 (("ratingValue")))
               bestRating := mdParseFloatOr (mdPropGet reviewRating0 (("bestRating"))) 5 }
      else none
    source := some (("microdata")) }

/-- The Product/ProductGroup section of `categorizeMicrodataItem`
(guarded on the product slot being empty). -/
def mdProductStep (ty : String) (props : List (String × MDVal))
    (schemas : SchemasAccum) : SchemasAccum :=
  if (ty == ("product") || ty == ("productgroup")) && schemas.product.isNone then
    let brandV := mdGet props (("brand"))
    let product : JProduct :=
      { name := mdOrNullJson (mdGet props (("name")))
        description := mdOrNullJson (mdGet props (("description")))
        image := mdOrNullJson (mdGet props (("image")))
        sku := mdOrNullJson (mdOr (mdGet props (("sku")))
          (mdGet props (("productGroupID"))))
        gtin := none
        mpn := none
        brand := jsOrS
          (extractBrandNameMD (mdOr (mdPropGet brandV (("name"))) brandV))
          (extractBrandNameMD (mdGet props (("manufacturer"))))
        hasOffer := optMdTruthy (mdGet props (("offers"))) ||
          optMdTruthy (mdGet props (("hasVariant")))
        hasRating := optMdTruthy (mdGet props (("aggregateRating")))
        isProductGroup := ty == ("productgroup")
        source := some (("microdata")) }
    let schemas := { schemas with product := some product }
    let schemas :=
      match mdGet props (("offers")) with
      | some o =>
        if mdTruthy o && schemas.offer.isNone then
          { schemas with offer := some [offerOfMD o] }
        else schemas
      | none => schemas
    let schemas :=
      match mdGet props (("aggregateRating")) with
      | some r =>
        if mdTruthy r && schemas.aggregateRating.isNone then
          { schemas with aggregateRating := some (ratingOfMD
              (mdPropGet (some r) (("ratingValue")))
              (mdPropGet (some r) (("reviewCount")))
              (mdPropGet (some r) (("ratingCount")))
              (mdPropGet (some r) (("bestRating")))) }
        else schemas
      | none => schemas
    let schemas :=
      match mdGet props (("review")) with
      | some r =>
        if mdTruthy r && schemas.reviews.length == 0 then
          { schemas with reviews := [reviewOfMD r] }
        else schemas
      | none => schemas
    schemas
  else schemas

/-- The standalone Offer section. -/
def mdOfferStep (ty : String) (props : List (String × MDVal))
    (schemas : SchemasAccum) : SchemasAccum :=
  if ty == ("offer") && schemas.offer.isNone then
    { schemas with offer := some [
      { price := mdOrNullJson (mdOr (mdGet props (("price")))
          (mdGet props (("lowPrice"))))
        priceCurrency := mdOrNullJson (mdGet props (("priceCurrency")))
        availability := mdOrNullJson (mdGet props (("availability")))
        source := some (("microdata")) }] }
  else schemas

/-- The standalone AggregateRating section. -/
def mdRatingStep (ty : String) (props : List (String × MDVal))
    (schemas : SchemasAccum) : SchemasAccum :=
  if ty == ("aggregaterating") && schemas.aggregateRating.isNone then
    { schemas with aggregateRating := some (ratingOfMD
        (mdGet props (("ratingValue"))) (mdGet props (("reviewCount")))
        (mdGet props (("ratingCount"))) (mdGet props (("bestRating")))) }
  else schemas

/-- The standalone Review section (unguarded append); `rawType` is the
item's unstripped type string. -/
def mdReviewStep (rawType ty : String) (props : List (String × MDVal))
    (schemas : SchemasAccum) : SchemasAccum :=
  if ty == ("review") then
    { schemas with reviews := schemas.reviews ++
        [reviewOfMD (.item rawType props)] }
  else schemas

/-- The FAQPage section. -/
def mdFaqStep (ty : String) (props : List (String × MDVal))
    (schemas : SchemasAccum) : SchemasAccum :=
  if ty == ("faqpage") && schemas.faq.isNone then
    let questions :=
      match mdGet props (("mainEntity")) with
      | some v => if mdTruthy v then [v] else []
      | none => []
    { schemas with faq := some (
      { questionCount := questions.length
        questions := (questions.filter (fun q =>
            match q with
            | .item t _ => includesStr t (("Question"))
            | .str _ => false)).map (fun q =>
          let answerText := mdPropGet (mdPropGet (some q) (("acceptedAnswer")))
            (("text"))
          { question := mdOrNullJson (mdPropGet (some q) (("name")))
            answer := mdOrNullJson answerText
            answerLength :=
              match answerText with
              | some (.str s) => s.length
              | _ => 0 })
        source := some (("microdata")) }) }
  else schemas

/-- The BreadcrumbList section. -/
def mdBreadcrumbStep (ty : String) (props : List (String × MDVal))
    (schemas : SchemasAccum) : SchemasAccum :=
  if ty == ("breadcrumblist") && schemas.breadcrumb.isNone then
    let elements :=
      match mdGet props (("itemListElement")) with
      | some v => if mdTruthy v then [v] else []
      | none => []
    { schemas with breadcrumb := some (
      { itemCount := elements.length
        items := elements.map (fun el =>
          { position := mdOrNullJson (mdPropGet (some el) (("position")))
            name := mdOrNullJson (mdPropGet (some el) (("name")))
            url := mdOrNullJson (mdPropGet (some el) (("item"))) })
        source := some (("microdata")) }) }
  else schemas

/-- The Organization section. -/
def mdOrgStep (ty : String) (props : List (String × MDVal))
    (schemas : SchemasAccum) : SchemasAccum :=
  if ty == ("organization") && schemas.organization.isNone then
    let logoV := mdGet props (("logo"))
    { schemas with organization := some (
      { name := mdOrNullJson (mdGet props (("name")))
        logo := mdOrNullJson (mdOr (mdPropGet logoV (("url"))) logoV)
        url := mdOrNullJson (mdGet props (("url")))
        source := some (("microdata")) }) }
  else schemas

/-- The Brand section. -/
def mdBrandStep (ty : String) (props : List (String × MDVal))
    (schemas : SchemasAccum) : SchemasAccum :=
  if ty == ("brand") && schemas.brand.isNone then
    let logoV := mdGet props (("logo"))
    { schemas with brand := some (
      { name := mdOrNullJson (mdGet props (("name")))
        logo := mdOrNullJson (mdOr (mdPropGet logoV (("url"))) logoV)
        url := mdOrNullJson (mdGet props (("url")))
        source := some (("microdata")) }) }
  else schemas

/-- The ImageObject section (unguarded append). -/
def mdImageStep (ty : String) (props : List (String × MDVal))
    (schemas : SchemasAccum) : SchemasAccum :=
if ty == ("imageobject") then
  { schemas with images := schemas.images ++ [
    { url := mdOrNullJson (mdOr (mdGet props (("url")))
        (mdGet props (("contentUrl"))))
      caption := mdOrNullJson (mdGet props (("caption")))
      width := mdOrNullJson (mdGet props (("width")))
      height := mdOrNullJson (mdGet props (("height")))
      source := some (("microdata")) }] }
else schemas

/-- Processing of one top-level microdata item by
`categorizeMicrodataSchemas`'s `forEach` callback: the source's sequential
type sections, applied in order.  Every slot fill except standalone
reviews and images is guarded on the slot being empty, so Microdata only
fills what JSON-LD left unset. -/
def categorizeMicrodataItem (schemas : SchemasAccum) (item : MicroItem) : SchemasAccum :=
  if item.type'.isEmpty then schemas
  else
    let ty := lowerStr (stripSchemaOrg item.type')
    let props := item.properties
    mdImageStep ty props (mdBrandStep ty props (mdOrgStep ty props
      (mdBreadcrumbStep ty props (mdFaqStep ty props (mdReviewStep item.type' ty props
        (mdRatingStep ty props (mdOfferStep ty props
          (mdProductStep ty props schemas))))))))

/-- `categorizeMicrodataSchemas`. -/
def categorizeMicrodataSchemas (microdataItems : List MicroItem)
    (schemas : SchemasAccum) : SchemasAccum :=
  microdataItems.foldl categorizeMicrodataItem schemas

/-- The schema-resolution core of `extractStructuredData`: fold the valid
JSON-LD blocks through `categorizeSchemas`, then run Microdata
categorization over the same accumulator. -/
def extractStructuredDataSchemas (jsonLdBlocks : List JsonV)
    (microdataItems : List MicroItem) : SchemasAccum :=
  categorizeMicrodataSchemas microdataItems
    (jsonLdBlocks.foldl (fun s b => categorizeSchemas b s) {})

/-! ### Warranty detection (`extractProductDetails`, content script)

The five positive warranty regexes and the negative-guard regex quantify
only over character classes, so each is embedded as a set of alternative
simple element sequences (`lit` / quantified `cls`), expanded from the
regex's alternations and optional groups in the engine's preference order
(earlier alternatives first, greedy quantifiers longest-first, optional
groups with-branch first).  Matching is case-insensitive, as the `/i`
sources are. -/

/-- One regex element: a literal (compared case-insensitively) or a
greedy-quantified character class. -/
inductive SimpleElem where
  | lit (s : String)
  | cls (p : Char → Bool) (lo : ℕ) (hi : Option ℕ)

/-- Consume a literal case-insensitively, returning the remainder. -/
def dropLitCI : List Char → List Char → Option (List Char)
  | [], cs => some cs
  | _ :: _, [] => none
  | l :: ls, c :: cs => if l.toLower == c.toLower then dropLitCI ls cs else none

/-- Remainders after consuming between `lo` and `hi` (or unboundedly many)
characters satisfying `p`, greedily ordered (longest consumption first). -/
def clsRems (p : Char → Bool) (lo : ℕ) (hi : Option ℕ) (cs : List Char) :
    List (List Char) :=
  let maxSat := (cs.takeWhile p).length
  let maxRep := match hi with | none => maxSat | some h => min h maxSat
  if maxRep < lo then []
  else (List.range (maxRep - lo + 1)).map (fun i => cs.drop (maxRep - i))

/-- All remainders (in preference order) after matching one alternative. -/
def matchSimple : List SimpleElem → List Char → List (List Char)
  | [], cs => [cs]
  | .lit s :: rest, cs =>
    match dropLitCI s.toList cs with
    | some r => matchSimple rest r
    | none => []
  | .cls p lo hi :: rest, cs =>
    (clsRems p lo hi cs).flatMap (fun r => matchSimple rest r)

/-- Does any alternative match starting exactly here? -/
def anyAltMatches (alts : List (List SimpleElem)) (cs : List Char) : Bool :=
  alts.any (fun a => !(matchSimple a cs).isEmpty)

/-- JS `re.test(s)`: does any alternative match at any position? -/
def scanMatches (alts : List (List SimpleElem)) : List Char → Bool
  | [] => anyAltMatches alts []
  | c :: cs => anyAltMatches alts (c :: cs) || scanMatches alts cs

/-- A capturing pattern: alternatives before the capture group, then the
alternatives of the capture group itself (all five warranty patterns have
this prefix-then-capture shape with nothing after the group). -/
structure CapPattern where
  pre : List (List SimpleElem)
  cap : List (List SimpleElem)

/-- The first (preference-ordered) capture of `pat` anchored here. -/
def firstCaptureAt (pat : CapPattern) (cs : List Char) : Option (List Char) :=
  ((pat.pre.flatMap (fun a => matchSimple a cs)).flatMap (fun rem1 =>
    (pat.cap.flatMap (fun a => matchSimple a rem1)).map (fun rem2 =>
      rem1.take (rem1.length - rem2.length)))).head?

/-- JS `text.match(re)`'s group 1: leftmost position wins. -/
def scanCapture (pat : CapPattern) : List Char → Option (List Char)
  | [] => firstCaptureAt pat []
  | c :: cs =>
    match firstCaptureAt pat (c :: cs) with
    | some r => some r
    | none => scanCapture pat cs

/-- Sequential composition of alternative sets (earlier set most
significant in preference order). -/
def seqAlts (xs ys : List (List SimpleElem)) : List (List SimpleElem) :=
  xs.flatMap (fun x => ys.map (fun y => x ++ y))

/-- The character `'` (written via its code so it cannot be mistaken for
Lean syntax). -/
def apoS : String := (Char.ofNat 39).toString

/-- `\s`. -/
def wsC (c : Char) : Bool := c.isWhitespace

/-- `[\s-]`. -/
def wsDashC (c : Char) : Bool := c.isWhitespace || c == '-'

/-- `[:\s]`. -/
def colonWsC (c : Char) : Bool := c == ':' || c.isWhitespace

/-- `[^.\n]`. -/
def notDotNlC (c : Char) : Bool := !(c == '.' || c == '\n')

/-- `[^.]`. -/
def notDotC (c : Char) : Bool := !(c == '.')

/-- `(?:warranty|guarantee)`. -/
def wgAlts : List (List SimpleElem) := [[.lit (("warranty"))], [.lit (("guarantee"))]]

/-- `(?:limited\s+)?`. -/
def limitedOptAlts : List (List SimpleElem) :=
  [[.lit (("limited")), .cls wsC 1 none], []]

/-- `/(\d+[\s-]*(?:year|month|day|yr|mo)[\s-]*(?:limited\s+)?(?:warranty|guarantee))/i`. -/
def warrantyPattern1 : CapPattern :=
  { pre := [[]]
    cap := seqAlts [[.cls Char.isDigit 1 none, .cls wsDashC 0 none]]
      (seqAlts [[.lit (("year"))], [.lit (("month"))], [.lit (("day"))],
        [.lit (("yr"))], [.lit (("mo"))]]
        (seqAlts [[.cls wsDashC 0 none]] (seqAlts limitedOptAlts wgAlts))) }

/-- `/((?:limited\s+)?(?:lifetime|full)\s+(?:warranty|guarantee))/i`. -/
def warrantyPattern2 : CapPattern :=
  { pre := [[]]
    cap := seqAlts limitedOptAlts
      (seqAlts [[.lit (("lifetime"))], [.lit (("full"))]]
        (seqAlts [[.cls wsC 1 none]] wgAlts)) }

/-- `/(?:warranty|guarantee)[:\s]+([^.\n]{5,50})/i`. -/
def warrantyPattern3 : CapPattern :=
  { pre := seqAlts wgAlts [[.cls colonWsC 1 none]]
    cap := [[.cls notDotNlC 5 (some 50)]] }

/-- `/(warranted? (?:for|against)[^.]{0,40})/i`. -/
def warrantyPattern4 : CapPattern :=
  { pre := [[]]
    cap := seqAlts [[.lit (("warranted"))], [.lit (("warrante"))]]
      (seqAlts [[.lit ((" "))]]
        (seqAlts [[.lit (("for"))], [.lit (("against"))]]
          [[.cls notDotC 0 (some 40)]])) }

/-- `/((?:manufacturer'?s?|factory)\s+(?:warranty|guarantee)[^.]{0,30})/i`. -/
def warrantyPattern5 : CapPattern :=
  { pre := [[]]
    cap := seqAlts
      [[.lit (("manufacturer") ++ apoS ++ ("s"))], [.lit (("manufacturer") ++ apoS)],
       [.lit (("manufacturers"))], [.lit (("manufacturer"))], [.lit (("factory"))]]
      (seqAlts [[.cls wsC 1 none]] (seqAlts wgAlts [[.cls notDotC 0 (some 30)]])) }

/-- The ordered positive warranty patterns. -/
def warrantyPatterns : List CapPattern :=
  [warrantyPattern1, warrantyPattern2, warrantyPattern3, warrantyPattern4,
   warrantyPattern5]

/-- `/no warranty|without warranty|warranty (?:not|does not)|void(?:s|ed)? (?:the\s+)?warranty/i`. -/
def warrantyNegativeAlts : List (List SimpleElem) :=
  [[.lit (("no warranty"))], [.lit (("without warranty"))],
   [.lit (("warranty not"))], [.lit (("warranty does not"))]] ++
  seqAlts [[.lit (("voids"))], [.lit (("voided"))], [.lit (("void"))]]
    (seqAlts [[.lit ((" "))]]
      (seqAlts [[.lit (("the")), .cls wsC 1 none], []] [[.lit (("warranty"))]]))

/-- `warrantyNegative.test(lower)`. -/
def warrantyNegativeMatches (text : String) : Bool :=
  scanMatches warrantyNegativeAlts (lowerStr text).toList

/-- First pattern (in source order) that matches anywhere, returning its
group-1 capture. -/
def firstPatternCapture : List CapPattern → List Char → Option (List Char)
  | [], _ => none
  | p :: ps, cs =>
    match scanCapture p cs with
    | some r => some r
    | none => firstPatternCapture ps cs

/-- The warranty slice of the `details` record. -/
structure WarrantyResult where
  hasWarranty : Bool
  warrantyText : Option String
deriving DecidableEq

/-- The DOM-text warranty section of `extractProductDetails`: the negative
guard is tested first and, when it matches, the positive patterns are
never run. -/
def extractWarrantyFromText (text : String) : WarrantyResult :=
  if warrantyNegativeMatches text then
    { hasWarranty := false, warrantyText := none }
  else
    match firstPatternCapture warrantyPatterns text.toList with
    | some cap =>
      { hasWarranty := true
        warrantyText := some (((jsTrim cap.asString).toList.take 50).asString) }
    | none => { hasWarranty := false, warrantyText := none }

/-- Integer-valued JS `String(x)` conversion (`none` where the JS
rendering is not exercised by any claim: non-integer numbers). -/
def numToStr (q : ℚ) : Option String :=
  if q.den = 1 then some (toString q.num) else none

/-- `formatSchemaValue`: strings and numbers pass through,
`QuantitativeValue` objects render `value unitCode`.  The final
`JSON.stringify` branch for other object shapes is not exercised by any
claim and yields `none`. -/
def formatSchemaValue (value : Option JsonV) : Option String :=
  match value with
  | none => some ((""))
  | some v =>
    if !jsTruthyV v then some ((""))
    else match v with
      | .str s => some s
      | .num q => numToStr q
      | other =>
        match jsGet other (("value")) with
        | some inner =>
          let innerStr : Option String :=
            match inner with
            | .str s => some s
            | .num q => numToStr q
            | _ => none
          (match jsGet other (("unitCode")) with
           | some (.str u) =>
             if u.isEmpty then innerStr
             else innerStr.map (fun s => s ++ (" ") ++ u)
           | _ => innerStr)
        | none => none

/-- The warranty-relevant part of `extractProductDetailsFromSchema`:
fold the Product/ProductGroup items of the parsed JSON-LD blocks, filling
`hasWarranty`/`warrantyText` from a direct `warranty` property or a
matching `additionalProperty` entry only while the slot is still unset.
Note the type extraction here is `item['@type'] || ''` (no guard clause),
as in the source. -/
def applySchemaWarranty (blocks : List JsonV) (details : WarrantyResult) :
    WarrantyResult :=
  blocks.foldl (fun det block =>
    let items :=
      match jsGet block (("@graph")) with
      | some (.arr l) => l
      | some g => if jsTruthyV g then [] else [block]
      | none => [block]
    items.foldl (fun det item =>
      if !jsTruthyV item then det
      else
        let ty := lowerTypeStr (jsOrV (jsGet item (("@type"))) (some (.str (("")))))
        if ty == ("product") || ty == ("productgroup") then
          let det :=
            if !det.hasWarranty && optTruthyV (jsGet item (("warranty"))) then
              { hasWarranty := true
                warrantyText := (formatSchemaValue (jsGet item (("warranty")))).map
                  (fun s => (s.toList.take 50).asString) }
            else det
          match jsGet item (("additionalProperty")) with
          | some (.arr props) =>
            props.foldl (fun det prop =>
              let nm := match jsOrV (jsGet prop (("name"))) (some (.str (("")))) with
                | some (.str s) => lowerStr s
                | _ => ("")
              let valStr : Option String :=
                match jsOrNullV (jsGet prop (("value"))) with
                | some (.str s) => some s
                | some (.num q) => numToStr q
                | some _ => none
                | none => some ((""))
              if !det.hasWarranty &&
                  (includesStr nm (("warranty")) || includesStr nm (("guarantee"))) then
                { hasWarranty := true
                  warrantyText := valStr.map (fun s => (s.toList.take 50).asString) }
              else det) det
          | _ => det
        else det) det) details

/-- The warranty slice of `extractProductDetails`: DOM-text patterns with
the negative guard, then the schema fallback. -/
def extractWarranty (text : String) (blocks : List JsonV) : WarrantyResult :=
  applySchemaWarranty blocks (extractWarrantyFromText text)

/-! ### Recommendation engine (`src/recommendations/`)

Presentational fields (`title`, `description`, `implementation`,
`currentState`, `targetState`) are omitted from `Recommendation`; the JS
pushes possibly-`null` `createRecommendation` results and filters the
`null`s in `prioritizeRecommendations`, which the embedding fuses into
flattening each push site's `Option` into zero-or-one list entries. -/

/-- Impact / effort levels. -/
inductive Level where
  | high
  | medium
  | low
deriving DecidableEq

/-- `calculatePriority` via `PRIORITY_MATRIX` in `recommendation-rules.js`. -/
def calculatePriority : Level → Level → ℕ
  | .high, .low => 1
  | .high, .medium => 2
  | .high, .high => 3
  | .medium, .low => 2
  | .medium, .medium => 3
  | .medium, .high => 4
  | .low, .low => 3
  | .low, .medium => 4
  | .low, .high => 5

/-- One generated recommendation record. -/
structure Recommendation where
  id : String
  impact : Level
  effort : Level
  category : String
  priority : ℕ
  contextual : Bool := false
deriving DecidableEq

/-- The impact/effort/category triple of a `RECOMMENDATION_TEMPLATES`
entry. -/
structure TemplateEntry where
  impact : Level
  effort : Level
  category : String
deriving DecidableEq

/-- `RECOMMENDATION_TEMPLATES` (impact/effort/category columns). -/
def RECOMMENDATION_TEMPLATES : List (String × TemplateEntry) :=
  [(("og-image-missing"), ⟨.high, .low, ("protocolMeta")⟩),
   (("og-image-webp"), ⟨.high, .low, ("protocolMeta")⟩),
   (("robots-blocking"), ⟨.high, .low, ("protocolMeta")⟩),
   (("og-title-missing"), ⟨.medium, .low, ("protocolMeta")⟩),
   (("og-description-missing"), ⟨.medium, .low, ("protocolMeta")⟩),
   (("twitter-card-missing"), ⟨.low, .low, ("protocolMeta")⟩),
   (("product-schema-missing"), ⟨.high, .medium, ("structuredData")⟩),
   (("offer-schema-missing"), ⟨.high, .low, ("structuredData")⟩),
   (("rating-schema-missing"), ⟨.medium, .low, ("structuredData")⟩),
   (("faq-schema-missing"), ⟨.medium, .medium, ("structuredData")⟩),
   (("breadcrumb-schema-missing"), ⟨.low, .low, ("structuredData")⟩),
   (("description-short"), ⟨.high, .medium, ("contentQuality")⟩),
   (("specs-missing"), ⟨.medium, .medium, ("contentQuality")⟩),
   (("faq-content-missing"), ⟨.medium, .medium, ("contentQuality")⟩),
   (("features-missing"), ⟨.medium, .low, ("contentQuality")⟩),
   (("compatibility-missing"), ⟨.medium, .low, ("contentQuality")⟩),
   (("h1-missing"), ⟨.medium, .low, ("contentStructure")⟩),
   (("multiple-h1"), ⟨.low, .low, ("contentStructure")⟩),
   (("semantic-html-missing"), ⟨.medium, .medium, ("contentStructure")⟩),
   (("primary-image-alt-missing"), ⟨.medium, .low, ("contentStructure")⟩),
   (("images-alt-low"), ⟨.low, .medium, ("contentStructure")⟩),
   (("reviews-missing"), ⟨.high, .high, ("authorityTrust")⟩),
   (("reviews-low-count"), ⟨.medium, .high, ("authorityTrust")⟩),
   (("brand-unclear"), ⟨.medium, .low, ("authorityTrust")⟩),
   (("certifications-missing"), ⟨.low, .low, ("authorityTrust")⟩),
   (("ai-crawler-blocked"), ⟨.high, .low, ("aiDiscoverability")⟩),
   (("llms-txt-missing"), ⟨.medium, .low, ("aiDiscoverability")⟩),
   (("entity-consistency-low"), ⟨.medium, .low, ("aiDiscoverability")⟩),
   (("answer-format-missing"), ⟨.medium, .medium, ("aiDiscoverability")⟩),
   (("product-identifiers-missing"), ⟨.medium, .low, ("aiDiscoverability")⟩)]

/-- `createRecommendation`: template lookup, `none` for an unknown id (the
JS logs a warning and returns `null`, which is filtered from the output). -/
def createRecommendation (templateId : String) : Option Recommendation :=
  ((RECOMMENDATION_TEMPLATES.find? (fun p => p.1 == templateId)).map (fun p =>
    { id := templateId, impact := p.2.impact, effort := p.2.effort
      category := p.2.category
      priority := calculatePriority p.2.impact p.2.effort }))

/-- A possibly-`null` pushed recommendation, as zero-or-one list entries. -/
def pushRec : Option Recommendation → List Recommendation
  | none => []
  | some r => [r]

/-- `checkProtocolMetaIssues`. -/
def checkProtocolMetaIssues (d : ExtractionInput)
    (imageVerification : Option ImageFormatFact) : List Recommendation :=
  let og := d.metaTags.openGraph
  let robots := d.metaTags.robots
  let twitter := d.metaTags.twitterCards
  let canonical := d.metaTags.canonical
  let standard := d.metaTags.standard
  (if robots.isBlocked then pushRec (createRecommendation (("robots-blocking"))) else []) ++
  (if !truthyS og.image then pushRec (createRecommendation (("og-image-missing")))
   else if (imageVerification.map (·.isWebP)).getD false then
     pushRec (createRecommendation (("og-image-webp")))
   else []) ++
  (if !truthyS og.title then pushRec (createRecommendation (("og-title-missing"))) else []) ++
  (if !truthyS og.description then
    pushRec (createRecommendation (("og-description-missing"))) else []) ++
  (if !truthyS twitter.card then
    pushRec (createRecommendation (("twitter-card-missing"))) else []) ++
  (if !canonical.present then
    [{ id := ("canonical-missing"), impact := .low, effort := .low
       category := ("protocolMeta"), priority := calculatePriority .low .low }]
   else []) ++
  (if !truthyS standard.description then
    [{ id := ("meta-description-missing"), impact := .medium, effort := .low
       category := ("protocolMeta"), priority := calculatePriority .medium .low }]
   else [])

/-- `checkStructuredDataIssues`.  The FAQ logic is the dedup-relevant one:
`faq-schema-missing` fires when the schema is absent and FAQ content
exists; `faq-schema-and-content-missing` when both are absent. -/
def checkStructuredDataIssues (d : ExtractionInput) : List Recommendation :=
  let schemas := d.structuredData.schemas
  let reviews := d.trustSignals.reviews
  let faqContentCount := d.contentQuality.faq.count
  (if schemas.product.isNone then
    pushRec (createRecommendation (("product-schema-missing"))) else []) ++
  (if schemas.product.isSome && schemas.offer.isNone then
    pushRec (createRecommendation (("offer-schema-missing"))) else []) ++
  (if schemas.aggregateRating.isNone && 0 < reviews.count then
    pushRec (createRecommendation (("rating-schema-missing"))) else []) ++
  (if schemas.faq.isNone && 0 < faqContentCount then
    pushRec (createRecommendation (("faq-schema-missing")))
   else if schemas.faq.isNone && faqContentCount = 0 then
    [{ id := ("faq-schema-and-content-missing"), impact := .medium, effort := .medium
       category := ("structuredData"), priority := calculatePriority .medium .medium }]
   else []) ++
  (if schemas.breadcrumb.isNone then
    pushRec (createRecommendation (("breadcrumb-schema-missing"))) else [])

/-- `checkContentQualityIssues`.  `faq-content-missing` fires only for a
present-but-thin FAQ (`0 < count < 3`). -/
def checkContentQualityIssues (ctx : Context) (d : ExtractionInput) :
    List Recommendation :=
  let desc := d.contentQuality.description
  let specs := d.contentQuality.specifications
  let features := d.contentQuality.features
  let faq := d.contentQuality.faq
  let details := d.contentQuality.productDetails
  let m := CONTEXT_MULTIPLIERS ctx
  (if desc.wordCount < 100 then
    [{ id := ("description-short"), impact := .high, effort := .medium
       category := ("contentQuality"), priority := calculatePriority .high .medium }]
   else []) ++
  (if specs.count < 5 then
    let impact : Level := if 1 < m.technicalSpecifications then .high else .medium
    [{ id := ("specs-low"), impact := impact, effort := .medium
       category := ("contentQuality"), priority := calculatePriority impact .medium
       contextual := true }]
   else []) ++
  (if features.count < 3 then
    pushRec (createRecommendation (("features-missing"))) else []) ++
  (if 0 < faq.count && faq.count < 3 then
    pushRec (createRecommendation (("faq-content-missing"))) else []) ++
  (if !details.hasCompatibility then
    (if 1 < m.compatibilityInfo then
      pushRec ((createRecommendation (("compatibility-missing"))).map (fun r =>
        { r with impact := .high, priority := calculatePriority .high .low }))
     else pushRec (createRecommendation (("compatibility-missing"))))
   else []) ++
  (if !details.hasWarranty then
    let impact : Level := if 1 < m.warrantyInfo then .medium else .low
    [{ id := ("warranty-missing"), impact := impact, effort := .low
       category := ("contentQuality"), priority := calculatePriority impact .low
       contextual := 1 < m.warrantyInfo }]
   else [])

/-- `checkContentStructureIssues`. -/
def checkContentStructureIssues (d : ExtractionInput) : List Recommendation :=
  let headings := d.contentStructure.headings
  let semantic := d.contentStructure.semanticHTML
  let images := d.contentStructure.images
  (if !headings.hasH1 then pushRec (createRecommendation (("h1-missing"))) else []) ++
  (if 1 < headings.h1.count then
    pushRec (createRecommendation (("multiple-h1"))) else []) ++
  (if !semantic.hasMain && !semantic.hasArticle then
    pushRec (createRecommendation (("semantic-html-missing"))) else []) ++
  (match images.primaryImage with
   | some pi =>
     if !pi.hasAlt then pushRec (createRecommendation (("primary-image-alt-missing")))
     else []
   | none => []) ++
  (if images.altCoverage < 8/10 && 3 < images.totalCount then
    pushRec (createRecommendation (("images-alt-low"))) else []) ++
  (if 0 < headings.hierarchyIssues.length then
    [{ id := ("heading-hierarchy"), impact := .low, effort := .low
       category := ("contentStructure"), priority := calculatePriority .low .low }]
   else [])

/-- `checkAuthorityTrustIssues`. -/
def checkAuthorityTrustIssues (ctx : Context) (d : ExtractionInput) :
    List Recommendation :=
  let reviews := d.trustSignals.reviews
  let brand := d.trustSignals.brand
  let certs := d.trustSignals.certifications
  let m := CONTEXT_MULTIPLIERS ctx
  (if !reviews.hasReviews || reviews.count = 0 then
    pushRec (createRecommendation (("reviews-missing")))
   else if reviews.count < 10 then
    let impact : Level := if 1 < m.reviewCount then .high else .medium
    pushRec ((createRecommendation (("reviews-low-count"))).map (fun r =>
      { r with impact := impact, priority := calculatePriority impact .high }))
   else []) ++
  (if !truthyS brand.name || brand.clarity == ("missing") then
    pushRec (createRecommendation (("brand-unclear")))
   else if brand.clarity == ("present") && !brand.inH1 && !brand.inTitle then
    [{ id := ("brand-visibility"), impact := .low, effort := .low
       category := ("authorityTrust"), priority := calculatePriority .low .low }]
   else []) ++
  (if !certs.found then
    (if 1 < m.certifications then
      pushRec ((createRecommendation (("certifications-missing"))).map (fun r =>
        { r with impact := .medium, priority := calculatePriority .medium .low
                 contextual := true }))
     else [])
   else [])

/-- `checkAIDiscoverabilityIssues`: a pass over the AI-Discoverability
category's factor list. -/
def checkAIDiscoverabilityIssues (scoreResult : ScoreResult) : List Recommendation :=
  (scoreResult.categoryScores.aiDiscoverability.factors).flatMap (fun factor =>
    (if factor.name == ("AI Crawler Access") && factor.status = .fail then
      pushRec (createRecommendation (("ai-crawler-blocked")))
     else if factor.name == ("AI Crawler Access") && factor.status = .warning &&
         jsLtN factor.points (jsMulN factor.maxPoints (some (5/10))) then
      pushRec (createRecommendation (("ai-crawler-blocked")))
     else []) ++
    (if factor.name == ("Entity Consistency") &&
        (factor.status = .fail ∨ factor.status = .warning) then
      pushRec (createRecommendation (("entity-consistency-low")))
     else []) ++
    (if factor.name == ("Answer-Format Content") && factor.status = .fail then
      pushRec (createRecommendation (("answer-format-missing")))
     else []) ++
    (if factor.name == ("Product Identifiers") && factor.status = .fail then
      pushRec (createRecommendation (("product-identifiers-missing")))
     else []) ++
    (if factor.name == ("llms.txt Presence") && factor.status = .fail then
      pushRec (createRecommendation (("llms-txt-missing")))
     else []))

/-- The sort comparator of `prioritizeRecommendations`: ascending priority;
ties compare `impactOrder[impact] || 2`, where the `|| 2` turns the rank 0
of `high` into 2, exactly as in the source. -/
def recTieRank : Level → ℕ
  | .high => 2
  | .medium => 1
  | .low => 2

/-- The sort order as a boolean relation for a stable merge sort. -/
def recLE (a b : Recommendation) : Bool :=
  a.priority < b.priority ||
    (a.priority = b.priority && recTieRank a.impact ≤ recTieRank b.impact)

/-- `generateRecommendations`: the six checks in order, then the stable
priority sort. -/
def generateRecommendations (scoreResult : ScoreResult)
    (extractedData : ExtractionInput)
    (imageVerification : Option ImageFormatFact) : List Recommendation :=
  let ctx := scoreResult.context
  let recommendations :=
    checkProtocolMetaIssues extractedData imageVerification ++
    checkStructuredDataIssues extractedData ++
    checkContentQualityIssues ctx extractedData ++
    checkContentStructureIssues extractedData ++
    checkAuthorityTrustIssues ctx extractedData ++
    checkAIDiscoverabilityIssues scoreResult
  recommendations.mergeSort recLE

/-! ### Well-formedness of extraction inputs

The extractor computes every 0–100 sub-score through explicitly capped
piecewise formulas (`Math.min(100, …)` or branch ladders ending at `100`)
and every coverage value as a quotient in `[0, 1]`; `WellFormedInput`
records exactly those output ranges as hypotheses for the bound
theorems. -/

/-- Ranges the content script guarantees for the numeric sub-scores the
scoring engine consumes. -/
structure WellFormedInput (d : ExtractionInput) : Prop where
  lengthScore_mem : 0 ≤ d.contentQuality.description.lengthScore ∧
    d.contentQuality.description.lengthScore ≤ 100
  specCountScore_mem : 0 ≤ d.contentQuality.specifications.countScore ∧
    d.contentQuality.specifications.countScore ≤ 100
  featureCountScore_mem : 0 ≤ d.contentQuality.features.countScore ∧
    d.contentQuality.features.countScore ≤ 100
  faqCountScore_mem : 0 ≤ d.contentQuality.faq.countScore ∧
    d.contentQuality.faq.countScore ≤ 100
  semanticScore_mem : 0 ≤ d.contentStructure.semanticHTML.score ∧
    d.contentStructure.semanticHTML.score ≤ 100
  ratioScore_mem : 0 ≤ d.contentStructure.contentRatioData.score ∧
    d.contentStructure.contentRatioData.score ≤ 100
  tablesScore_mem : 0 ≤ d.contentStructure.tables.score ∧
    d.contentStructure.tables.score ≤ 100
  listsScore_mem : 0 ≤ d.contentStructure.lists.score ∧
    d.contentStructure.lists.score ≤ 100
  jsScore_mem : 0 ≤ d.contentStructure.jsDependency.score ∧
    d.contentStructure.jsDependency.score ≤ 100
  altCoverage_mem : 0 ≤ d.contentStructure.images.altCoverage ∧
    d.contentStructure.images.altCoverage ≤ 1
  readability_mem : ∀ r, d.contentQuality.textMetrics.readabilityScore = some r →
    0 ≤ r ∧ r ≤ 100
  reviewCountScore_mem : 0 ≤ d.trustSignals.reviews.countScore ∧
    d.trustSignals.reviews.countScore ≤ 100
  ratingScore_mem : 0 ≤ d.trustSignals.reviews.ratingScore ∧
    d.trustSignals.reviews.ratingScore ≤ 100
  depthScore_mem : 0 ≤ d.trustSignals.reviews.depthScore ∧
    d.trustSignals.reviews.depthScore ≤ 100
  brandScore_mem : 0 ≤ d.trustSignals.brand.score ∧
    d.trustSignals.brand.score ≤ 100
  certScore_mem : 0 ≤ d.trustSignals.certifications.score ∧
    d.trustSignals.certifications.score ≤ 100

/-! ### Bound lemmas -/

theorem jsRound_bounds {q : ℚ} {n : ℚ} (hn : ∃ m : ℤ, n = m) (h0 : 0 ≤ q)
    (h1 : q ≤ n) : 0 ≤ jsRound q ∧ jsRound q ≤ n := by
  obtain ⟨m, rfl⟩ := hn
  exact ⟨jsRound_nonneg h0, jsRound_le_int h1⟩

theorem scalePart_nonneg {s w : ℚ} (hs : 0 ≤ s) (hw : 0 ≤ w) :
    0 ≤ scalePart s w := by
  unfold scalePart
  split
  · exact le_refl 0
  · exact jsRound_nonneg (by positivity)

theorem scalePart_le {s w : ℚ} (hs0 : 0 ≤ s) (hs : s ≤ 100) (hw : 0 ≤ w)
    (hwi : ∃ m : ℤ, w = m) : scalePart s w ≤ w := by
  obtain ⟨m, rfl⟩ := hwi
  unfold scalePart
  split
  · exact_mod_cast (by exact_mod_cast hw : (0 : ℚ) ≤ (m : ℚ))
  · exact jsRound_le_int (by nlinarith)

theorem productFieldScore_bounds (p : SchemaProduct) :
    0 ≤ productFieldScore p ∧ productFieldScore p ≤ 30 := by
  unfold productFieldScore
  split_ifs <;> norm_num

theorem productSchemaScore_bounds (product : Option SchemaProduct) :
    0 ≤ productSchemaScore product 30 ∧ productSchemaScore product 30 ≤ 30 := by
  cases product with
  | none => simp [productSchemaScore]
  | some p =>
    unfold productSchemaScore
    constructor
    · exact jsRound_nonneg (by have := (productFieldScore_bounds p).1; positivity)
    · have h30 := (productFieldScore_bounds p).2
      have : productFieldScore p / 30 * 30 ≤ ((30 : ℤ) : ℚ) := by push_cast; linarith
      exact jsRound_le_int this

/-- Branch bound for a conditional weight award. -/
theorem ite_bounds (c : Prop) [Decidable c] (w : ℚ) (hw : 0 ≤ w) :
    0 ≤ (if c then w else 0) ∧ (if c then w else 0) ≤ w := by
  split_ifs <;> exact ⟨by linarith, by linarith⟩

/-- The FAQ-schema presence test of `scoreStructuredData`. -/
def hasFaqB (s : SchemaSet) : Bool :=
  match s.faq with
  | none => false
  | some f => 0 < f.questionCount

theorem scoreStructuredData_score_eq (data : StructuredDataInput) :
    (scoreStructuredData data).score =
      productSchemaScore data.schemas.product 30 +
      (if data.schemas.offer.isSome then (20:ℚ) else 0) +
      (if data.schemas.aggregateRating.isSome then (15:ℚ) else 0) +
      (if 0 < data.schemas.reviews.length then (10:ℚ) else 0) +
      (if hasFaqB data.schemas then (10:ℚ) else 0) +
      (if data.schemas.breadcrumb.isSome then (5:ℚ) else 0) +
      (if data.schemas.organization.isSome || data.schemas.brand.isSome then (5:ℚ)
       else 0) +
      (if 0 < data.schemas.images.length then (5:ℚ) else 0) := by
  simp only [scoreStructuredData, FACTOR_WEIGHTS_structuredData, hasFaqB]

/-- The points/maxPoints columns of the Structured Data factor list. -/
theorem scoreStructuredData_factor_points (data : StructuredDataInput) :
    ((scoreStructuredData data).factors.map (fun f => (f.points, f.maxPoints))) =
      [(productSchemaScore data.schemas.product 30, 30),
       ((if data.schemas.offer.isSome then (20:ℚ) else 0), 20),
       ((if data.schemas.aggregateRating.isSome then (15:ℚ) else 0), 15),
       ((if 0 < data.schemas.reviews.length then (10:ℚ) else 0), 10),
       ((if hasFaqB data.schemas then (10:ℚ) else 0), 10),
       ((if data.schemas.breadcrumb.isSome then (5:ℚ) else 0), 5),
       ((if data.schemas.organization.isSome || data.schemas.brand.isSome then (5:ℚ)
         else 0), 5),
       ((if 0 < data.schemas.images.length then (5:ℚ) else 0), 5)] := by
  simp only [scoreStructuredData, FACTOR_WEIGHTS_structuredData, hasFaqB, List.map]

/-- Every Structured Data factor satisfies the points bound, with no
well-formedness assumption (the category is built from booleans only). -/
theorem scoreStructuredData_factor_bounds (data : StructuredDataInput) :
    ∀ f ∈ (scoreStructuredData data).factors,
      0 ≤ f.points ∧ f.points ≤ f.maxPoints := by
  intro f hf
  obtain ⟨hp0, hp1⟩ := productSchemaScore_bounds data.schemas.product
  have hm : (f.points, f.maxPoints) ∈
      ((scoreStructuredData data).factors.map (fun f => (f.points, f.maxPoints))) :=
    List.mem_map_of_mem _ hf
  rw [scoreStructuredData_factor_points] at hm
  simp only [List.mem_cons, List.not_mem_nil, or_false] at hm
  have main : 0 ≤ (f.points, f.maxPoints).1 ∧
      (f.points, f.maxPoints).1 ≤ (f.points, f.maxPoints).2 := by
    rcases hm with h | h | h | h | h | h | h | h <;> rw [h] <;>
      first
        | exact ⟨hp0, hp1⟩
        | exact ite_bounds _ _ (by norm_num)
  exact main

/-- The Structured Data category score stays in `[0, 100]` (it is the raw
factor sum; the factor weights sum to 100). -/
theorem scoreStructuredData_score_bounds (data : StructuredDataInput) :
    0 ≤ (scoreStructuredData data).score ∧ (scoreStructuredData data).score ≤ 100 := by
  obtain ⟨hp0, hp1⟩ := productSchemaScore_bounds data.schemas.product
  rw [scoreStructuredData_score_eq]
  obtain ⟨a0, a1⟩ := ite_bounds (data.schemas.offer.isSome = true) (20:ℚ) (by norm_num)
  obtain ⟨b0, b1⟩ := ite_bounds (data.schemas.aggregateRating.isSome = true) (15:ℚ)
    (by norm_num)
  obtain ⟨c0, c1⟩ := ite_bounds (0 < data.schemas.reviews.length) (10:ℚ) (by norm_num)
  obtain ⟨d0, d1⟩ := ite_bounds (hasFaqB data.schemas = true) (10:ℚ) (by norm_num)
  obtain ⟨e0, e1⟩ := ite_bounds (data.schemas.breadcrumb.isSome = true) (5:ℚ)
    (by norm_num)
  obtain ⟨f0, f1⟩ := ite_bounds
    ((data.schemas.organization.isSome || data.schemas.brand.isSome) = true) (5:ℚ)
    (by norm_num)
  obtain ⟨g0, g1⟩ := ite_bounds (0 < data.schemas.images.length) (5:ℚ) (by norm_num)
  constructor <;> linarith

/-- Branch bound for a conditional award with a reduced secondary tier
(`w * r` with `r ≤ 1`). -/
theorem ite_nested_bounds (c d : Prop) [Decidable c] [Decidable d] (w r : ℚ)
    (hw : 0 ≤ w) (hr0 : 0 ≤ r) (hr1 : r ≤ 1) :
    0 ≤ (if c then (if d then w else w * r) else 0) ∧
      (if c then (if d then w else w * r) else 0) ≤ w := by
  split_ifs <;> constructor <;> nlinarith

/-- Branch bound for an inverted conditional award. -/
theorem ite_bounds0 (c : Prop) [Decidable c] (w : ℚ) (hw : 0 ≤ w) :
    0 ≤ (if c then 0 else w) ∧ (if c then 0 else w) ≤ w := by
  split_ifs <;> exact ⟨by linarith, by linarith⟩

theorem ogImageFormatFactor_bounds (img : Option String)
    (iv : Option ImageFormatFact) {w : ℚ} (hw : 0 ≤ w) :
    0 ≤ (ogImageFormatFactor img iv w).points ∧
      (ogImageFormatFactor img iv w).points ≤ w ∧
      (ogImageFormatFactor img iv w).maxPoints = w := by
  unfold ogImageFormatFactor
  cases iv with
  | some v =>
    dsimp only
    split_ifs <;> refine ⟨?_, ?_, rfl⟩ <;> dsimp only <;> linarith
  | none =>
    dsimp only
    split_ifs <;> refine ⟨?_, ?_, rfl⟩ <;> dsimp only <;> linarith

theorem scoreProtocolMeta_score_eq (data : MetaTagsInput)
    (iv : Option ImageFormatFact) :
    (scoreProtocolMeta data iv).score =
      (if truthyS data.openGraph.image then (20:ℚ) else 0) +
      (ogImageFormatFactor data.openGraph.image iv 15).points +
      (if truthyS data.openGraph.title then
        (if 0 < optLen data.openGraph.title ∧ optLen data.openGraph.title ≤ 60
         then (10:ℚ) else 10 * (7/10)) else 0) +
      (if truthyS data.openGraph.description then
        (if 100 ≤ optLen data.openGraph.description ∧
            optLen data.openGraph.description ≤ 200
         then (10:ℚ) else 10 * (7/10)) else 0) +
      (if optEq data.openGraph.type' (("product")) ||
          optEq data.openGraph.type' (("og:product")) then (5:ℚ) else 0) +
      (if truthyS data.twitterCards.card then
        (if optEq data.twitterCards.card (("summary_large_image"))
         then (10:ℚ) else 10 * (7/10)) else 0) +
      (if truthyS data.twitterCards.image then (5:ℚ) else 0) +
      (if data.canonical.present then
        (if data.canonical.matchesCurrentUrl || data.canonical.isProductCanonical
         then (10:ℚ) else 10 * (7/10)) else 0) +
      (if truthyS data.standard.description then
        (if 120 ≤ optLen data.standard.description ∧
            optLen data.standard.description ≤ 160
         then (10:ℚ) else 10 * (7/10)) else 0) +
      (if data.robots.isBlocked then 0 else (5:ℚ)) := by
  simp only [scoreProtocolMeta, FACTOR_WEIGHTS_protocolMeta, Bool.and_eq_true,
    decide_eq_true_eq]

theorem scoreProtocolMeta_factor_points (data : MetaTagsInput)
    (iv : Option ImageFormatFact) :
    ((scoreProtocolMeta data iv).factors.map (fun f => (f.points, f.maxPoints))) =
      [((if truthyS data.openGraph.image then (20:ℚ) else 0), 20),
       ((ogImageFormatFactor data.openGraph.image iv 15).points,
        (ogImageFormatFactor data.openGraph.image iv 15).maxPoints),
       ((if truthyS data.openGraph.title then
          (if 0 < optLen data.openGraph.title ∧ optLen data.openGraph.title ≤ 60
           then (10:ℚ) else 10 * (7/10)) else 0), 10),
       ((if truthyS data.openGraph.description then
          (if 100 ≤ optLen data.openGraph.description ∧
              optLen data.openGraph.description ≤ 200
           then (10:ℚ) else 10 * (7/10)) else 0), 10),
       ((if optEq data.openGraph.type' (("product")) ||
           optEq data.openGraph.type' (("og:product")) then (5:ℚ) else 0), 5),
       ((if truthyS data.twitterCards.card then
          (if optEq data.twitterCards.card (("summary_large_image"))
           then (10:ℚ) else 10 * (7/10)) else 0), 10),
       ((if truthyS data.twitterCards.image then (5:ℚ) else 0), 5),
       ((if data.canonical.present then
          (if data.canonical.matchesCurrentUrl || data.canonical.isProductCanonical
           then (10:ℚ) else 10 * (7/10)) else 0), 10),
       ((if truthyS data.standard.description then
          (if 120 ≤ optLen data.standard.description ∧
              optLen data.standard.description ≤ 160
           then (10:ℚ) else 10 * (7/10)) else 0), 10),
       ((if data.robots.isBlocked then 0 else (5:ℚ)), 5)] := by
  simp only [scoreProtocolMeta, FACTOR_WEIGHTS_protocolMeta, List.map,
    Bool.and_eq_true, decide_eq_true_eq]

/-- Every Protocol & Meta factor satisfies the points bound. -/
theorem scoreProtocolMeta_factor_bounds (data : MetaTagsInput)
    (iv : Option ImageFormatFact) :
    ∀ f ∈ (scoreProtocolMeta data iv).factors,
      0 ≤ f.points ∧ f.points ≤ f.maxPoints := by
  intro f hf
  obtain ⟨hfm0, hfm1, hfmEq⟩ :=
    ogImageFormatFactor_bounds data.openGraph.image iv (by norm_num : (0:ℚ) ≤ 15)
  have hm : (f.points, f.maxPoints) ∈
      ((scoreProtocolMeta data iv).factors.map (fun f => (f.points, f.maxPoints))) :=
    List.mem_map_of_mem _ hf
  rw [scoreProtocolMeta_factor_points] at hm
  simp only [List.mem_cons, List.not_mem_nil, or_false] at hm
  have main : 0 ≤ (f.points, f.maxPoints).1 ∧
      (f.points, f.maxPoints).1 ≤ (f.points, f.maxPoints).2 := by
    rcases hm with h | h | h | h | h | h | h | h | h | h <;> rw [h]
    · exact ite_bounds _ _ (by norm_num)
    · exact ⟨hfm0, by rw [hfmEq]; exact hfm1⟩
    · exact ite_nested_bounds _ _ _ (7/10) (by norm_num) (by norm_num) (by norm_num)
    · exact ite_nested_bounds _ _ _ (7/10) (by norm_num) (by norm_num) (by norm_num)
    · exact ite_bounds _ _ (by norm_num)
    · exact ite_nested_bounds _ _ _ (7/10) (by norm_num) (by norm_num) (by norm_num)
    · exact ite_bounds _ _ (by norm_num)
    · exact ite_nested_bounds _ _ _ (7/10) (by norm_num) (by norm_num) (by norm_num)
    · exact ite_nested_bounds _ _ _ (7/10) (by norm_num) (by norm_num) (by norm_num)
    · exact ite_bounds0 _ _ (by norm_num)
  exact main

/-- The Protocol & Meta category score stays in `[0, 100]`. -/
theorem scoreProtocolMeta_score_bounds (data : MetaTagsInput)
    (iv : Option ImageFormatFact) :
    0 ≤ (scoreProtocolMeta data iv).score ∧ (scoreProtocolMeta data iv).score ≤ 100 := by
  obtain ⟨hfm0, hfm1, _⟩ :=
    ogImageFormatFactor_bounds data.openGraph.image iv (by norm_num : (0:ℚ) ≤ 15)
  rw [scoreProtocolMeta_score_eq]
  obtain ⟨a0, a1⟩ := ite_bounds (truthyS data.openGraph.image = true) (20:ℚ) (by norm_num)
  obtain ⟨b0, b1⟩ := ite_nested_bounds (truthyS data.openGraph.title = true)
    (0 < optLen data.openGraph.title ∧ optLen data.openGraph.title ≤ 60) 10 (7/10)
    (by norm_num) (by norm_num) (by norm_num)
  obtain ⟨c0, c1⟩ := ite_nested_bounds (truthyS data.openGraph.description = true)
    (100 ≤ optLen data.openGraph.description ∧ optLen data.openGraph.description ≤ 200)
    10 (7/10) (by norm_num) (by norm_num) (by norm_num)
  obtain ⟨d0, d1⟩ := ite_bounds ((optEq data.openGraph.type' (("product")) ||
    optEq data.openGraph.type' (("og:product"))) = true) (5:ℚ) (by norm_num)
  obtain ⟨e0, e1⟩ := ite_nested_bounds (truthyS data.twitterCards.card = true)
    (optEq data.twitterCards.card (("summary_large_image")) = true) 10 (7/10)
    (by norm_num) (by norm_num) (by norm_num)
  obtain ⟨f0, f1⟩ := ite_bounds (truthyS data.twitterCards.image = true) (5:ℚ)
    (by norm_num)
  obtain ⟨g0, g1⟩ := ite_nested_bounds (data.canonical.present = true)
    ((data.canonical.matchesCurrentUrl || data.canonical.isProductCanonical) = true)
    10 (7/10) (by norm_num) (by norm_num) (by norm_num)
  obtain ⟨i0, i1⟩ := ite_nested_bounds (truthyS data.standard.description = true)
    (120 ≤ optLen data.standard.description ∧ optLen data.standard.description ≤ 160)
    10 (7/10) (by norm_num) (by norm_num) (by norm_num)
  obtain ⟨j0, j1⟩ := ite_bounds0 (data.robots.isBlocked = true) (5:ℚ) (by norm_num)
  constructor <;> linarith

/-- Clamped-by-`min` award bounds. -/
theorem min_clamp_bounds {w x : ℚ} (hw : 0 ≤ w) (hx : 0 ≤ x) :
    0 ≤ min w x ∧ min w x ≤ w :=
  ⟨le_min hw hx, min_le_left _ _⟩

theorem jsRound_le_lit {q c : ℚ} (h : q ≤ c) (hc : ∃ m : ℤ, c = m) :
    jsRound q ≤ c := by
  obtain ⟨m, rfl⟩ := hc
  exact jsRound_le_int h

theorem scalePart_bounds {s w : ℚ} (hs0 : 0 ≤ s) (hs1 : s ≤ 100) (hw : 0 ≤ w)
    (hwi : ∃ m : ℤ, w = m) : 0 ≤ scalePart s w ∧ scalePart s w ≤ w :=
  ⟨scalePart_nonneg hs0 hw, scalePart_le hs0 hs1 hw hwi⟩

/-- All context multipliers are non-negative. -/
theorem multipliers_nonneg (ctx : Context) :
    0 ≤ (CONTEXT_MULTIPLIERS ctx).emotionalBenefitCopy ∧
    0 ≤ (CONTEXT_MULTIPLIERS ctx).technicalSpecifications ∧
    0 ≤ (CONTEXT_MULTIPLIERS ctx).compatibilityInfo ∧
    0 ≤ (CONTEXT_MULTIPLIERS ctx).certifications ∧
    0 ≤ (CONTEXT_MULTIPLIERS ctx).reviewCount ∧
    0 ≤ (CONTEXT_MULTIPLIERS ctx).reviewRating ∧
    0 ≤ (CONTEXT_MULTIPLIERS ctx).warrantyInfo ∧
    0 ≤ (CONTEXT_MULTIPLIERS ctx).comparisonContent := by
  cases ctx <;> norm_num [CONTEXT_MULTIPLIERS]

/-- The comparison-signal read of `scoreContentQuality`. -/
def hasComparisonB (aiSignals : Option AIDiscInput) : Bool :=
  match aiSignals with
  | none => false
  | some ai => match ai.answerFormat with
    | none => false
    | some af => af.hasComparison

/-- The fraction of specification items carrying a measurement unit. -/
def specDetailRatioQ (specs : SpecsInfo) : ℚ :=
  if 0 < specs.items.length then
    ((specs.items.filter (fun s => s.hasUnit)).length : ℚ) / (specs.items.length : ℚ)
  else 0

theorem scoreContentQuality_factor_points (ctx : Context) (data : ContentQualityInput)
    (aiSignals : Option AIDiscInput) :
    ((scoreContentQuality ctx data aiSignals).factors.map
        (fun f => (f.points, f.maxPoints))) =
      (let m := CONTEXT_MULTIPLIERS ctx
      [(scalePart data.description.lengthScore 15, 15),
   (min 10 (jsRound
      ((if data.description.hasBenefitStatements || data.description.hasEmotionalLanguage
        then (10 / 2) * m.emotionalBenefitCopy else 0) +
       (if data.description.hasTechnicalTerms
        then (10 / 2) * m.technicalSpecifications else 0))), 10),
   (min 10 (min (10 * (15/10))
      (jsRound (scalePart data.specifications.countScore 10 *
        m.technicalSpecifications))), 10),
   (scalePart data.features.countScore 10, 10),
   (scalePart data.faq.countScore 10, 10),
   (min 5 (if ctx = .need then
      jsRound ((if data.productDetails.hasDimensions then (5:ℚ) else 0) * (13/10))
     else (if data.productDetails.hasDimensions then (5:ℚ) else 0)), 5),
   ((if data.productDetails.hasMaterials then (5:ℚ) else 0), 5),
   ((if data.productDetails.hasCareInstructions then (3:ℚ) else 0), 3),
   (min 7 (jsRound ((if data.productDetails.hasWarranty then (7:ℚ) else 0) *
      m.warrantyInfo)), 7),
   (min 10 (jsRound ((if data.productDetails.hasCompatibility then (10:ℚ) else 0) *
      m.compatibilityInfo)), 10),
   ((if 3/10 ≤ specDetailRatioQ data.specifications then (5:ℚ)
     else if 0 < specDetailRatioQ data.specifications then jsRound (5 * (5/10))
     else 0), 5),
   (min 5 (jsRound ((if hasComparisonB aiSignals then (5:ℚ) else 0) *
      m.comparisonContent)), 5)]) := by
  simp only [scoreContentQuality, FACTOR_WEIGHTS_contentQuality, hasComparisonB,
    specDetailRatioQ, List.map]

theorem scoreContentQuality_score_eq (ctx : Context) (data : ContentQualityInput)
    (aiSignals : Option AIDiscInput) :
    (scoreContentQuality ctx data aiSignals).score =
      (let m := CONTEXT_MULTIPLIERS ctx
      min 100 ((scalePart data.description.lengthScore 15) +
      (min 10 (jsRound
      ((if data.description.hasBenefitStatements || data.description.hasEmotionalLanguage
        then (10 / 2) * m.emotionalBenefitCopy else 0) +
       (if data.description.hasTechnicalTerms
        then (10 / 2) * m.technicalSpecifications else 0)))) +
      (min 10 (min (10 * (15/10))
      (jsRound (scalePart data.specifications.countScore 10 *
        m.technicalSpecifications)))) +
      (scalePart data.features.countScore 10) +
      (scalePart data.faq.countScore 10) +
      (min 5 (if ctx = .need then
      jsRound ((if data.productDetails.hasDimensions then (5:ℚ) else 0) * (13/10))
     else (if data.productDetails.hasDimensions then (5:ℚ) else 0))) +
      ((if data.productDetails.hasMaterials then (5:ℚ) else 0)) +
      ((if data.productDetails.hasCareInstructions then (3:ℚ) else 0)) +
      (min 7 (jsRound ((if data.productDetails.hasWarranty then (7:ℚ) else 0) *
      m.warrantyInfo))) +
      (min 10 (jsRound ((if data.productDetails.hasCompatibility then (10:ℚ) else 0) *
      m.compatibilityInfo))) +
      ((if 3/10 ≤ specDetailRatioQ data.specifications then (5:ℚ)
     else if 0 < specDetailRatioQ data.specifications then jsRound (5 * (5/10))
     else 0)) +
      (min 5 (jsRound ((if hasComparisonB aiSignals then (5:ℚ) else 0) *
      m.comparisonContent))))) := by
  simp only [scoreContentQuality, FACTOR_WEIGHTS_contentQuality, hasComparisonB,
    specDetailRatioQ]

/-- Bounds for the specification-detail award. -/
theorem specDetail_bounds (specs : SpecsInfo) :
    0 ≤ (if 3/10 ≤ specDetailRatioQ specs then (5:ℚ)
      else if 0 < specDetailRatioQ specs then jsRound (5 * (5/10)) else 0) ∧
    (if 3/10 ≤ specDetailRatioQ specs then (5:ℚ)
      else if 0 < specDetailRatioQ specs then jsRound (5 * (5/10)) else 0) ≤ 5 := by
  constructor
  · split_ifs
    · norm_num
    · exact jsRound_nonneg (by norm_num)
    · norm_num
  · split_ifs
    · norm_num
    · exact jsRound_le_lit (by norm_num) ⟨5, by norm_num⟩
    · norm_num

/-- Every Content Quality factor satisfies the points bound. -/
theorem scoreContentQuality_factor_bounds (ctx : Context) (data : ContentQualityInput)
    (aiSignals : Option AIDiscInput)
    (hLen : 0 ≤ data.description.lengthScore ∧ data.description.lengthScore ≤ 100)
    (hSpec : 0 ≤ data.specifications.countScore ∧
      data.specifications.countScore ≤ 100)
    (hFeat : 0 ≤ data.features.countScore ∧ data.features.countScore ≤ 100)
    (hFaq : 0 ≤ data.faq.countScore ∧ data.faq.countScore ≤ 100) :
    ∀ f ∈ (scoreContentQuality ctx data aiSignals).factors,
      0 ≤ f.points ∧ f.points ≤ f.maxPoints := by
  obtain ⟨hme, hmt, hmc, _, _, _, hmw, hmcc⟩ := multipliers_nonneg ctx
  intro f hf
  have hm : (f.points, f.maxPoints) ∈
      ((scoreContentQuality ctx data aiSignals).factors.map
        (fun f => (f.points, f.maxPoints))) :=
    List.mem_map_of_mem _ hf
  rw [scoreContentQuality_factor_points] at hm
  simp only [List.mem_cons, List.not_mem_nil, or_false] at hm
  have main : 0 ≤ (f.points, f.maxPoints).1 ∧
      (f.points, f.maxPoints).1 ≤ (f.points, f.maxPoints).2 := by
    rcases hm with h | h | h | h | h | h | h | h | h | h | h | h <;> rw [h]
    · exact scalePart_bounds hLen.1 hLen.2 (by norm_num) ⟨15, by norm_num⟩
    · refine min_clamp_bounds (by norm_num) (jsRound_nonneg ?_)
      split_ifs <;> linarith
    · refine min_clamp_bounds (by norm_num)
        (le_min (by norm_num) (jsRound_nonneg ?_))
      have h10 := (scalePart_bounds hSpec.1 hSpec.2 (by norm_num : (0:ℚ) ≤ 10)
        ⟨10, by norm_num⟩).1
      nlinarith
    · exact scalePart_bounds hFeat.1 hFeat.2 (by norm_num) ⟨10, by norm_num⟩
    · exact scalePart_bounds hFaq.1 hFaq.2 (by norm_num) ⟨10, by norm_num⟩
    · refine min_clamp_bounds (by norm_num) ?_
      split_ifs
      · exact jsRound_nonneg (by norm_num)
      · exact jsRound_nonneg (by norm_num)
      · norm_num
      · norm_num
    · exact ite_bounds _ _ (by norm_num)
    · exact ite_bounds _ _ (by norm_num)
    · refine min_clamp_bounds (by norm_num) (jsRound_nonneg ?_)
      split_ifs <;> linarith
    · refine min_clamp_bounds (by norm_num) (jsRound_nonneg ?_)
      split_ifs <;> linarith
    · exact specDetail_bounds data.specifications
    · refine min_clamp_bounds (by norm_num) (jsRound_nonneg ?_)
      split_ifs <;> linarith
  exact main

/-- The Content Quality category score stays in `[0, 100]`. -/
theorem scoreContentQuality_score_bounds (ctx : Context) (data : ContentQualityInput)
    (aiSignals : Option AIDiscInput)
    (hLen : 0 ≤ data.description.lengthScore ∧ data.description.lengthScore ≤ 100)
    (hSpec : 0 ≤ data.specifications.countScore ∧
      data.specifications.countScore ≤ 100)
    (hFeat : 0 ≤ data.features.countScore ∧ data.features.countScore ≤ 100)
    (hFaq : 0 ≤ data.faq.countScore ∧ data.faq.countScore ≤ 100) :
    0 ≤ (scoreContentQuality ctx data aiSignals).score ∧
      (scoreContentQuality ctx data aiSignals).score ≤ 100 := by
  obtain ⟨hme, hmt, hmc, _, _, _, hmw, hmcc⟩ := multipliers_nonneg ctx
  rw [scoreContentQuality_score_eq]
  refine ⟨le_min (by norm_num) ?_, min_le_left _ _⟩
  repeat' apply add_nonneg
  · exact scalePart_nonneg hLen.1 (by norm_num)
  · refine le_min (by norm_num) (jsRound_nonneg ?_)
    split_ifs <;> linarith
  · refine le_min (by norm_num) (le_min (by norm_num) (jsRound_nonneg ?_))
    have h10 := (scalePart_bounds hSpec.1 hSpec.2
      (by norm_num : (0:ℚ) ≤ 10) ⟨10, by norm_num⟩).1
    nlinarith
  · exact scalePart_nonneg hFeat.1 (by norm_num)
  · exact scalePart_nonneg hFaq.1 (by norm_num)
  · refine le_min (by norm_num) ?_
    split_ifs
    · exact jsRound_nonneg (by norm_num)
    · exact jsRound_nonneg (by norm_num)
    · norm_num
    · norm_num
  · split_ifs <;> norm_num
  · split_ifs <;> norm_num
  · refine le_min (by norm_num) (jsRound_nonneg ?_)
    split_ifs <;> linarith
  · refine le_min (by norm_num) (jsRound_nonneg ?_)
    split_ifs <;> linarith
  · exact (specDetail_bounds data.specifications).1
  · refine le_min (by norm_num) (jsRound_nonneg ?_)
    split_ifs <;> linarith

/-- The primary-image alt-text test of `scoreContentStructure`. -/
def primaryHasAltB (images : ImagesInfo) : Bool :=
  match images.primaryImage with
  | none => false
  | some pi => pi.hasAlt

/-- The readability raw score the engine reads
(`textMetrics?.readabilityScore`, `undefined` propagating). -/
def readabilityRawQ : Option TextMetrics → Option ℚ
  | none => none
  | some tm => tm.readabilityScore

/-- The Readability factor points (`round(readability/100 × weight)`, 0 when
absent). -/
def readabilityPtsQ (textMetrics : Option TextMetrics) : ℚ :=
  match readabilityRawQ textMetrics with
  | none => 0
  | some r => jsRound ((r / 100) * 8)

theorem scoreContentStructure_score_eq (data : ContentStructureInput)
    (textMetrics : Option TextMetrics) :
    (scoreContentStructure data textMetrics).score =
      min 100 (
        (if data.headings.hasSingleH1 then (15:ℚ)
         else if data.headings.hasH1 then 15 * (5/10) else 0) +
        (if data.headings.hierarchyValid then (12:ℚ) else 12 * (5/10)) +
        scalePart data.semanticHTML.score 12 +
        scalePart data.contentRatioData.score 12 +
        scalePart data.tables.score 10 +
        scalePart data.lists.score 8 +
        (if 0 < data.accessibility.ariaLabels then (6:ℚ) else 0) +
        (if primaryHasAltB data.images then (10:ℚ) else 0) +
        jsRound (data.images.altCoverage * 8) +
        readabilityPtsQ textMetrics +
        (if data.jsDependency.score = 0 then (10:ℚ)
         else jsRound ((data.jsDependency.score / 100) * 10))) := by
  simp only [scoreContentStructure, FACTOR_WEIGHTS_contentStructure, primaryHasAltB,
    readabilityRawQ, readabilityPtsQ]

/-- The points/maxPoints columns of the Content Structure factor list. -/
theorem scoreContentStructure_factor_points (data : ContentStructureInput)
    (textMetrics : Option TextMetrics) :
    ((scoreContentStructure data textMetrics).factors.map
        (fun f => (f.points, f.maxPoints))) =
      [((if data.headings.hasSingleH1 then (15:ℚ)
         else if data.headings.hasH1 then 15 * (5/10) else 0), 15),
       ((if data.headings.hierarchyValid then (12:ℚ) else 12 * (5/10)), 12),
       (scalePart data.semanticHTML.score 12, 12),
       (scalePart data.contentRatioData.score 12, 12),
       (scalePart data.tables.score 10, 10),
       (scalePart data.lists.score 8, 8),
       ((if 0 < data.accessibility.ariaLabels then (6:ℚ) else 0), 6),
       ((if primaryHasAltB data.images then (10:ℚ) else 0), 10),
       (jsRound (data.images.altCoverage * 8), 8),
       (readabilityPtsQ textMetrics, 8),
       ((if data.jsDependency.score = 0 then (10:ℚ)
         else jsRound ((data.jsDependency.score / 100) * 10)), 10)] := by
  simp only [scoreContentStructure, FACTOR_WEIGHTS_contentStructure, primaryHasAltB,
    readabilityRawQ, readabilityPtsQ, List.map]

/-- Bounds for the Readability factor points. -/
theorem readabilityPts_bounds (textMetrics : Option TextMetrics)
    (h : ∀ r, readabilityRawQ textMetrics = some r → 0 ≤ r ∧ r ≤ 100) :
    0 ≤ readabilityPtsQ textMetrics ∧ readabilityPtsQ textMetrics ≤ 8 := by
  cases hr : readabilityRawQ textMetrics with
  | none => simp [readabilityPtsQ, hr]
  | some r =>
    obtain ⟨h0, h1⟩ := h r hr
    simp only [readabilityPtsQ, hr]
    exact ⟨jsRound_nonneg (by linarith), jsRound_le_lit (by linarith) ⟨8, by norm_num⟩⟩

/-- Every Content Structure factor satisfies the points bound. -/
theorem scoreContentStructure_factor_bounds (data : ContentStructureInput)
    (textMetrics : Option TextMetrics)
    (hSem : 0 ≤ data.semanticHTML.score ∧ data.semanticHTML.score ≤ 100)
    (hRatio : 0 ≤ data.contentRatioData.score ∧ data.contentRatioData.score ≤ 100)
    (hTab : 0 ≤ data.tables.score ∧ data.tables.score ≤ 100)
    (hList : 0 ≤ data.lists.score ∧ data.lists.score ≤ 100)
    (hAlt : 0 ≤ data.images.altCoverage ∧ data.images.altCoverage ≤ 1)
    (hJs : 0 ≤ data.jsDependency.score ∧ data.jsDependency.score ≤ 100)
    (hRead : ∀ r, readabilityRawQ textMetrics = some r → 0 ≤ r ∧ r ≤ 100) :
    ∀ f ∈ (scoreContentStructure data textMetrics).factors,
      0 ≤ f.points ∧ f.points ≤ f.maxPoints := by
  intro f hf
  have hm : (f.points, f.maxPoints) ∈
      ((scoreContentStructure data textMetrics).factors.map
        (fun f => (f.points, f.maxPoints))) :=
    List.mem_map_of_mem _ hf
  rw [scoreContentStructure_factor_points] at hm
  simp only [List.mem_cons, List.not_mem_nil, or_false] at hm
  have main : 0 ≤ (f.points, f.maxPoints).1 ∧
      (f.points, f.maxPoints).1 ≤ (f.points, f.maxPoints).2 := by
    rcases hm with h | h | h | h | h | h | h | h | h | h | h <;> rw [h]
    · constructor <;> (split_ifs <;> norm_num)
    · constructor <;> (split_ifs <;> norm_num)
    · exact scalePart_bounds hSem.1 hSem.2 (by norm_num) ⟨12, by norm_num⟩
    · exact scalePart_bounds hRatio.1 hRatio.2 (by norm_num) ⟨12, by norm_num⟩
    · exact scalePart_bounds hTab.1 hTab.2 (by norm_num) ⟨10, by norm_num⟩
    · exact scalePart_bounds hList.1 hList.2 (by norm_num) ⟨8, by norm_num⟩
    · exact ite_bounds _ _ (by norm_num)
    · exact ite_bounds _ _ (by norm_num)
    · refine ⟨jsRound_nonneg (by linarith [hAlt.1]), ?_⟩
      show jsRound (data.images.altCoverage * 8) ≤ (8:ℚ)
      exact jsRound_le_lit (by linarith [hAlt.2]) ⟨8, by norm_num⟩
    · exact readabilityPts_bounds textMetrics hRead
    · constructor
      · split_ifs
        · norm_num
        · exact jsRound_nonneg (by linarith [hJs.1])
      · show (if data.jsDependency.score = 0 then (10:ℚ)
          else jsRound ((data.jsDependency.score / 100) * 10)) ≤ (10:ℚ)
        split_ifs
        · norm_num
        · exact jsRound_le_lit (by linarith [hJs.2]) ⟨10, by norm_num⟩
  exact main

/-- The Content Structure category score stays in `[0, 100]`. -/
theorem scoreContentStructure_score_bounds (data : ContentStructureInput)
    (textMetrics : Option TextMetrics)
    (hSem : 0 ≤ data.semanticHTML.score ∧ data.semanticHTML.score ≤ 100)
    (hRatio : 0 ≤ data.contentRatioData.score ∧ data.contentRatioData.score ≤ 100)
    (hTab : 0 ≤ data.tables.score ∧ data.tables.score ≤ 100)
    (hList : 0 ≤ data.lists.score ∧ data.lists.score ≤ 100)
    (hAlt : 0 ≤ data.images.altCoverage ∧ data.images.altCoverage ≤ 1)
    (hJs : 0 ≤ data.jsDependency.score ∧ data.jsDependency.score ≤ 100)
    (hRead : ∀ r, readabilityRawQ textMetrics = some r → 0 ≤ r ∧ r ≤ 100) :
    0 ≤ (scoreContentStructure data textMetrics).score ∧
      (scoreContentStructure data textMetrics).score ≤ 100 := by
  rw [scoreContentStructure_score_eq]
  refine ⟨le_min (by norm_num) ?_, min_le_left _ _⟩
  repeat' apply add_nonneg
  · split_ifs <;> norm_num
  · split_ifs <;> norm_num
  · exact scalePart_nonneg hSem.1 (by norm_num)
  · exact scalePart_nonneg hRatio.1 (by norm_num)
  · exact scalePart_nonneg hTab.1 (by norm_num)
  · exact scalePart_nonneg hList.1 (by norm_num)
  · split_ifs <;> norm_num
  · split_ifs <;> norm_num
  · exact jsRound_nonneg (by linarith [hAlt.1])
  · exact (readabilityPts_bounds textMetrics hRead).1
  · split_ifs
    · norm_num
    · exact jsRound_nonneg (by linarith [hJs.1])
/-- The Review Recency award (`true` full, `false` half rounded, absent 0). -/
def recencyScoreQ : Option Bool → ℚ
  | some true => 15
  | some false => jsRound (15 * (5/10))
  | none => 0

theorem scoreAuthorityTrust_score_eq (ctx : Context) (data : TrustSignalsInput) :
    (scoreAuthorityTrust ctx data).score =
      (let m := CONTEXT_MULTIPLIERS ctx
      min 100 (
        min (25 * (15/10))
          (jsRound (scalePart data.reviews.countScore 25 * m.reviewCount)) +
        min 20 (jsRound (scalePart data.reviews.ratingScore 20 * m.reviewRating)) +
        recencyScoreQ data.reviews.hasRecentReviews +
        (if 0 < data.reviews.reviewsAnalyzed
         then scalePart data.reviews.depthScore 10 else 0) +
        scalePart data.brand.score 15 +
        min 10 (jsRound (scalePart data.certifications.score 10 * m.certifications)) +
        (if 0 < data.awards.count then (5:ℚ) else 0))) := by
  simp only [scoreAuthorityTrust, FACTOR_WEIGHTS_authorityTrust, recencyScoreQ]

/-- The name/points/maxPoints columns of the Authority & Trust factor list. -/
theorem scoreAuthorityTrust_factor_points (ctx : Context) (data : TrustSignalsInput) :
    ((scoreAuthorityTrust ctx data).factors.map
        (fun f => (f.name, f.points, f.maxPoints))) =
      (let m := CONTEXT_MULTIPLIERS ctx
      [(("Review Count"), min (25 * (15/10))
          (jsRound (scalePart data.reviews.countScore 25 * m.reviewCount)), 25),
       (("Average Rating"), min 20
          (jsRound (scalePart data.reviews.ratingScore 20 * m.reviewRating)), 20),
       (("Review Recency"), recencyScoreQ data.reviews.hasRecentReviews, 15),
       (("Review Depth"), (if 0 < data.reviews.reviewsAnalyzed
          then scalePart data.reviews.depthScore 10 else 0), 10),
       (("Brand Clarity"), scalePart data.brand.score 15, 15),
       (("Certifications"), min 10
          (jsRound (scalePart data.certifications.score 10 * m.certifications)), 10),
       (("Awards"), (if 0 < data.awards.count then (5:ℚ) else 0), 5)]) := by
  simp only [scoreAuthorityTrust, FACTOR_WEIGHTS_authorityTrust, recencyScoreQ,
    List.map]

/-- The Review Recency award lies in `[0, 15]`. -/
theorem recencyScore_bounds (b : Option Bool) :
    0 ≤ recencyScoreQ b ∧ recencyScoreQ b ≤ 15 := by
  match b with
  | none => exact ⟨le_refl 0, by norm_num [recencyScoreQ]⟩
  | some true => exact ⟨by norm_num [recencyScoreQ], le_refl 15⟩
  | some false =>
    refine ⟨jsRound_nonneg (by norm_num), jsRound_le_lit (by norm_num) ⟨15, by norm_num⟩⟩

/-- Every Authority & Trust factor's points are non-negative, and every
factor except Review Count is bounded by its `maxPoints`; Review Count is
only bounded by `1.5 × maxPoints` (the source clamps it at
`weights.reviewCount * 1.5`). -/
theorem scoreAuthorityTrust_factor_bounds (ctx : Context) (data : TrustSignalsInput)
    (hCount : 0 ≤ data.reviews.countScore ∧ data.reviews.countScore ≤ 100)
    (hRating : 0 ≤ data.reviews.ratingScore ∧ data.reviews.ratingScore ≤ 100)
    (hDepth : 0 ≤ data.reviews.depthScore ∧ data.reviews.depthScore ≤ 100)
    (hBrand : 0 ≤ data.brand.score ∧ data.brand.score ≤ 100)
    (hCert : 0 ≤ data.certifications.score ∧ data.certifications.score ≤ 100) :
    ∀ f ∈ (scoreAuthorityTrust ctx data).factors,
      0 ≤ f.points ∧ (f.points ≤ f.maxPoints ∨
        (f.name = ("Review Count") ∧ f.points ≤ f.maxPoints * (15/10))) := by
  obtain ⟨_, _, hmc, _, hmrc, hmrr, _, _⟩ := multipliers_nonneg ctx
  intro f hf
  have hm : (f.name, f.points, f.maxPoints) ∈
      ((scoreAuthorityTrust ctx data).factors.map
        (fun f => (f.name, f.points, f.maxPoints))) :=
    List.mem_map_of_mem _ hf
  rw [scoreAuthorityTrust_factor_points] at hm
  simp only [List.mem_cons, List.not_mem_nil, or_false] at hm
  have main : 0 ≤ (f.name, f.points, f.maxPoints).2.1 ∧
      ((f.name, f.points, f.maxPoints).2.1 ≤ (f.name, f.points, f.maxPoints).2.2 ∨
        ((f.name, f.points, f.maxPoints).1 = ("Review Count") ∧
          (f.name, f.points, f.maxPoints).2.1 ≤
            (f.name, f.points, f.maxPoints).2.2 * (15/10))) := by
    have hcs := scalePart_bounds hCount.1 hCount.2
      (by norm_num : (0:ℚ) ≤ 25) ⟨25, by norm_num⟩
    have hrs := scalePart_bounds hRating.1 hRating.2
      (by norm_num : (0:ℚ) ≤ 20) ⟨20, by norm_num⟩
    have hds := scalePart_bounds hDepth.1 hDepth.2
      (by norm_num : (0:ℚ) ≤ 10) ⟨10, by norm_num⟩
    have hbs := scalePart_bounds hBrand.1 hBrand.2
      (by norm_num : (0:ℚ) ≤ 15) ⟨15, by norm_num⟩
    have hcert := scalePart_bounds hCert.1 hCert.2
      (by norm_num : (0:ℚ) ≤ 10) ⟨10, by norm_num⟩
    rcases hm with h | h | h | h | h | h | h <;> rw [h]
    · refine ⟨le_min (by norm_num) (jsRound_nonneg (by nlinarith)), Or.inr ⟨rfl, ?_⟩⟩
      show min (25 * (15/10))
        (jsRound (scalePart data.reviews.countScore 25
          * (CONTEXT_MULTIPLIERS ctx).reviewCount)) ≤ 25 * (15/10)
      exact min_le_left _ _
    · refine ⟨le_min (by norm_num) (jsRound_nonneg (by nlinarith)), Or.inl ?_⟩
      show min 20 (jsRound (scalePart data.reviews.ratingScore 20
        * (CONTEXT_MULTIPLIERS ctx).reviewRating)) ≤ (20:ℚ)
      exact min_le_left _ _
    · exact ⟨(recencyScore_bounds _).1, Or.inl (recencyScore_bounds _).2⟩
    · constructor
      · split_ifs
        · exact hds.1
        · exact le_refl 0
      · refine Or.inl ?_
        show (if 0 < data.reviews.reviewsAnalyzed
          then scalePart data.reviews.depthScore 10 else 0) ≤ (10:ℚ)
        split_ifs
        · exact hds.2
        · norm_num
    · exact ⟨hbs.1, Or.inl hbs.2⟩
    · refine ⟨le_min (by norm_num) (jsRound_nonneg (by nlinarith)), Or.inl ?_⟩
      show min 10 (jsRound (scalePart data.certifications.score 10
        * (CONTEXT_MULTIPLIERS ctx).certifications)) ≤ (10:ℚ)
      exact min_le_left _ _
    · constructor
      · split_ifs <;> norm_num
      · refine Or.inl ?_
        show (if 0 < data.awards.count then (5:ℚ) else 0) ≤ (5:ℚ)
        split_ifs <;> norm_num
  exact main

/-- The Authority & Trust category score stays in `[0, 100]`. -/
theorem scoreAuthorityTrust_score_bounds (ctx : Context) (data : TrustSignalsInput)
    (hCount : 0 ≤ data.reviews.countScore ∧ data.reviews.countScore ≤ 100)
    (hRating : 0 ≤ data.reviews.ratingScore ∧ data.reviews.ratingScore ≤ 100)
    (hDepth : 0 ≤ data.reviews.depthScore ∧ data.reviews.depthScore ≤ 100)
    (hBrand : 0 ≤ data.brand.score ∧ data.brand.score ≤ 100)
    (hCert : 0 ≤ data.certifications.score ∧ data.certifications.score ≤ 100) :
    0 ≤ (scoreAuthorityTrust ctx data).score ∧
      (scoreAuthorityTrust ctx data).score ≤ 100 := by
  obtain ⟨_, _, hmc, _, hmrc, hmrr, _, _⟩ := multipliers_nonneg ctx
  have hcs := scalePart_nonneg hCount.1 (by norm_num : (0:ℚ) ≤ 25)
  have hrs := scalePart_nonneg hRating.1 (by norm_num : (0:ℚ) ≤ 20)
  have hds := scalePart_nonneg hDepth.1 (by norm_num : (0:ℚ) ≤ 10)
  have hbs := scalePart_nonneg hBrand.1 (by norm_num : (0:ℚ) ≤ 15)
  have hcert := scalePart_nonneg hCert.1 (by norm_num : (0:ℚ) ≤ 10)
  rw [scoreAuthorityTrust_score_eq]
  refine ⟨le_min (by norm_num) ?_, min_le_left _ _⟩
  repeat' apply add_nonneg
  · exact le_min (by norm_num) (jsRound_nonneg (by nlinarith))
  · exact le_min (by norm_num) (jsRound_nonneg (by nlinarith))
  · exact (recencyScore_bounds _).1
  · split_ifs
    · exact hds
    · exact le_refl 0
  · exact hbs
  · exact le_min (by norm_num) (jsRound_nonneg (by nlinarith))
  · split_ifs <;> norm_num
/-- At most four surfaces can match. -/
theorem entityMatchCount_le (d : ExtractionInput) (nl : String) :
    entityMatchCountN d nl ≤ 4 := by
  unfold entityMatchCountN
  split_ifs <;> norm_num

/-- The five weight reads the engine performs against the shipped table:
only two keys exist. -/
theorem aiWeight_aiCrawlerAccess : aiWeight (("aiCrawlerAccess")) = some 35 := rfl

theorem aiWeight_llmsTxtPresence : aiWeight (("llmsTxtPresence")) = some 20 := rfl

theorem aiWeight_entityConsistency : aiWeight (("entityConsistency")) = none := rfl

theorem aiWeight_answerFormatContent :
    aiWeight (("answerFormatContent")) = none := rfl

theorem aiWeight_productIdentifiers :
    aiWeight (("productIdentifiers")) = none := rfl

theorem scoreEntityConsistency_eq_noname (d : ExtractionInput) (mp : Option ℚ)
    (h : truthyS (productNameOf d) = false) :
    scoreEntityConsistency d mp =
      { score := some 0
        factor := { name := ("Entity Consistency"), status := .fail,
                    points := some 0, maxPoints := mp } } := by
  simp [scoreEntityConsistency, h]

theorem scoreEntityConsistency_eq_name (d : ExtractionInput) (mp : Option ℚ)
    (h : truthyS (productNameOf d) = true) :
    scoreEntityConsistency d mp =
      { score := jsRoundN (jsMulN (some ((entityMatchCountN d
            (jsTrim (lowerStr ((productNameOf d).getD ("")))) : ℚ)))
            (jsDivN mp (some 4))),
        factor := { name := ("Entity Consistency"),
                    status := if 3 ≤ entityMatchCountN d
                        (jsTrim (lowerStr ((productNameOf d).getD ("")))) then .pass
                      else if 2 ≤ entityMatchCountN d
                          (jsTrim (lowerStr ((productNameOf d).getD ("")))) then
                        .warning
                      else .fail,
                    points := jsRoundN (jsMulN (some ((entityMatchCountN d
                      (jsTrim (lowerStr ((productNameOf d).getD ("")))) : ℚ)))
                      (jsDivN mp (some 4))),
                    maxPoints := mp } } := by
  simp [scoreEntityConsistency, h]

/-- With the `undefined` weight the snapshot configures, the Entity
Consistency factor's maxPoints is `undefined` and its points are 0 (no
product name) or `NaN`. -/
theorem scoreEntityConsistency_undef (d : ExtractionInput) :
    (scoreEntityConsistency d none).factor.maxPoints = none ∧
    ((scoreEntityConsistency d none).factor.points = some 0 ∨
      (scoreEntityConsistency d none).factor.points = none) := by
  cases h : truthyS (productNameOf d) with
  | false =>
    rw [scoreEntityConsistency_eq_noname d none h]
    exact ⟨rfl, Or.inl rfl⟩
  | true =>
    rw [scoreEntityConsistency_eq_name d none h]
    exact ⟨rfl, Or.inr rfl⟩

/-- At most four answer-format signals. -/
theorem answerSignals_le (af : AnswerFormatInfo) : answerSignalsN af ≤ 4 := by
  unfold answerSignalsN
  split_ifs <;> norm_num

theorem scoreAnswerFormatContent_eq_none (d : ExtractionInput) (mp : Option ℚ)
    (h : d.aiDiscoverability.answerFormat = none) :
    scoreAnswerFormatContent d mp =
      { score := some 0
        factor := { name := ("Answer-Format Content"), status := .fail,
                    points := some 0, maxPoints := mp } } := by
  simp [scoreAnswerFormatContent, h]

theorem scoreAnswerFormatContent_eq_some (d : ExtractionInput) (mp : Option ℚ)
    (af : AnswerFormatInfo) (h : d.aiDiscoverability.answerFormat = some af) :
    scoreAnswerFormatContent d mp =
      { score := jsRoundN (jsMulN (jsDivN (some ((answerSignalsN af : ℚ)))
          (some 4)) mp),
        factor := { name := ("Answer-Format Content"),
                    status := if 3 ≤ answerSignalsN af then .pass
                      else if 1 ≤ answerSignalsN af then .warning else .fail,
                    points := jsRoundN (jsMulN (jsDivN (some ((answerSignalsN af : ℚ)))
                      (some 4)) mp),
                    maxPoints := mp } } := by
  simp [scoreAnswerFormatContent, h]

/-- With the `undefined` weight, the Answer-Format factor's maxPoints is
`undefined` and its points are 0 (no answer-format data) or `NaN`. -/
theorem scoreAnswerFormatContent_undef (d : ExtractionInput) :
    (scoreAnswerFormatContent d none).factor.maxPoints = none ∧
    ((scoreAnswerFormatContent d none).factor.points = some 0 ∨
      (scoreAnswerFormatContent d none).factor.points = none) := by
  cases h : d.aiDiscoverability.answerFormat with
  | none =>
    rw [scoreAnswerFormatContent_eq_none d none h]
    exact ⟨rfl, Or.inl rfl⟩
  | some af =>
    rw [scoreAnswerFormatContent_eq_some d none af h]
    exact ⟨rfl, Or.inr rfl⟩

theorem scoreProductIdentifiers_eq_none (d : ExtractionInput) (mp : Option ℚ)
    (h : d.structuredData.schemas.product = none) :
    scoreProductIdentifiers d mp =
      { score := some 0
        factor := { name := ("Product Identifiers"), status := .fail,
                    points := some 0, maxPoints := mp } } := by
  simp [scoreProductIdentifiers, h]

theorem scoreProductIdentifiers_eq_some (d : ExtractionInput) (mp : Option ℚ)
    (product : SchemaProduct) (h : d.structuredData.schemas.product = some product) :
    scoreProductIdentifiers d mp =
      { score := (if 2 ≤ identCountN product then mp
          else if identCountN product = 1 then jsRoundN (jsMulN mp (some (5/10)))
          else some 0),
        factor := { name := ("Product Identifiers"),
                    status := if 2 ≤ identCountN product then .pass
                      else if identCountN product = 1 then .warning else .fail,
                    points := (if 2 ≤ identCountN product then mp
                      else if identCountN product = 1 then
                        jsRoundN (jsMulN mp (some (5/10)))
                      else some 0),
                    maxPoints := mp } } := by
  simp [scoreProductIdentifiers, h]

/-- With the `undefined` weight, the Product Identifiers factor's
maxPoints is `undefined` and its points are 0, `undefined` (two or more
identifiers assign the weight itself) or `NaN` (exactly one). -/
theorem scoreProductIdentifiers_undef (d : ExtractionInput) :
    (scoreProductIdentifiers d none).factor.maxPoints = none ∧
    ((scoreProductIdentifiers d none).factor.points = some 0 ∨
      (scoreProductIdentifiers d none).factor.points = none) := by
  cases h : d.structuredData.schemas.product with
  | none =>
    rw [scoreProductIdentifiers_eq_none d none h]
    exact ⟨rfl, Or.inl rfl⟩
  | some product =>
    rw [scoreProductIdentifiers_eq_some d none product h]
    refine ⟨rfl, ?_⟩
    show ((if 2 ≤ identCountN product then (none : Option ℚ)
      else if identCountN product = 1 then jsRoundN (jsMulN none (some (5/10)))
      else some 0) = some 0) ∨
      ((if 2 ≤ identCountN product then (none : Option ℚ)
      else if identCountN product = 1 then jsRoundN (jsMulN none (some (5/10)))
      else some 0) = none)
    split_ifs
    · exact Or.inr rfl
    · exact Or.inr rfl
    · exact Or.inl rfl

/-- AI Crawler Access at the shipped weight 35. -/
theorem scoreAICrawlerAccess_score_bounds (robotsData : Option RobotsFact) :
    0 ≤ (scoreAICrawlerAccess robotsData 35).score ∧
    (scoreAICrawlerAccess robotsData 35).score ≤ 35 ∧
    (scoreAICrawlerAccess robotsData 35).factor.points =
      (scoreAICrawlerAccess robotsData 35).score ∧
    (scoreAICrawlerAccess robotsData 35).factor.maxPoints = 35 := by
  cases robotsData with
  | none =>
    refine ⟨le_refl 0, ?_, rfl, rfl⟩
    norm_num [scoreAICrawlerAccess]
  | some r =>
    unfold scoreAICrawlerAccess
    dsimp only
    split_ifs with h1 h2 h3 h4
    · exact ⟨by norm_num, by norm_num, rfl, rfl⟩
    · exact ⟨by norm_num, by norm_num, rfl, rfl⟩
    · exact ⟨by norm_num, by norm_num, rfl, rfl⟩
    · have ha : 0 < r.allowedCrawlers.length := by omega
      have hden : (0:ℚ) <
          ((r.blockedCrawlers.length + r.allowedCrawlers.length : ℕ) : ℚ) := by
        exact_mod_cast Nat.lt_of_lt_of_le ha (Nat.le_add_left _ _)
      have hfrac : ((r.allowedCrawlers.length : ℚ)) /
          ((r.blockedCrawlers.length + r.allowedCrawlers.length : ℕ) : ℚ) ≤ 1 := by
        rw [div_le_one hden]
        exact_mod_cast Nat.le_add_left _ _
      have hfrac0 : (0:ℚ) ≤ ((r.allowedCrawlers.length : ℚ)) /
          ((r.blockedCrawlers.length + r.allowedCrawlers.length : ℕ) : ℚ) := by
        positivity
      refine ⟨jsRound_nonneg (by nlinarith), ?_, rfl, rfl⟩
      exact jsRound_le_lit (by nlinarith) ⟨35, by norm_num⟩
    · exact ⟨le_refl 0, by norm_num, rfl, rfl⟩

/-- llms.txt Presence at the shipped weight 20. -/
theorem scoreLlmsTxt_score_bounds (llmsData : Option LlmsFact) :
    0 ≤ (scoreLlmsTxt llmsData 20).score ∧
    (scoreLlmsTxt llmsData 20).score ≤ 20 ∧
    (scoreLlmsTxt llmsData 20).factor.points = (scoreLlmsTxt llmsData 20).score ∧
    (scoreLlmsTxt llmsData 20).factor.maxPoints = 20 := by
  cases llmsData with
  | none =>
    refine ⟨le_refl 0, ?_, rfl, rfl⟩
    norm_num [scoreLlmsTxt]
  | some l =>
    unfold scoreLlmsTxt
    dsimp only
    split_ifs with h1 h2 h3 h4
    · exact ⟨by norm_num, by norm_num, rfl, rfl⟩
    · exact ⟨by norm_num, by norm_num, rfl, rfl⟩
    · refine ⟨jsRound_nonneg (by norm_num), ?_, rfl, rfl⟩
      exact jsRound_le_lit (by norm_num) ⟨20, by norm_num⟩
    · exact ⟨le_refl 0, by norm_num, rfl, rfl⟩
    · exact ⟨le_refl 0, by norm_num, rfl, rfl⟩

/-- The robots slot handed to the AI category (`networkData?.robots`). -/
def robotsOf : Option NetworkData → Option RobotsFact
  | none => none
  | some nd => nd.robots

/-- The llms slot handed to the AI category (`networkData?.llms`). -/
def llmsOf : Option NetworkData → Option LlmsFact
  | none => none
  | some nd => nd.llms

theorem scoreAIDiscoverability_score_eq (d : ExtractionInput)
    (networkData : Option NetworkData) :
    (scoreAIDiscoverability d networkData).score =
      jsMinN (some 100) (jsAddN (jsAddN (jsAddN (jsAddN
        (some (scoreAICrawlerAccess (robotsOf networkData) 35).score)
        (scoreEntityConsistency d (aiWeight (("entityConsistency")))).score)
        (scoreAnswerFormatContent d (aiWeight (("answerFormatContent")))).score)
        (scoreProductIdentifiers d (aiWeight (("productIdentifiers")))).score)
        (some (scoreLlmsTxt (llmsOf networkData) 20).score)) := by
  simp only [scoreAIDiscoverability, robotsOf, llmsOf]

theorem scoreAIDiscoverability_factors_eq (d : ExtractionInput)
    (networkData : Option NetworkData) :
    (scoreAIDiscoverability d networkData).factors =
      [factorN (scoreAICrawlerAccess (robotsOf networkData) 35).factor,
       (scoreEntityConsistency d (aiWeight (("entityConsistency")))).factor,
       (scoreAnswerFormatContent d (aiWeight (("answerFormatContent")))).factor,
       (scoreProductIdentifiers d (aiWeight (("productIdentifiers")))).factor,
       factorN (scoreLlmsTxt (llmsOf networkData) 20).factor] := by
  simp only [scoreAIDiscoverability, robotsOf, llmsOf]

/-- The AI Discoverability factors under the shipped weights: where a
weight exists (AI Crawler Access 35, llms.txt Presence 20) the points are
defined and bounded by it; where it does not (Entity Consistency,
Answer-Format Content, Product Identifiers) the factor's maxPoints is
`undefined` and its points are 0 or `NaN`/`undefined`. -/
theorem scoreAIDiscoverability_factor_bounds (d : ExtractionInput)
    (networkData : Option NetworkData) :
    ∀ g ∈ (scoreAIDiscoverability d networkData).factors,
      (∀ w, g.maxPoints = some w → ∃ p, g.points = some p ∧ 0 ≤ p ∧ p ≤ w) ∧
      (g.maxPoints = none → (g.points = some 0 ∨ g.points = none)) := by
  intro g hg
  rw [scoreAIDiscoverability_factors_eq] at hg
  simp only [List.mem_cons, List.not_mem_nil, or_false] at hg
  obtain ⟨c0, c1, cp, cm⟩ := scoreAICrawlerAccess_score_bounds (robotsOf networkData)
  obtain ⟨l0, l1, lp, lm⟩ := scoreLlmsTxt_score_bounds (llmsOf networkData)
  rcases hg with h | h | h | h | h <;> rw [h]
  · constructor
    · intro w hw
      have hw' : (scoreAICrawlerAccess (robotsOf networkData) 35).factor.maxPoints
          = w := Option.some.inj hw
      refine ⟨(scoreAICrawlerAccess (robotsOf networkData) 35).factor.points,
        rfl, ?_, ?_⟩
      · rw [cp]
        exact c0
      · rw [cp, ← hw', cm]
        linarith
    · intro hn
      exact absurd hn (by simp [factorN])
  · rw [aiWeight_entityConsistency]
    obtain ⟨hm, hp⟩ := scoreEntityConsistency_undef d
    constructor
    · intro w hw
      rw [hm] at hw
      exact absurd hw (by simp)
    · intro _
      exact hp
  · rw [aiWeight_answerFormatContent]
    obtain ⟨hm, hp⟩ := scoreAnswerFormatContent_undef d
    constructor
    · intro w hw
      rw [hm] at hw
      exact absurd hw (by simp)
    · intro _
      exact hp
  · rw [aiWeight_productIdentifiers]
    obtain ⟨hm, hp⟩ := scoreProductIdentifiers_undef d
    constructor
    · intro w hw
      rw [hm] at hw
      exact absurd hw (by simp)
    · intro _
      exact hp
  · constructor
    · intro w hw
      have hw' : (scoreLlmsTxt (llmsOf networkData) 20).factor.maxPoints = w :=
        Option.some.inj hw
      refine ⟨(scoreLlmsTxt (llmsOf networkData) 20).factor.points, rfl, ?_, ?_⟩
      · rw [lp]
        exact l0
      · rw [lp, ← hw', lm]
        linarith
    · intro hn
      exact absurd hn (by simp [factorN])

/-! ### Whole-result lemmas for `calculateScore` -/

theorem calculateScore_totalScore_eq (ctx : Context) (d : ExtractionInput)
    (iv : Option ImageFormatFact) (nd : Option NetworkData) :
    (calculateScore ctx d iv nd).totalScore =
      jsRoundN (jsAddN
        (some (
          (scoreStructuredData d.structuredData).score *
            CATEGORY_WEIGHTS.structuredData +
          (scoreProtocolMeta d.metaTags iv).score * CATEGORY_WEIGHTS.protocolMeta +
          (scoreContentQuality ctx d.contentQuality
            (some d.aiDiscoverability)).score * CATEGORY_WEIGHTS.contentQuality +
          (scoreContentStructure d.contentStructure
            (some d.contentQuality.textMetrics)).score *
            CATEGORY_WEIGHTS.contentStructure +
          (scoreAuthorityTrust ctx d.trustSignals).score *
            CATEGORY_WEIGHTS.authorityTrust))
        (jsMulN (scoreAIDiscoverability d nd).score
          (some CATEGORY_WEIGHTS.aiDiscoverability))) := by
  simp only [calculateScore]

theorem calculateScore_grade_eq (ctx : Context) (d : ExtractionInput)
    (iv : Option ImageFormatFact) (nd : Option NetworkData) :
    (calculateScore ctx d iv nd).grade =
      getGradeN (calculateScore ctx d iv nd).totalScore := rfl

theorem calculateScore_categories_eq (ctx : Context) (d : ExtractionInput)
    (iv : Option ImageFormatFact) (nd : Option NetworkData) :
    (calculateScore ctx d iv nd).categoryScores =
      { structuredData := scoreStructuredData d.structuredData
        protocolMeta := scoreProtocolMeta d.metaTags iv
        contentQuality := scoreContentQuality ctx d.contentQuality
          (some d.aiDiscoverability)
        contentStructure := scoreContentStructure d.contentStructure
          (some d.contentQuality.textMetrics)
        authorityTrust := scoreAuthorityTrust ctx d.trustSignals
        aiDiscoverability := scoreAIDiscoverability d nd } := rfl

/-- The readability range hypothesis, converted to the engine's read. -/
theorem wf_readability (d : ExtractionInput) (h : WellFormedInput d) :
    ∀ r, readabilityRawQ (some d.contentQuality.textMetrics) = some r →
      0 ≤ r ∧ r ≤ 100 := by
  intro r hr
  exact h.readability_mem r (by simpa [readabilityRawQ] using hr)

/-! ### Concrete inputs for witnesses and counterexamples -/

/-- An empty schema slot set. -/
def emptySchemas : SchemaSet :=
  { product := none, offer := none, aggregateRating := none, reviews := [],
    faq := none, breadcrumb := none, organization := none, brand := none,
    images := [] }

/-- Empty meta tags. -/
def emptyMetaTags : MetaTagsInput :=
  { openGraph := { image := none, title := none, description := none,
                   type' := none }
    twitterCards := { card := none, image := none }
    canonical := { present := false, matchesCurrentUrl := false,
                   isProductCanonical := false }
    standard := { description := none }
    robots := { isBlocked := false } }

/-- Empty content-quality extraction. -/
def emptyContentQuality : ContentQualityInput :=
  { description := { wordCount := 0, lengthScore := 0,
                     hasBenefitStatements := false, hasEmotionalLanguage := false,
                     hasTechnicalTerms := false }
    specifications := { count := 0, countScore := 0, items := [] }
    features := { count := 0, countScore := 0 }
    faq := { count := 0, countScore := 0 }
    productDetails := { hasDimensions := false, hasMaterials := false,
                        hasCareInstructions := false, hasWarranty := false,
                        hasCompatibility := false }
    textMetrics := { readabilityScore := none } }

/-- Empty content-structure extraction. -/
def emptyContentStructure : ContentStructureInput :=
  { headings := { hasSingleH1 := false, hasH1 := false,
                  h1 := { count := 0, texts := [] }, hierarchyValid := false,
                  hierarchyIssues := [] }
    semanticHTML := { score := 0, hasMain := false, hasArticle := false }
    contentRatioData := { score := 0, ratioVal := 0, mainContentFound := false }
    tables := { score := 0, hasProperTables := false, tableCount := 0 }
    lists := { score := 0, hasProperLists := false, orderedCount := 0,
               unorderedCount := 0 }
    accessibility := { ariaLabels := 0 }
    images := { primaryImage := none, altCoverage := 0, totalCount := 0 }
    jsDependency := { score := 0, dependencyLevel := ("low") } }

/-- Empty trust signals. -/
def emptyTrustSignals : TrustSignalsInput :=
  { reviews := { count := 0, hasReviews := false, countScore := 0,
                 ratingScore := 0, depthScore := 0, averageRating := 0,
                 hasRecentReviews := none, averageReviewLength := 0,
                 reviewsAnalyzed := 0 }
    brand := { score := 0, clarity := ("unknown"), name := none,
               inH1 := false, inTitle := false }
    certifications := { found := false, count := 0, score := 0 }
    awards := { count := 0 } }

/-- An empty, well-formed extraction result. -/
def sampleExtraction : ExtractionInput :=
  { structuredData := { schemas := emptySchemas }
    metaTags := emptyMetaTags
    contentQuality := emptyContentQuality
    contentStructure := emptyContentStructure
    trustSignals := emptyTrustSignals
    aiDiscoverability := { answerFormat := none }
    pageInfo := { title := none } }

/-- A product schema carrying only a name. -/
def widgetProduct : SchemaProduct :=
  { name := some ("Widget"), description := none, image := none, sku := none,
    gtin := none, mpn := none, brand := none, hasOffer := false,
    hasRating := false, isProductGroup := false }

/-- An extraction whose product name matches exactly two surfaces
(H1 text and og:title). -/
def entityExtraction : ExtractionInput :=
  { sampleExtraction with
    structuredData := { schemas := { emptySchemas with product := some widgetProduct } }
    contentStructure := { emptyContentStructure with headings :=
      { hasSingleH1 := true, hasH1 := true,
        h1 := { count := 1, texts := [("Widget")] }, hierarchyValid := true,
        hierarchyIssues := [] } }
    metaTags := { emptyMetaTags with openGraph :=
      { image := none, title := some ("Widget"), description := none,
        type' := none } } }

theorem sampleExtraction_wf : WellFormedInput sampleExtraction := by
  constructor <;> first
    | exact ⟨by norm_num [sampleExtraction, emptyContentQuality,
        emptyContentStructure, emptyTrustSignals],
        by norm_num [sampleExtraction, emptyContentQuality,
          emptyContentStructure, emptyTrustSignals]⟩
    | (intro r hr
       rw [show sampleExtraction.contentQuality.textMetrics.readabilityScore =
         (none : Option ℚ) from rfl] at hr
       cases hr)
/-! ### Claim C2 -/

/-- C2 (code bug): the six `CATEGORY_WEIGHTS` do sum to exactly 1 and the
total is the rounded weighted category sum, but the claimed integer total
in `[0, 100]` fails on the snapshot: the engine reads the three missing AI
factor weights as `undefined`, so with a named product the AI category
score — and with it `totalScore` — is `NaN` (here at the two-surface-match
extraction), and the grade falls through every `NaN` comparison to F. -/
theorem C2_total_score_nan :
    CATEGORY_WEIGHTS.structuredData + CATEGORY_WEIGHTS.protocolMeta +
      CATEGORY_WEIGHTS.contentQuality + CATEGORY_WEIGHTS.contentStructure +
      CATEGORY_WEIGHTS.authorityTrust + CATEGORY_WEIGHTS.aiDiscoverability = 1 ∧
    (calculateScore .hybrid entityExtraction none none).totalScore = none ∧
    (calculateScore .hybrid entityExtraction none none).grade = Grade.F := by
  refine ⟨by norm_num [CATEGORY_WEIGHTS], rfl, rfl⟩

/-! ### Claim C6 -/

/-- All factor records of the five plain-number categories of one
`ScoreResult` (the AI Discoverability factors carry `Option ℚ` fields to
model `NaN`/`undefined` and are treated separately). -/
def allFactors (r : ScoreResult) : List Factor :=
  r.categoryScores.structuredData.factors ++
  r.categoryScores.protocolMeta.factors ++
  r.categoryScores.contentQuality.factors ++
  r.categoryScores.contentStructure.factors ++
  r.categoryScores.authorityTrust.factors

/-- The empty extraction with a maximal review-count sub-score. -/
def overflowExtraction : ExtractionInput :=
  { sampleExtraction with trustSignals :=
      { emptyTrustSignals with reviews :=
          { emptyTrustSignals.reviews with countScore := 100 } } }

/-- C6 counterexample: under the `want` context the Review Count factor of
the final score report carries 35 points against `maxPoints = 25` (the
source clamps it at `weights.reviewCount * 1.5`, not at
`weights.reviewCount`), so `points ≤ maxPoints` fails. -/
theorem C6_factor_points_counterexample :
    ∃ f ∈ allFactors (calculateScore .want overflowExtraction none none),
      f.maxPoints < f.points := by
  have h := scoreAuthorityTrust_factor_points .want overflowExtraction.trustSignals
  simp only [CONTEXT_MULTIPLIERS] at h
  have hcs : overflowExtraction.trustSignals.reviews.countScore = 100 := rfl
  rw [hcs] at h
  have hhead : (("Review Count"),
      min (25 * (15/10)) (jsRound (scalePart (100:ℚ) 25 * (14/10))), (25:ℚ)) ∈
      (scoreAuthorityTrust .want overflowExtraction.trustSignals).factors.map
        (fun f => (f.name, f.points, f.maxPoints)) := by
    rw [h]
    exact List.mem_cons_self _ _
  obtain ⟨g, hg, hge⟩ := List.mem_map.mp hhead
  obtain ⟨hn, hp, hm⟩ : g.name = ("Review Count") ∧
      g.points = min (25 * (15/10)) (jsRound (scalePart (100:ℚ) 25 * (14/10))) ∧
      g.maxPoints = 25 := by
    simpa using hge
  refine ⟨g, ?_, ?_⟩
  · unfold allFactors
    rw [calculateScore_categories_eq]
    simp only [List.mem_append]
    exact Or.inr hg
  · rw [hp, hm]
    norm_num [scalePart, jsRound]

/-- C6 (amended): every factor of the five plain categories of the final
score report has non-negative points bounded by `maxPoints` — except the
Review Count factor, which is only clamped at `1.5 × maxPoints`; and for
the AI Discoverability factors the bound holds exactly where the shipped
weights table configures a weight (AI Crawler Access, llms.txt Presence):
the three factors whose weight key is absent report `undefined` maxPoints
with points 0 or `NaN`, so the claimed `points ≤ maxPoints` is not even
well-posed for them. -/
theorem C6_factor_points_bound_amended (ctx : Context) (d : ExtractionInput)
    (iv : Option ImageFormatFact) (nd : Option NetworkData)
    (h : WellFormedInput d) :
    (∀ f ∈ allFactors (calculateScore ctx d iv nd),
      0 ≤ f.points ∧ (f.points ≤ f.maxPoints ∨
        (f.name = ("Review Count") ∧ f.points ≤ f.maxPoints * (15/10)))) ∧
    (∀ g ∈ (calculateScore ctx d iv nd).categoryScores.aiDiscoverability.factors,
      (∀ w, g.maxPoints = some w → ∃ p, g.points = some p ∧ 0 ≤ p ∧ p ≤ w) ∧
      (g.maxPoints = none → (g.points = some 0 ∨ g.points = none))) := by
  constructor
  · intro f hf
    unfold allFactors at hf
    rw [calculateScore_categories_eq] at hf
    simp only [List.mem_append] at hf
    rcases hf with (((hf | hf) | hf) | hf) | hf
    · obtain ⟨h0, h1⟩ := scoreStructuredData_factor_bounds d.structuredData f hf
      exact ⟨h0, Or.inl h1⟩
    · obtain ⟨h0, h1⟩ := scoreProtocolMeta_factor_bounds d.metaTags iv f hf
      exact ⟨h0, Or.inl h1⟩
    · obtain ⟨h0, h1⟩ := scoreContentQuality_factor_bounds ctx d.contentQuality
        (some d.aiDiscoverability) h.lengthScore_mem h.specCountScore_mem
        h.featureCountScore_mem h.faqCountScore_mem f hf
      exact ⟨h0, Or.inl h1⟩
    · obtain ⟨h0, h1⟩ := scoreContentStructure_factor_bounds d.contentStructure
        (some d.contentQuality.textMetrics) h.semanticScore_mem h.ratioScore_mem
        h.tablesScore_mem h.listsScore_mem h.altCoverage_mem h.jsScore_mem
        (wf_readability d h) f hf
      exact ⟨h0, Or.inl h1⟩
    · exact scoreAuthorityTrust_factor_bounds ctx d.trustSignals
        h.reviewCountScore_mem h.ratingScore_mem h.depthScore_mem h.brandScore_mem
        h.certScore_mem f hf
  · intro g hg
    rw [calculateScore_categories_eq] at hg
    exact scoreAIDiscoverability_factor_bounds d nd g hg

/-- C6 amended witness: the well-formedness hypothesis is discharged at the
empty extraction, and the amended bound holds of its full report. -/
theorem C6_factor_points_bound_amended_witness :
    WellFormedInput sampleExtraction ∧
    ((∀ f ∈ allFactors (calculateScore .hybrid sampleExtraction none none),
      0 ≤ f.points ∧ (f.points ≤ f.maxPoints ∨
        (f.name = ("Review Count") ∧ f.points ≤ f.maxPoints * (15/10)))) ∧
    (∀ g ∈ (calculateScore .hybrid sampleExtraction
        none none).categoryScores.aiDiscoverability.factors,
      (∀ w, g.maxPoints = some w → ∃ p, g.points = some p ∧ 0 ≤ p ∧ p ≤ w) ∧
      (g.maxPoints = none → (g.points = some 0 ∨ g.points = none)))) :=
  ⟨sampleExtraction_wf,
    C6_factor_points_bound_amended .hybrid sampleExtraction none none
      sampleExtraction_wf⟩

/-! ### Claim C7 -/

/-- C7: the AI Crawler Access factor awards half credit with `warning` when
robots.txt was inaccessible with a network/CORS error, full credit with
`pass` when it was inaccessible without an error (file absent), and
otherwise — robots.txt readable — awards
`round(maxPoints × allowed/(blocked+allowed))` with `warning` for a partial
block, with `fail` and 0 points exactly when there are monitored crawlers
and every one of them is blocked. -/
theorem C7_ai_crawler_access_policy (r : RobotsFact) (mp : ℚ) :
    ((r.accessible = false ∧ truthyS r.error = true) →
      (scoreAICrawlerAccess (some r) mp).score = mp * (5/10) ∧
      (scoreAICrawlerAccess (some r) mp).factor.status = .warning) ∧
    ((r.accessible = false ∧ truthyS r.error = false) →
      (scoreAICrawlerAccess (some r) mp).score = mp ∧
      (scoreAICrawlerAccess (some r) mp).factor.status = .pass) ∧
    (r.accessible = true →
      ((0 < r.blockedCrawlers.length ∧
          r.blockedCrawlers.length <
            r.blockedCrawlers.length + r.allowedCrawlers.length) →
        (scoreAICrawlerAccess (some r) mp).score =
          jsRound (mp * ((r.allowedCrawlers.length : ℚ) /
            ((r.blockedCrawlers.length + r.allowedCrawlers.length : ℕ) : ℚ))) ∧
        (scoreAICrawlerAccess (some r) mp).factor.status = .warning) ∧
      (((scoreAICrawlerAccess (some r) mp).factor.status = .fail ∧
          (scoreAICrawlerAccess (some r) mp).score = 0) ↔
        (0 < r.blockedCrawlers.length + r.allowedCrawlers.length ∧
          r.allowedCrawlers.length = 0))) := by
  unfold scoreAICrawlerAccess
  dsimp only
  split_ifs with h1 h2 h3 h4
  · refine ⟨fun _ => ⟨rfl, rfl⟩, ?_, ?_⟩
    · rintro ⟨ha, he⟩
      rw [h1.2] at he
      simp at he
    · intro ha
      exact absurd ha (by simp [h1.1])
  · refine ⟨?_, fun _ => ⟨rfl, rfl⟩, ?_⟩
    · rintro ⟨ha, he⟩
      exact absurd ⟨ha, he⟩ h1
    · intro ha
      exact absurd ha (by simp [h2])
  · refine ⟨?_, ?_, ?_⟩
    · rintro ⟨ha, he⟩
      exact absurd ha h2
    · rintro ⟨ha, he⟩
      exact absurd ha h2
    · intro ha
      refine ⟨?_, ?_⟩
      · rintro ⟨hb, hlt⟩
        omega
      · constructor
        · rintro ⟨hst, hsc⟩
          simp at hst
        · rintro ⟨htot, hall⟩
          omega
  · refine ⟨?_, ?_, ?_⟩
    · rintro ⟨ha, he⟩
      exact absurd ha h2
    · rintro ⟨ha, he⟩
      exact absurd ha h2
    · intro ha
      refine ⟨fun _ => ⟨rfl, rfl⟩, ?_⟩
      constructor
      · rintro ⟨hst, hsc⟩
        simp at hst
      · rintro ⟨htot, hall⟩
        omega
  · refine ⟨?_, ?_, ?_⟩
    · rintro ⟨ha, he⟩
      exact absurd ha h2
    · rintro ⟨ha, he⟩
      exact absurd ha h2
    · intro ha
      refine ⟨?_, ?_⟩
      · rintro ⟨hb, hlt⟩
        exact absurd hlt h4
      · constructor
        · intro _
          exact ⟨by omega, by omega⟩
        · intro _
          exact ⟨rfl, rfl⟩

/-- A robots fetch that failed with a network/CORS error. -/
def robotsErrFact : RobotsFact :=
  { accessible := false, error := some ("CORS error"), blockedCrawlers := [],
    allowedCrawlers := [] }

/-- C7 witness: the error branch at weight 30 gives 15 points, warning. -/
theorem C7_ai_crawler_access_policy_witness :
    (scoreAICrawlerAccess (some robotsErrFact) 30).score = 30 * (5/10) ∧
    (scoreAICrawlerAccess (some robotsErrFact) 30).factor.status = .warning :=
  (C7_ai_crawler_access_policy robotsErrFact 30).1 ⟨rfl, rfl⟩
/-! ### Claim C10 -/

/-- C10: with no image verification supplied and an og:image URL declared,
the og:image Format factor is inferred from the lowercased URL alone:
`.webp` suffix or `.webp?` occurrence fails with 0 points; a
`.jpg/.jpeg/.png/.gif` extension (optionally followed by a query string)
passes with full points; anything else is `unknown` with 0 points. -/
theorem C10_og_image_format_inference (ogImage : Option String) (w : ℚ)
    (h : truthyS ogImage = true) :
    ((endsWithStr (lowerStr (ogImage.getD (""))) ((".webp")) ||
        includesStr (lowerStr (ogImage.getD (""))) ((".webp?"))) = true →
      (ogImageFormatFactor ogImage none w).status = .fail ∧
      (ogImageFormatFactor ogImage none w).points = 0) ∧
    ((endsWithStr (lowerStr (ogImage.getD (""))) ((".webp")) ||
        includesStr (lowerStr (ogImage.getD (""))) ((".webp?"))) = false →
      extFormatMatch (lowerStr (ogImage.getD (""))) = true →
      (ogImageFormatFactor ogImage none w).status = .pass ∧
      (ogImageFormatFactor ogImage none w).points = w) ∧
    ((endsWithStr (lowerStr (ogImage.getD (""))) ((".webp")) ||
        includesStr (lowerStr (ogImage.getD (""))) ((".webp?"))) = false →
      extFormatMatch (lowerStr (ogImage.getD (""))) = false →
      (ogImageFormatFactor ogImage none w).status = .unknown ∧
      (ogImageFormatFactor ogImage none w).points = 0) ∧
    (ogImageFormatFactor ogImage none w).maxPoints = w := by
  refine ⟨?_, ?_, ?_, ?_⟩
  · intro h1
    unfold ogImageFormatFactor
    dsimp only
    rw [if_pos h, if_pos h1]
    exact ⟨rfl, rfl⟩
  · intro h1 h2
    unfold ogImageFormatFactor
    dsimp only
    rw [if_pos h, if_neg (by simp [h1]), if_pos h2]
    exact ⟨rfl, rfl⟩
  · intro h1 h2
    unfold ogImageFormatFactor
    dsimp only
    rw [if_pos h, if_neg (by simp [h1]), if_neg (by simp [h2])]
    exact ⟨rfl, rfl⟩
  · unfold ogImageFormatFactor
    dsimp only
    rw [if_pos h]
    split_ifs <;> rfl

/-- C10 witness: a mixed-case `.PNG?` URL passes with full points. -/
theorem C10_og_image_format_inference_witness :
    (ogImageFormatFactor (some ("IMG.PNG?a")) none 15).status = .pass ∧
    (ogImageFormatFactor (some ("IMG.PNG?a")) none 15).points = 15 :=
  (C10_og_image_format_inference (some ("IMG.PNG?a")) 15 rfl).2.1 (by decide)
    (by decide)
/-! ### Claim C1 -/

/-- C1 (code bug): the shipped weights table has no `entityConsistency`
key, so the engine reads an `undefined` weight: at the extraction whose
product name "Widget" matches 2 of the 4 surfaces (the H1 and og:title),
the Entity Consistency factor's `maxPoints` is `undefined` and its points
are `Math.round(2 × undefined/4) = NaN` — not the claimed
`(matches/4) × weight`. -/
theorem C1_entity_weight_missing :
    aiWeight (("entityConsistency")) = none ∧
    entityMatchCountN entityExtraction
      (jsTrim (lowerStr ((productNameOf entityExtraction).getD ("")))) = 2 ∧
    (scoreEntityConsistency entityExtraction
      (aiWeight (("entityConsistency")))).factor.points = none ∧
    (scoreEntityConsistency entityExtraction
      (aiWeight (("entityConsistency")))).factor.maxPoints = none := by
  refine ⟨rfl, by decide, rfl, rfl⟩

/-! ### Claim C8 -/

/-- C8: a match of the negative warranty pattern suppresses every positive
warranty pattern, for any page text; in particular "This product has no
warranty" yields `hasWarranty = false`, while "12-month warranty on parts"
(no negative phrase, no schema warranty) yields `hasWarranty = true` with
the captured text containing "12-month warranty". -/
theorem C8_warranty_negative_guard (text : String)
    (h : warrantyNegativeMatches text = true) :
    (extractWarranty text []).hasWarranty = false ∧
    (extractWarranty ("This product has no warranty") []).hasWarranty = false ∧
    (extractWarranty ("12-month warranty on parts") []).hasWarranty = true ∧
    includesStr
      (((extractWarranty ("12-month warranty on parts") []).warrantyText).getD
        (""))
      (("12-month warranty")) = true := by
  refine ⟨?_, by decide, by decide, by decide⟩
  show (applySchemaWarranty [] (extractWarrantyFromText text)).hasWarranty = false
  have happ : applySchemaWarranty [] (extractWarrantyFromText text) =
      extractWarrantyFromText text := rfl
  rw [happ]
  unfold extractWarrantyFromText
  rw [if_pos h]

/-- C8 witness: the suppression applied to the negative-phrase page. -/
theorem C8_warranty_negative_guard_witness :
    (extractWarranty ("This product has no warranty") []).hasWarranty = false :=
  (C8_warranty_negative_guard ("This product has no warranty") (by decide)).1
/-! ### Claim C5 -/

theorem mdOfferStep_product (ty : String) (props : List (String × MDVal))
    (s : SchemasAccum) : (mdOfferStep ty props s).product = s.product := by
  unfold mdOfferStep
  split <;> rfl

theorem mdRatingStep_product (ty : String) (props : List (String × MDVal))
    (s : SchemasAccum) : (mdRatingStep ty props s).product = s.product := by
  unfold mdRatingStep
  split <;> rfl

theorem mdReviewStep_product (rawType ty : String)
    (props : List (String × MDVal)) (s : SchemasAccum) :
    (mdReviewStep rawType ty props s).product = s.product := by
  unfold mdReviewStep
  split <;> rfl

theorem mdFaqStep_product (ty : String) (props : List (String × MDVal))
    (s : SchemasAccum) : (mdFaqStep ty props s).product = s.product := by
  unfold mdFaqStep
  split <;> rfl

theorem mdBreadcrumbStep_product (ty : String) (props : List (String × MDVal))
    (s : SchemasAccum) : (mdBreadcrumbStep ty props s).product = s.product := by
  unfold mdBreadcrumbStep
  split <;> rfl

theorem mdOrgStep_product (ty : String) (props : List (String × MDVal))
    (s : SchemasAccum) : (mdOrgStep ty props s).product = s.product := by
  unfold mdOrgStep
  split <;> rfl

theorem mdBrandStep_product (ty : String) (props : List (String × MDVal))
    (s : SchemasAccum) : (mdBrandStep ty props s).product = s.product := by
  unfold mdBrandStep
  split <;> rfl

theorem mdImageStep_product (ty : String) (props : List (String × MDVal))
    (s : SchemasAccum) : (mdImageStep ty props s).product = s.product := by
  unfold mdImageStep
  split <;> rfl

theorem mdProductStep_product_of_isSome (ty : String)
    (props : List (String × MDVal)) (s : SchemasAccum)
    (hs : s.product.isSome = true) :
    (mdProductStep ty props s).product = s.product := by
  obtain ⟨p, hp⟩ := Option.isSome_iff_exists.mp hs
  unfold mdProductStep
  rw [hp]
  simp only [Option.isNone_some, Bool.and_false, Bool.false_eq_true, if_false]
  exact hp

/-- Microdata categorization never replaces a product found by JSON-LD. -/
theorem categorizeMicrodataItem_product_guard (s : SchemasAccum) (m : MicroItem)
    (hs : s.product.isSome = true) :
    (categorizeMicrodataItem s m).product = s.product := by
  unfold categorizeMicrodataItem
  split
  · rfl
  · rw [mdImageStep_product, mdBrandStep_product, mdOrgStep_product,
      mdBreadcrumbStep_product, mdFaqStep_product, mdReviewStep_product,
      mdRatingStep_product, mdOfferStep_product,
      mdProductStep_product_of_isSome _ _ _ hs]
/-- A JSON-LD block holding one named Product entity. -/
def productBlock (n : String) : JsonV :=
  .obj [(("@type"), .str ("Product")), (("name"), .str n)]

/-- C5 counterexample: with two Product blocks, the final product slot
carries the SECOND product's name — later matches replace earlier ones, so
first-found-wins fails. -/
theorem C5_single_product_counterexample :
    ((extractStructuredDataSchemas
        [productBlock ("Product A"), productBlock ("Product B")]
        []).product.map (fun p => p.name)) = some (some (.str ("Product B"))) ∧
    ((extractStructuredDataSchemas
        [productBlock ("Product A"), productBlock ("Product B")]
        []).product.map (fun p => p.name)) ≠ some (some (.str ("Product A"))) := by
  refine ⟨rfl, ?_⟩
  intro hc
  have heq : ((extractStructuredDataSchemas
      [productBlock ("Product A"), productBlock ("Product B")]
      []).product.map (fun p => p.name)) = some (some (.str ("Product B"))) := rfl
  rw [heq] at hc
  have h1 := Option.some.inj hc
  have h2 := Option.some.inj h1
  have h3 := JsonV.str.inj h2
  exact absurd h3 (by decide)

/-- A pre-filled accumulator (as after a JSON-LD product was found). -/
def mdSampleAccum : SchemasAccum :=
  { product := some
      { name := some (.str ("X")), description := none, image := none,
        sku := none, gtin := none, mpn := none, brand := none,
        hasOffer := false, hasRating := false, isProductGroup := false } }

/-- A microdata Product item. -/
def mdSampleItem : MicroItem :=
  { type' := ("https://schema.org/Product")
    properties := [(("name"), .str (("Y")))] }

/-- C5 (amended): the schema set holds at most one product (a single
`Option` slot), but across JSON-LD blocks the LAST product entity wins —
`categorizeItem` overwrites the slot unconditionally — while Microdata
never replaces a product that JSON-LD found. -/
theorem C5_product_precedence_amended (n1 n2 : String) (s : SchemasAccum)
    (m : MicroItem) (hs : s.product.isSome = true) :
    ((extractStructuredDataSchemas [productBlock n1, productBlock n2]
        []).product.map (fun p => p.name)) = some (some (.str n2)) ∧
    (categorizeMicrodataItem s m).product = s.product :=
  ⟨rfl, categorizeMicrodataItem_product_guard s m hs⟩

/-- C5 amended witness at concrete blocks and a concrete microdata item. -/
theorem C5_product_precedence_amended_witness :
    ((extractStructuredDataSchemas [productBlock ("A"), productBlock ("B")]
        []).product.map (fun p => p.name)) = some (some (.str ("B"))) ∧
    (categorizeMicrodataItem mdSampleAccum mdSampleItem).product =
      mdSampleAccum.product :=
  C5_product_precedence_amended ("A") ("B") mdSampleAccum mdSampleItem rfl
/-! ### Claims C3 and C4 -/

/-- A JSON-LD `@graph` block whose Product references its rating through
`{"@id": "#r"}`, with the AggregateRating as a sibling node. -/
def idRefBlock : JsonV :=
  .obj [(("@context"), .str ("https://schema.org")),
        (("@graph"), .arr
          [.obj [(("@type"), .str ("Product")), (("name"), .str ("P")),
                 (("aggregateRating"), .obj [(("@id"), .str ("#r"))])],
           .obj [(("@type"), .str ("AggregateRating")), (("@id"), .str ("#r")),
                 (("ratingValue"), .num (45/10)),
                 (("reviewCount"), .num 10)]])]

/-- C3 (code bug): the snapshot's `categorizeSchemas` never resolves `@id`
references (and ignores standalone AggregateRating nodes), so the rating
read through the `{"@id": "#r"}` reference object parses to `NaN`
(`ratingValue = none`) instead of the sibling node's 4.5. -/
theorem C3_id_reference_unresolved :
    ((extractStructuredDataSchemas [idRefBlock] []).aggregateRating.map
      (fun r => r.ratingValue)) = some none ∧
    ((extractStructuredDataSchemas [idRefBlock] []).aggregateRating.map
      (fun r => r.ratingValue)) ≠ some (some (45/10 : ℚ)) := by
  refine ⟨rfl, ?_⟩
  intro hc
  have heq : ((extractStructuredDataSchemas [idRefBlock] []).aggregateRating.map
      (fun r => r.ratingValue)) = some (none : Option ℚ) := rfl
  rw [heq] at hc
  exact Option.noConfusion (Option.some.inj hc)

/-- A ProductGroup with three variants, only the third carrying a GTIN. -/
def variantGroupBlock : JsonV :=
  .obj [(("@type"), .str ("ProductGroup")), (("name"), .str ("G")),
        (("productGroupID"), .str ("PG1")),
        (("hasVariant"), .arr
          [.obj [(("@type"), .str ("Product")), (("name"), .str ("V1"))],
           .obj [(("@type"), .str ("Product")), (("name"), .str ("V2"))],
           .obj [(("@type"), .str ("Product")), (("name"), .str ("V3")),
                 (("gtin"), .str ("012345678905"))]])]

/-- C4 (code bug): the snapshot's `categorizeSchemas` reads GTIN only from
the top-level `gtin`/`gtin13`/`gtin14`/`gtin12`/`gtin8` properties and
never iterates `hasVariant`, so the third variant's GTIN is lost
(`product.gtin = none`, not `"012345678905"`). -/
theorem C4_variant_gtin_not_inherited :
    ((extractStructuredDataSchemas [variantGroupBlock] []).product.map
      (fun p => p.gtin)) = some none ∧
    ((extractStructuredDataSchemas [variantGroupBlock] []).product.map
      (fun p => p.gtin)) ≠ some (some (.str ("012345678905"))) := by
  refine ⟨rfl, ?_⟩
  intro hc
  have heq : ((extractStructuredDataSchemas [variantGroupBlock] []).product.map
      (fun p => p.gtin)) = some (none : Option JsonV) := rfl
  rw [heq] at hc
  exact Option.noConfusion (Option.some.inj hc)
/-! ### Claim C9 -/

/-- A recommendation is FAQ-related if it is one of the three FAQ
templates. -/
def isFaqRec (r : Recommendation) : Bool :=
  r.id == ("faq-schema-missing") || r.id == ("faq-schema-and-content-missing") ||
  r.id == ("faq-content-missing")

theorem countP_ite_zero_rec (c : Prop) [Decidable c] (a b : List Recommendation)
    (ha : a.countP isFaqRec = 0) (hb : b.countP isFaqRec = 0) :
    (if c then a else b).countP isFaqRec = 0 := by
  split_ifs <;> assumption

theorem countP_ite1_rec (c : Prop) [Decidable c] (a : List Recommendation)
    (ha : a.countP isFaqRec = 1) :
    (if c then a else []).countP isFaqRec = (if c then 1 else 0) := by
  split_ifs
  · exact ha
  · rfl

theorem countP_ite3_rec (c1 c2 : Prop) [Decidable c1] [Decidable c2]
    (a b : List Recommendation) (ha : a.countP isFaqRec = 1)
    (hb : b.countP isFaqRec = 1) :
    ((if c1 then a else if c2 then b else []).countP isFaqRec) =
      (if c1 then 1 else if c2 then 1 else 0) := by
  split_ifs
  · exact ha
  · exact hb
  · rfl

theorem sum_zeros (a b : ℕ) (ha : a = 0) (hb : b = 0) : a + b = 0 := by omega

theorem sum_faqL (a b t : ℕ) (ha : a = t) (hb : b = 0) : a + b = t := by omega

theorem sum_faqR (a b t : ℕ) (ha : a = 0) (hb : b = t) : a + b = t := by omega

/-- Protocol/meta recommendations are never FAQ-related. -/
theorem countP_checkProtocolMeta (d : ExtractionInput)
    (iv : Option ImageFormatFact) :
    (checkProtocolMetaIssues d iv).countP isFaqRec = 0 := by
  unfold checkProtocolMetaIssues
  simp only [List.countP_append]
  exact sum_zeros _ _ (sum_zeros _ _ (sum_zeros _ _ (sum_zeros _ _ (sum_zeros _ _
    (sum_zeros _ _
      (countP_ite_zero_rec _ _ _ (by decide) (by decide))
      (countP_ite_zero_rec _ _ _ (by decide)
        (countP_ite_zero_rec _ _ _ (by decide) (by decide))))
    (countP_ite_zero_rec _ _ _ (by decide) (by decide)))
    (countP_ite_zero_rec _ _ _ (by decide) (by decide)))
    (countP_ite_zero_rec _ _ _ (by decide) (by decide)))
    (countP_ite_zero_rec _ _ _ (by decide) (by decide)))
    (countP_ite_zero_rec _ _ _ (by decide) (by decide))

/-- The FAQ-related count of the structured-data check: one when the FAQ
schema is missing (whether or not FAQ content exists), none otherwise. -/
theorem countP_checkStructuredData (d : ExtractionInput) :
    (checkStructuredDataIssues d).countP isFaqRec =
      (if d.structuredData.schemas.faq.isNone && 0 < d.contentQuality.faq.count
       then 1
       else if d.structuredData.schemas.faq.isNone &&
           d.contentQuality.faq.count = 0 then 1
       else 0) := by
  unfold checkStructuredDataIssues
  simp only [List.countP_append]
  exact sum_faqL _ _ _ (sum_faqR _ _ _ (sum_zeros _ _ (sum_zeros _ _
      (countP_ite_zero_rec _ _ _ (by decide) (by decide))
      (countP_ite_zero_rec _ _ _ (by decide) (by decide)))
      (countP_ite_zero_rec _ _ _ (by decide) (by decide)))
    (countP_ite3_rec _ _ _ _ (by decide) (by decide)))
    (countP_ite_zero_rec _ _ _ (by decide) (by decide))

/-- The FAQ-related count of the content-quality check: one exactly for a
present-but-thin FAQ (`0 < count < 3`). -/
theorem countP_checkContentQuality (ctx : Context) (d : ExtractionInput) :
    (checkContentQualityIssues ctx d).countP isFaqRec =
      (if 0 < d.contentQuality.faq.count && d.contentQuality.faq.count < 3
       then 1 else 0) := by
  unfold checkContentQualityIssues
  simp only [List.countP_append]
  exact sum_faqL _ _ _ (sum_faqL _ _ _ (sum_faqR _ _ _ (sum_zeros _ _ (sum_zeros _ _
      (countP_ite_zero_rec _ _ _ rfl rfl)
      (countP_ite_zero_rec _ _ _ rfl rfl))
      (countP_ite_zero_rec _ _ _ rfl rfl))
    (countP_ite1_rec _ _ rfl))
    (countP_ite_zero_rec _ _ _
      (countP_ite_zero_rec _ _ _ rfl rfl) rfl))
    (countP_ite_zero_rec _ _ _ rfl rfl)
/-- Content-structure recommendations are never FAQ-related. -/
theorem countP_checkContentStructure (d : ExtractionInput) :
    (checkContentStructureIssues d).countP isFaqRec = 0 := by
  unfold checkContentStructureIssues
  rcases hpi : d.contentStructure.images.primaryImage with - | pi <;>
    (simp only [hpi, List.countP_append]
     refine sum_zeros _ _ (sum_zeros _ _ (sum_zeros _ _ (sum_zeros _ _
       (sum_zeros _ _ ?_ ?_) ?_) ?_) ?_) ?_ <;>
      first
        | rfl
        | exact countP_ite_zero_rec _ _ _ rfl rfl)

/-- Authority/trust recommendations are never FAQ-related. -/
theorem countP_checkAuthorityTrust (ctx : Context) (d : ExtractionInput) :
    (checkAuthorityTrustIssues ctx d).countP isFaqRec = 0 := by
  unfold checkAuthorityTrustIssues
  simp only [List.countP_append]
  exact sum_zeros _ _ (sum_zeros _ _
      (countP_ite_zero_rec _ _ _ rfl (countP_ite_zero_rec _ _ _ rfl rfl))
      (countP_ite_zero_rec _ _ _ rfl (countP_ite_zero_rec _ _ _ rfl rfl)))
    (countP_ite_zero_rec _ _ _ (countP_ite_zero_rec _ _ _ rfl rfl) rfl)

/-- AI-discoverability recommendations are never FAQ-related. -/
theorem countP_checkAI (scoreResult : ScoreResult) :
    (checkAIDiscoverabilityIssues scoreResult).countP isFaqRec = 0 := by
  unfold checkAIDiscoverabilityIssues
  generalize scoreResult.categoryScores.aiDiscoverability.factors = fl
  induction fl with
  | nil => rfl
  | cons f t ih =>
    simp only [List.flatMap_cons, List.countP_append]
    exact sum_zeros _ _ (sum_zeros _ _ (sum_zeros _ _ (sum_zeros _ _ (sum_zeros _ _
        (countP_ite_zero_rec _ _ _ rfl (countP_ite_zero_rec _ _ _ rfl rfl))
        (countP_ite_zero_rec _ _ _ rfl rfl))
        (countP_ite_zero_rec _ _ _ rfl rfl))
        (countP_ite_zero_rec _ _ _ rfl rfl))
        (countP_ite_zero_rec _ _ _ rfl rfl))
      ih

/-- The FAQ-related count of the full generated recommendation list. -/
theorem countP_generateRecommendations (scoreResult : ScoreResult)
    (d : ExtractionInput) (iv : Option ImageFormatFact) :
    (generateRecommendations scoreResult d iv).countP isFaqRec =
      (if d.structuredData.schemas.faq.isNone && 0 < d.contentQuality.faq.count
       then 1
       else if d.structuredData.schemas.faq.isNone &&
           d.contentQuality.faq.count = 0 then 1
       else 0) +
      (if 0 < d.contentQuality.faq.count && d.contentQuality.faq.count < 3
       then 1 else 0) := by
  unfold generateRecommendations
  rw [(List.mergeSort_perm _ recLE).countP_eq]
  simp only [List.countP_append]
  rw [countP_checkProtocolMeta, countP_checkStructuredData,
    countP_checkContentQuality, countP_checkContentStructure,
    countP_checkAuthorityTrust, countP_checkAI]
  omega
/-- The empty extraction with thin FAQ content (2 questions) and no FAQ
schema. -/
def faqExtraction : ExtractionInput :=
  { sampleExtraction with contentQuality :=
      { emptyContentQuality with faq := { count := 2, countScore := 20 } } }

/-- C9 counterexample: with FAQ content present but thin (count 2) and no
FAQ schema, BOTH `faq-schema-missing` and `faq-content-missing` fire, so
the generated list carries two FAQ-related recommendations — "at most one"
fails. -/
theorem C9_faq_dedup_counterexample :
    (generateRecommendations (calculateScore .hybrid faqExtraction none none)
      faqExtraction none).countP isFaqRec = 2 ∧
    ¬ ((generateRecommendations (calculateScore .hybrid faqExtraction none none)
      faqExtraction none).countP isFaqRec ≤ 1) := by
  have h : (generateRecommendations (calculateScore .hybrid faqExtraction none
      none) faqExtraction none).countP isFaqRec = 2 := by
    rw [countP_generateRecommendations]
    decide
  exact ⟨h, by omega⟩

/-- C9 (amended): when the page has no FAQ content (`count = 0`) and no FAQ
schema, exactly one FAQ-related recommendation
(`faq-schema-and-content-missing`) appears in the generated list. -/
theorem C9_faq_single_recommendation_amended (scoreResult : ScoreResult)
    (d : ExtractionInput) (iv : Option ImageFormatFact)
    (h1 : d.structuredData.schemas.faq.isNone = true)
    (h2 : d.contentQuality.faq.count = 0) :
    (generateRecommendations scoreResult d iv).countP isFaqRec = 1 := by
  rw [countP_generateRecommendations, h1, h2]
  decide

/-- C9 amended witness at the empty extraction. -/
theorem C9_faq_single_recommendation_amended_witness :
    (generateRecommendations (calculateScore .hybrid sampleExtraction none none)
      sampleExtraction none).countP isFaqRec = 1 :=
  C9_faq_single_recommendation_amended
    (calculateScore .hybrid sampleExtraction none none) sampleExtraction none
    rfl rfl

end PdpIQ
